import Mathlib

/-!
Gigabyte keyboard HID driver: report rewriting.

A shallow embedding of `src/driver/gigabytekbd_driver.c`.

* A report buffer `u8 *rd` is a `List Nat`; a pointer into it (`&rd[2]`) is the
  same list together with an offset `off`, so that the callee's `rd[i]` is the
  buffer's byte `off + i`.
* The driver data, the process-wide handles and the calls into the HID core
  (`hid_report_raw_event`, `schedule_work`) are passed and returned explicitly.
* The only unbounded loop, the `while` of
  `gigabyte_kbd_util_remove_byte_occurrences`, takes a bound on its number of
  tests; running out of it is the fault `out_of_fuel`. Dereferencing an absent
  handle is the fault `null_dereference`.
-/

namespace GigabyteKbd

/-! ## Constants of the source -/

def HIDRAW_FN_ESC : Nat := 0x04000084
def HIDRAW_FN_F2 : Nat := 0x0400007C
def HIDRAW_FN_F3 : Nat := 0x0400007D
def HIDRAW_FN_F4 : Nat := 0x0400007E
def HIDRAW_FN_F6 : Nat := 0x04000080
def HIDRAW_FN_F10 : Nat := 0x04000081

def MOD_CODE_LEFT_CTRL : Nat := 0x01
def MOD_CODE_LEFT_SUPER : Nat := 0x08

def KEY_CODE_P : Nat := 0x13
def KEY_CODE_XF86_TOUCHPAD_OFF : Nat := 0x72
def KEY_CODE_MYSTERIOUS : Nat := 0x73

/-- The value of `HID_INPUT_REPORT` in the kernel's `enum hid_report_type`. -/
def HID_INPUT_REPORT : Nat := 0

/-- The value of `FB_BLANK_UNBLANK` in the kernel's `linux/fb.h`. -/
def FB_BLANK_UNBLANK : Nat := 0

/-- The value of `FB_BLANK_POWERDOWN` in the kernel's `linux/fb.h`. -/
def FB_BLANK_POWERDOWN : Nat := 4

/-- The value of `ENOMEM`. -/
def ENOMEM : Int := 12

/-- The macro `make_u32(a, b, c, d) a << 24 | b << 16 | c << 8 | d`, stored in a `u32`. -/
def make_u32 (a b c d : Nat) : Nat :=
  (a <<< 24 ||| b <<< 16 ||| c <<< 8 ||| d) % 2 ^ 32

/-- The update `x &= ~m` on a `u8`: the complement is cut to the eight bits of the byte. -/
def clear_bits (x m : Nat) : Nat := x &&& (0xFF ^^^ m)

/-! ## Data model -/

/-- The two ways a run of the code can fail to produce a result. -/
inductive Fault where
  | null_dereference
  | out_of_fuel
deriving DecidableEq, Repr

/-- The source's `struct gigabyte_kbd_aero17xe5_drvdata`. -/
structure gigabyte_kbd_aero17xe5_drvdata where
  fn_f10_seq : Nat
  fn_f10_ctrl_down : Bool
deriving DecidableEq, Repr

/-- The fields of `struct hid_report` the driver reads. -/
structure hid_report where
  id : Nat
  type : Nat
deriving DecidableEq, Repr

/-- The fields of `struct hid_device` the driver reads: the product id and the
driver data (`hid_get_drvdata`). -/
structure hid_device where
  product : Nat
  drvdata : gigabyte_kbd_aero17xe5_drvdata
deriving DecidableEq, Repr

/-- The field of `struct backlight_device` the driver reads: `props.power`. -/
structure backlight_device where
  power : Nat
deriving DecidableEq, Repr

/-- The field of `struct device` the driver reads: the bound driver, if any. -/
structure device where
  driver : Option Nat
deriving DecidableEq, Repr

/-- The three process-wide handles of the source; `none` is the NULL pointer. -/
structure Globals where
  gigabyte_kbd_backlight_device : Option backlight_device
  gigabyte_kbd_touchpad_driver : Option Nat
  gigabyte_kbd_touchpad_device : Option device
deriving DecidableEq, Repr

/-- The two work items declared with `DECLARE_WORK`; the first runs
`gigabyte_kbd_backlight_toggle`, the second `gigabyte_kbd_touchpad_toggle_driver`. -/
inductive Work where
  | gigabyte_kbd_backlight_toggle_work
  | gigabyte_kbd_touchpad_toggle_driver_work
deriving DecidableEq, Repr

/-- What one call of `gigabyte_kbd_raw_event` leaves behind: the returned value,
the report buffer, the driver data, the reports handed to
`hid_report_raw_event` (in call order) and the work items handed to
`schedule_work` (in call order). -/
structure RawEventResult where
  ret : Int
  rd : List Nat
  data : gigabyte_kbd_aero17xe5_drvdata
  emitted : List (List Nat)
  scheduled : List Work
deriving DecidableEq, Repr

/-! ## Backlight -/

/-- The source's `gigabyte_kbd_is_backlight_off`: it dereferences the handle unchecked. -/
def gigabyte_kbd_is_backlight_off (g : Globals) : Except Fault Bool :=
  match g.gigabyte_kbd_backlight_device with
  | none => .error .null_dereference
  | some bd => .ok (bd.power == FB_BLANK_POWERDOWN)

/-- Modelled from the spec: `backlight_enable` is the kernel's helper of
`linux/backlight.h`, not part of src; it powers the backlight on
(`props.power = FB_BLANK_UNBLANK`) and does nothing on a NULL handle. -/
def backlight_enable (bd : Option backlight_device) : Option backlight_device :=
  bd.map fun _ => ⟨FB_BLANK_UNBLANK⟩

/-- Modelled from the spec: `backlight_disable` is the kernel's helper of
`linux/backlight.h`, not part of src; it powers the backlight off
(`props.power = FB_BLANK_POWERDOWN`) and does nothing on a NULL handle. -/
def backlight_disable (bd : Option backlight_device) : Option backlight_device :=
  bd.map fun _ => ⟨FB_BLANK_POWERDOWN⟩

/-- The source's `gigabyte_kbd_backlight_toggle`, the body of the backlight work item. -/
def gigabyte_kbd_backlight_toggle (g : Globals) : Except Fault Globals :=
  match gigabyte_kbd_is_backlight_off g with
  | .error e => .error e
  | .ok true =>
      .ok ⟨backlight_enable g.gigabyte_kbd_backlight_device,
        g.gigabyte_kbd_touchpad_driver, g.gigabyte_kbd_touchpad_device⟩
  | .ok false =>
      .ok ⟨backlight_disable g.gigabyte_kbd_backlight_device,
        g.gigabyte_kbd_touchpad_driver, g.gigabyte_kbd_touchpad_device⟩

/-! ## Byte-splice utilities -/

/-- The loop `for (j = j0; j < size; j++) rd[j - 1] = rd[j];` on the window at
offset `off`. The last argument is the number of iterations left, `size - j0`. -/
def shift_left (off : Nat) : List Nat → Nat → Nat → List Nat
  | rd, _, 0 => rd
  | rd, j, n + 1 => shift_left off (rd.set (off + j - 1) (rd.getD (off + j) 0)) (j + 1) n

/-- The source's `gigabyte_kbd_util_remove_first_byte(&rd[off], size)`. The
source is called with `size >= 1` only; `rd[size - 1]` is `off + size - 1` here. -/
def gigabyte_kbd_util_remove_first_byte (rd : List Nat) (off size : Nat) : List Nat :=
  (shift_left off rd 1 (size - 1)).set (off + size - 1) 0

/-- The loop `while (rd[i] == byte) { shift left from i + 1; rd[size - 1] = 0; }`.
The last argument bounds the number of times the condition is tested. -/
def remove_while (off byte i size : Nat) : List Nat → Nat → Except Fault (List Nat)
  | _, 0 => .error .out_of_fuel
  | rd, fuel + 1 =>
      if rd.getD (off + i) 0 = byte then
        remove_while off byte i size
          ((shift_left off rd (i + 1) (size - (i + 1))).set (off + size - 1) 0) fuel
      else .ok rd

/-- The loop `for (i = i0; i < size; i++) while ...`. The last argument is the
number of iterations left, `size - i0`. -/
def remove_for (fuel off byte size : Nat) : List Nat → Nat → Nat → Except Fault (List Nat)
  | rd, _, 0 => .ok rd
  | rd, i, n + 1 =>
      match remove_while off byte i size rd fuel with
      | .error e => .error e
      | .ok rd1 => remove_for fuel off byte size rd1 (i + 1) n

/-- The source's `gigabyte_kbd_util_remove_byte_occurrences(&rd[off], byte, size)`;
`fuel` bounds the tests of each `while`. -/
def gigabyte_kbd_util_remove_byte_occurrences (fuel : Nat) (rd : List Nat)
    (off byte size : Nat) : Except Fault (List Nat) :=
  remove_for fuel off byte size rd 0 size

/-- The test `memchr(&rd[off], c, n) != NULL`. -/
def memchr (rd : List Nat) (off c n : Nat) : Bool :=
  ((rd.drop off).take n).contains c

/-! ## Sequence tracker -/

/-- The statement `rd[0] &= ~m;`. -/
def clear_mod (rd : List Nat) (m : Nat) : List Nat :=
  rd.set 0 (clear_bits (rd.getD 0 0) m)

/-- The source's `gigabyte_kbd_raw_event_aero17xe5`. The result is the driver
data, the report buffer and the returned value; `fuel` is handed to
`gigabyte_kbd_util_remove_byte_occurrences`. -/
def gigabyte_kbd_raw_event_aero17xe5 (fuel : Nat) (data : gigabyte_kbd_aero17xe5_drvdata)
    (report : hid_report) (rd : List Nat) (size : Nat) :
    Except Fault (gigabyte_kbd_aero17xe5_drvdata × List Nat × Int) :=
  if report.id = 0 ∧ report.type = HID_INPUT_REPORT ∧ size = 36 then
    if rd.getD 0 0 &&& (MOD_CODE_LEFT_CTRL ||| MOD_CODE_LEFT_SUPER) = 0
        ∧ rd.getD 2 0 ≠ KEY_CODE_XF86_TOUCHPAD_OFF then
      .ok (⟨0, false⟩, rd, 0)
    -- Pressing Fn.
    else if data.fn_f10_seq = 0 ∧ rd.getD 2 0 = KEY_CODE_XF86_TOUCHPAD_OFF then
      .ok (⟨1, data.fn_f10_ctrl_down⟩, gigabyte_kbd_util_remove_first_byte rd 2 34, 0)
    -- Holding Fn.
    else if data.fn_f10_seq = 1 ∧ rd.getD 0 0 &&& MOD_CODE_LEFT_SUPER = 0
        ∧ rd.getD 2 0 = KEY_CODE_XF86_TOUCHPAD_OFF then
      .ok (data, gigabyte_kbd_util_remove_first_byte rd 2 34, 0)
    -- Holding Fn and pressing F10 (first event) or pressing Super.
    else if data.fn_f10_seq = 1 ∧ rd.getD 0 0 &&& MOD_CODE_LEFT_SUPER ≠ 0
        ∧ rd.getD 2 0 = KEY_CODE_XF86_TOUCHPAD_OFF then
      let rd1 := clear_mod rd MOD_CODE_LEFT_SUPER
      .ok (⟨2, data.fn_f10_ctrl_down⟩, gigabyte_kbd_util_remove_first_byte rd1 2 34, 0)
    -- Holding Fn and releasing Super.
    else if data.fn_f10_seq = 2 ∧ rd.getD 0 0 &&& MOD_CODE_LEFT_SUPER = 0
        ∧ rd.getD 2 0 = KEY_CODE_XF86_TOUCHPAD_OFF then
      .ok (⟨1, data.fn_f10_ctrl_down⟩, gigabyte_kbd_util_remove_first_byte rd 2 34, 0)
    -- Holding Fn+Super.
    else if data.fn_f10_seq = 2 ∧ rd.getD 0 0 &&& MOD_CODE_LEFT_SUPER ≠ 0
        ∧ rd.getD 2 0 = KEY_CODE_XF86_TOUCHPAD_OFF
        ∧ memchr rd 3 KEY_CODE_MYSTERIOUS 33 = false then
      let rd1 := if memchr rd 3 KEY_CODE_P 33 = false then clear_mod rd MOD_CODE_LEFT_SUPER else rd
      let rd2 := if data.fn_f10_ctrl_down = true then clear_mod rd1 MOD_CODE_LEFT_CTRL else rd1
      .ok (data, gigabyte_kbd_util_remove_first_byte rd2 2 34, 0)
    -- Holding Fn and pressing F10 (second event).
    else if data.fn_f10_seq = 2
        ∧ rd.getD 0 0 &&& (MOD_CODE_LEFT_SUPER ||| MOD_CODE_LEFT_CTRL) ≠ 0
        ∧ rd.getD 2 0 = KEY_CODE_XF86_TOUCHPAD_OFF
        ∧ memchr rd 3 KEY_CODE_MYSTERIOUS 33 = true then
      let rd1 := clear_mod rd MOD_CODE_LEFT_SUPER
      let rd2 := clear_mod rd1 MOD_CODE_LEFT_CTRL
      let rd3 := gigabyte_kbd_util_remove_first_byte rd2 2 34
      match gigabyte_kbd_util_remove_byte_occurrences fuel rd3 2 KEY_CODE_MYSTERIOUS 34 with
      | .error e => .error e
      | .ok rd4 => .ok (⟨3, true⟩, rd4, 0)
    -- Holding Fn+F10.
    else if data.fn_f10_seq = 3
        ∧ rd.getD 0 0 &&& (MOD_CODE_LEFT_SUPER ||| MOD_CODE_LEFT_CTRL) ≠ 0
        ∧ (rd.getD 2 0 = KEY_CODE_XF86_TOUCHPAD_OFF
          ∧ memchr rd 3 KEY_CODE_MYSTERIOUS 33 = true) then
      let rd1 := clear_mod rd MOD_CODE_LEFT_SUPER
      let rd2 := clear_mod rd1 MOD_CODE_LEFT_CTRL
      let rd3 := gigabyte_kbd_util_remove_first_byte rd2 2 34
      match gigabyte_kbd_util_remove_byte_occurrences fuel rd3 2 KEY_CODE_MYSTERIOUS 34 with
      | .error e => .error e
      | .ok rd4 => .ok (data, rd4, 0)
    -- Releasing F10 or Fn.
    else if data.fn_f10_seq = 3
        ∧ rd.getD 0 0 &&& (MOD_CODE_LEFT_SUPER ||| MOD_CODE_LEFT_CTRL) ≠ 0
        ∧ ((rd.getD 2 0 = KEY_CODE_XF86_TOUCHPAD_OFF
            ∧ memchr rd 3 KEY_CODE_MYSTERIOUS 33 = false)
          ∨ memchr rd 2 KEY_CODE_MYSTERIOUS 34 = true) then
      let rd1 := clear_mod rd MOD_CODE_LEFT_SUPER
      let rd2 := clear_mod rd1 MOD_CODE_LEFT_CTRL
      if rd2.getD 2 0 = KEY_CODE_XF86_TOUCHPAD_OFF then
        .ok (⟨4, data.fn_f10_ctrl_down⟩, gigabyte_kbd_util_remove_first_byte rd2 2 34, 0)
      else
        match gigabyte_kbd_util_remove_byte_occurrences fuel rd2 2 KEY_CODE_MYSTERIOUS 34 with
        | .error e => .error e
        | .ok rd3 => .ok (⟨4, data.fn_f10_ctrl_down⟩, rd3, 0)
    -- Holding Fn and pressing F10 (again).
    else if data.fn_f10_seq = 4
        ∧ rd.getD 0 0 &&& (MOD_CODE_LEFT_SUPER ||| MOD_CODE_LEFT_CTRL) ≠ 0
        ∧ rd.getD 2 0 = KEY_CODE_XF86_TOUCHPAD_OFF then
      let rd1 := clear_mod rd MOD_CODE_LEFT_SUPER
      let rd2 := clear_mod rd1 MOD_CODE_LEFT_CTRL
      .ok (⟨2, data.fn_f10_ctrl_down⟩, gigabyte_kbd_util_remove_first_byte rd2 2 34, 0)
    -- Releasing Fn.
    else if data.fn_f10_seq = 4
        ∧ rd.getD 0 0 &&& (MOD_CODE_LEFT_SUPER ||| MOD_CODE_LEFT_CTRL) ≠ 0
        ∧ rd.getD 2 0 ≠ KEY_CODE_XF86_TOUCHPAD_OFF
        ∧ memchr rd 2 KEY_CODE_MYSTERIOUS 34 = false then
      let rd1 := clear_mod rd MOD_CODE_LEFT_SUPER
      let rd2 := clear_mod rd1 MOD_CODE_LEFT_CTRL
      .ok (⟨5, data.fn_f10_ctrl_down⟩, rd2, 0)
    -- This will remove Xf86TouchpadOff then Fn has been pressed after another button.
    else
      match gigabyte_kbd_util_remove_byte_occurrences fuel rd 3 KEY_CODE_XF86_TOUCHPAD_OFF 33 with
      | .error e => .error e
      | .ok rd1 => .ok (data, rd1, 0)
  else
    .ok (data, rd, 0)

/-- The source's `gigabyte_kbd_probe_aero17xe5`: the returned value and the
driver data it attaches; the argument says whether `devm_kzalloc` succeeded. -/
def gigabyte_kbd_probe_aero17xe5 (kzalloc_ok : Bool) :
    Int × Option gigabyte_kbd_aero17xe5_drvdata :=
  if kzalloc_ok then (0, some ⟨0, false⟩) else (-ENOMEM, none)

/-- The tracker fed a sequence of reports of one format, each a fresh buffer of
`size` bytes: the driver data after each report, in order. -/
def run_aero17xe5 (fuel : Nat) (report : hid_report) (size : Nat) :
    gigabyte_kbd_aero17xe5_drvdata → List (List Nat) →
      Except Fault (List gigabyte_kbd_aero17xe5_drvdata)
  | _, [] => .ok []
  | data, rd :: rest =>
      match gigabyte_kbd_raw_event_aero17xe5 fuel data report rd size with
      | .error e => .error e
      | .ok (data1, _, _) =>
          match run_aero17xe5 fuel report size data1 rest with
          | .error e => .error e
          | .ok ds => .ok (data1 :: ds)

/-! ## Simple-chord dispatcher -/

/-- The source's `gigabyte_kbd_raw_event`. The product id of the Aero 17 XE5,
`USB_DEVICE_ID_GIGABYTE_AERO17XE5`, is defined in a header that is not part of
src and is taken as the first argument. -/
def gigabyte_kbd_raw_event (USB_DEVICE_ID_GIGABYTE_AERO17XE5 : Nat) (fuel : Nat)
    (g : Globals) (hdev : hid_device) (report : hid_report) (rd : List Nat) (size : Nat) :
    Except Fault RawEventResult :=
  if report.id = 4 ∧ size = 4 then
    let hidraw := make_u32 (rd.getD 0 0) (rd.getD 1 0) (rd.getD 2 0) (rd.getD 3 0)
    if hidraw = HIDRAW_FN_F3 then
      match gigabyte_kbd_is_backlight_off g with
      | .error e => .error e
      | .ok true => .ok ⟨0, rd, hdev.drvdata, [], []⟩
      | .ok false =>
          let rd1 := ((rd.set 0 0x03).set 1 0x70).set 2 0x00
          let rd2 := ((rd1.set 0 0x03).set 1 0x00).set 2 0x00
          .ok ⟨1, rd2, hdev.drvdata, [rd1.take 4], []⟩
    else if hidraw = HIDRAW_FN_F4 then
      match gigabyte_kbd_is_backlight_off g with
      | .error e => .error e
      | .ok true => .ok ⟨0, rd, hdev.drvdata, [], []⟩
      | .ok false =>
          let rd1 := ((rd.set 0 0x03).set 1 0x6f).set 2 0x00
          let rd2 := ((rd1.set 0 0x03).set 1 0x00).set 2 0x00
          .ok ⟨1, rd2, hdev.drvdata, [rd1.take 4], []⟩
    else if hidraw = HIDRAW_FN_F6 then
      if g.gigabyte_kbd_backlight_device.isSome then
        .ok ⟨0, rd, hdev.drvdata, [], [Work.gigabyte_kbd_backlight_toggle_work]⟩
      else .ok ⟨0, rd, hdev.drvdata, [], []⟩
    else if hidraw = HIDRAW_FN_F10 then
      if g.gigabyte_kbd_touchpad_device.isSome then
        .ok ⟨0, rd, hdev.drvdata, [], [Work.gigabyte_kbd_touchpad_toggle_driver_work]⟩
      else .ok ⟨0, rd, hdev.drvdata, [], []⟩
    else .ok ⟨0, rd, hdev.drvdata, [], []⟩
  else if hdev.product = USB_DEVICE_ID_GIGABYTE_AERO17XE5 then
    match gigabyte_kbd_raw_event_aero17xe5 fuel hdev.drvdata report rd size with
    | .error e => .error e
    | .ok (data1, rd1, r) => .ok ⟨r, rd1, data1, [], []⟩
  else .ok ⟨0, rd, hdev.drvdata, [], []⟩

/-- Modelled from the spec: the HID core, the caller of
`gigabyte_kbd_raw_event`, is not part of src. The reports that reach the
generic input layer for one raw report of `size` bytes, in order: those handed
to `hid_report_raw_event` during the call, then the report buffer as the call
leaves it, which the core forwards (possibly mutated in place) unless the
returned value is negative. -/
def delivered_reports (size : Nat) (res : RawEventResult) : List (List Nat) :=
  res.emitted ++ (if res.ret < 0 then [] else [res.rd.take size])

/-! ## Sample reports -/

/-- A 36-byte report: the given leading bytes, zero-padded. -/
def report36 (bytes : List Nat) : List Nat :=
  bytes ++ List.replicate (36 - bytes.length) 0

/-! ## Auxiliary notions used in the statements -/

/-- What remove-all leaves of a window: the bytes other than `b`, in order,
then one zero for each `b`. -/
def compacted (b : Nat) (w : List Nat) : List Nat :=
  w.filter (fun x => x != b) ++ List.replicate (w.count b) 0

/-- The results of the tracker that are a returned 0. -/
def returns_zero (x : Except Fault (gigabyte_kbd_aero17xe5_drvdata × List Nat × Int)) : Prop :=
  ∃ data1 out, x = .ok (data1, out, 0)

/-- The conditions of the eleven enumerated transitions of the tracker, in the
order of the source (lines 127 to 198); a tracked-format report that meets
none of them takes the final `else`. -/
def enumerated_transition (data : gigabyte_kbd_aero17xe5_drvdata) (rd : List Nat) : Prop :=
  (rd.getD 0 0 &&& (MOD_CODE_LEFT_CTRL ||| MOD_CODE_LEFT_SUPER) = 0
      ∧ rd.getD 2 0 ≠ KEY_CODE_XF86_TOUCHPAD_OFF)
  ∨ (data.fn_f10_seq = 0 ∧ rd.getD 2 0 = KEY_CODE_XF86_TOUCHPAD_OFF)
  ∨ (data.fn_f10_seq = 1 ∧ rd.getD 0 0 &&& MOD_CODE_LEFT_SUPER = 0
      ∧ rd.getD 2 0 = KEY_CODE_XF86_TOUCHPAD_OFF)
  ∨ (data.fn_f10_seq = 1 ∧ rd.getD 0 0 &&& MOD_CODE_LEFT_SUPER ≠ 0
      ∧ rd.getD 2 0 = KEY_CODE_XF86_TOUCHPAD_OFF)
  ∨ (data.fn_f10_seq = 2 ∧ rd.getD 0 0 &&& MOD_CODE_LEFT_SUPER = 0
      ∧ rd.getD 2 0 = KEY_CODE_XF86_TOUCHPAD_OFF)
  ∨ (data.fn_f10_seq = 2 ∧ rd.getD 0 0 &&& MOD_CODE_LEFT_SUPER ≠ 0
      ∧ rd.getD 2 0 = KEY_CODE_XF86_TOUCHPAD_OFF
      ∧ memchr rd 3 KEY_CODE_MYSTERIOUS 33 = false)
  ∨ (data.fn_f10_seq = 2
      ∧ rd.getD 0 0 &&& (MOD_CODE_LEFT_SUPER ||| MOD_CODE_LEFT_CTRL) ≠ 0
      ∧ rd.getD 2 0 = KEY_CODE_XF86_TOUCHPAD_OFF
      ∧ memchr rd 3 KEY_CODE_MYSTERIOUS 33 = true)
  ∨ (data.fn_f10_seq = 3
      ∧ rd.getD 0 0 &&& (MOD_CODE_LEFT_SUPER ||| MOD_CODE_LEFT_CTRL) ≠ 0
      ∧ (rd.getD 2 0 = KEY_CODE_XF86_TOUCHPAD_OFF
        ∧ memchr rd 3 KEY_CODE_MYSTERIOUS 33 = true))
  ∨ (data.fn_f10_seq = 3
      ∧ rd.getD 0 0 &&& (MOD_CODE_LEFT_SUPER ||| MOD_CODE_LEFT_CTRL) ≠ 0
      ∧ ((rd.getD 2 0 = KEY_CODE_XF86_TOUCHPAD_OFF
          ∧ memchr rd 3 KEY_CODE_MYSTERIOUS 33 = false)
        ∨ memchr rd 2 KEY_CODE_MYSTERIOUS 34 = true))
  ∨ (data.fn_f10_seq = 4
      ∧ rd.getD 0 0 &&& (MOD_CODE_LEFT_SUPER ||| MOD_CODE_LEFT_CTRL) ≠ 0
      ∧ rd.getD 2 0 = KEY_CODE_XF86_TOUCHPAD_OFF)
  ∨ (data.fn_f10_seq = 4
      ∧ rd.getD 0 0 &&& (MOD_CODE_LEFT_SUPER ||| MOD_CODE_LEFT_CTRL) ≠ 0
      ∧ rd.getD 2 0 ≠ KEY_CODE_XF86_TOUCHPAD_OFF
      ∧ memchr rd 2 KEY_CODE_MYSTERIOUS 34 = false)

/-- The real key codes of a window: its bytes other than 0x00, the decoy and
the marker, in order. -/
def real_keys (w : List Nat) : List Nat :=
  w.filter (fun x => x != 0 && x != KEY_CODE_XF86_TOUCHPAD_OFF && x != KEY_CODE_MYSTERIOUS)

/-- A report resynchronises the tracker: it has the tracked format, neither
modifier of interest and no decoy in byte 2 (the first branch, line 127). -/
def is_resync (report : hid_report) (rd : List Nat) (size : Nat) : Prop :=
  (report.id = 0 ∧ report.type = HID_INPUT_REPORT ∧ size = 36)
  ∧ rd.getD 0 0 &&& (MOD_CODE_LEFT_CTRL ||| MOD_CODE_LEFT_SUPER) = 0
  ∧ rd.getD 2 0 ≠ KEY_CODE_XF86_TOUCHPAD_OFF

instance (report : hid_report) (rd : List Nat) (size : Nat) :
    Decidable (is_resync report rd size) := by
  unfold is_resync; infer_instance

/-- The tracker fed a sequence of reports of any format, each with the buffer
it comes in (`size` is the length of the buffer): the driver data after each
report, in order. -/
def run_reports (fuel : Nat) :
    gigabyte_kbd_aero17xe5_drvdata → List (hid_report × List Nat) →
      Except Fault (List gigabyte_kbd_aero17xe5_drvdata)
  | _, [] => .ok []
  | data, (report, rd) :: rest =>
      match gigabyte_kbd_raw_event_aero17xe5 fuel data report rd rd.length with
      | .error e => .error e
      | .ok (data1, _, _) =>
          match run_reports fuel data1 rest with
          | .error e => .error e
          | .ok ds => .ok (data1 :: ds)

/-- The tracker fed a sequence of reports of one format, each a fresh buffer of
`size` bytes: the report buffer as the tracker leaves it, for each report. -/
def run_outputs (fuel : Nat) (report : hid_report) (size : Nat) :
    gigabyte_kbd_aero17xe5_drvdata → List (List Nat) → Except Fault (List (List Nat))
  | _, [] => .ok []
  | data, rd :: rest =>
      match gigabyte_kbd_raw_event_aero17xe5 fuel data report rd size with
      | .error e => .error e
      | .ok (data1, out, _) =>
          match run_outputs fuel report size data1 rest with
          | .error e => .error e
          | .ok outs => .ok (out :: outs)

/-- The sticky-Ctrl flag as the history of a run predicts it: cleared by every
resynchronising report, set by every step from phase 2 to phase 3, kept
otherwise. The arguments are the flag and the driver data before the run and
the reports paired with the driver data after each. -/
def sticky_by_history : Bool → gigabyte_kbd_aero17xe5_drvdata →
    List ((hid_report × List Nat) × gigabyte_kbd_aero17xe5_drvdata) → List Bool
  | _, _, [] => []
  | g, d, ((report, rd), d1) :: rest =>
      let g1 :=
        if is_resync report rd rd.length then false
        else if d.fn_f10_seq = 2 ∧ d1.fn_f10_seq = 3 then true
        else g
      g1 :: sticky_by_history g1 d1 rest

/-- The values byte 0 may have after the tracker, given its value `x` before:
`x` itself or `x` with the Super bit, the Ctrl bit or both cleared. -/
def byte0_rel (x y : Nat) : Prop :=
  y = x ∨ y = clear_bits x MOD_CODE_LEFT_SUPER ∨ y = clear_bits x MOD_CODE_LEFT_CTRL
    ∨ y = clear_bits (clear_bits x MOD_CODE_LEFT_SUPER) MOD_CODE_LEFT_CTRL

/-- The buffer `X` is the report `rd` up to cleared modifier bits in byte 0. -/
def mods_variant (rd X : List Nat) : Prop :=
  X.length = rd.length ∧ X.drop 1 = rd.drop 1 ∧ byte0_rel (rd.getD 0 0) (X.getD 0 0)

/-- What every run of the tracker keeps of a report `rd` in its output `out`:
the length, byte 1, byte 0 up to cleared modifier bits, and the real key codes
of bytes 2 and up, in order. -/
def frame (rd out : List Nat) : Prop :=
  out.length = rd.length ∧ out.getD 1 0 = rd.getD 1 0
    ∧ byte0_rel (rd.getD 0 0) (out.getD 0 0)
    ∧ real_keys (out.drop 2) = real_keys (rd.drop 2)

/-- How one run of the tracker may change the driver data `data` into `data1`:
a resynchronising report resets it; any other report keeps it, or moves to one
of the phases 1, 2, 4, 5 with the sticky flag kept, or moves from phase 2 to
phase 3 with the sticky flag set. -/
def data_step (data : gigabyte_kbd_aero17xe5_drvdata) (report : hid_report) (rd : List Nat)
    (size : Nat) (data1 : gigabyte_kbd_aero17xe5_drvdata) : Prop :=
  (is_resync report rd size → data1 = ⟨0, false⟩)
  ∧ (¬ is_resync report rd size →
      data1 = data
      ∨ (data1.fn_f10_ctrl_down = data.fn_f10_ctrl_down
          ∧ (data1.fn_f10_seq = 1 ∨ data1.fn_f10_seq = 2 ∨ data1.fn_f10_seq = 4
            ∨ data1.fn_f10_seq = 5))
      ∨ (data.fn_f10_seq = 2 ∧ data1 = ⟨3, true⟩))

/-- The results of the tracker that are a returned 0 with an output that keeps
the frame of the report and driver data changed by one of the allowed steps. -/
def step_effect (data : gigabyte_kbd_aero17xe5_drvdata) (report : hid_report) (rd : List Nat)
    (size : Nat) (x : Except Fault (gigabyte_kbd_aero17xe5_drvdata × List Nat × Int)) : Prop :=
  ∃ data1 out, x = .ok (data1, out, 0) ∧ frame rd out ∧ data_step data report rd size data1

/-! ## The tracker with every byte access checked

The same code, with each read and each write of the report buffer checked
against the length of the buffer: an access at an index that is not below the
length is the fault `out_of_bounds`. -/

/-- The two ways a run of the checked code can fail to produce a result. -/
inductive MemFault where
  | out_of_bounds (index : Nat)
  | out_of_fuel
deriving DecidableEq, Repr

/-- A checked read of the byte at index `i` of the buffer. -/
def read_byte (rd : List Nat) (i : Nat) : Except MemFault Nat :=
  if i < rd.length then .ok (rd.getD i 0) else .error (.out_of_bounds i)

/-- A checked write of the byte at index `i` of the buffer. -/
def write_byte (rd : List Nat) (i v : Nat) : Except MemFault (List Nat) :=
  if i < rd.length then .ok (rd.set i v) else .error (.out_of_bounds i)

/-- The loop of `shift_left`, each `rd[j - 1] = rd[j]` a checked read and a
checked write. -/
def shift_left_checked (off : Nat) : List Nat → Nat → Nat → Except MemFault (List Nat)
  | rd, _, 0 => .ok rd
  | rd, j, n + 1 =>
      match read_byte rd (off + j) with
      | .error e => .error e
      | .ok v =>
          match write_byte rd (off + j - 1) v with
          | .error e => .error e
          | .ok rd1 => shift_left_checked off rd1 (j + 1) n

/-- The source's `gigabyte_kbd_util_remove_first_byte(&rd[off], size)`, checked. -/
def gigabyte_kbd_util_remove_first_byte_checked (rd : List Nat) (off size : Nat) :
    Except MemFault (List Nat) :=
  match shift_left_checked off rd 1 (size - 1) with
  | .error e => .error e
  | .ok rd1 => write_byte rd1 (off + size - 1) 0

/-- The `while` loop of remove-all, checked. -/
def remove_while_checked (off byte i size : Nat) :
    List Nat → Nat → Except MemFault (List Nat)
  | _, 0 => .error .out_of_fuel
  | rd, fuel + 1 =>
      match read_byte rd (off + i) with
      | .error e => .error e
      | .ok v =>
          if v = byte then
            match shift_left_checked off rd (i + 1) (size - (i + 1)) with
            | .error e => .error e
            | .ok rd1 =>
                match write_byte rd1 (off + size - 1) 0 with
                | .error e => .error e
                | .ok rd2 => remove_while_checked off byte i size rd2 fuel
          else .ok rd

/-- The `for` loop of remove-all, checked. -/
def remove_for_checked (fuel off byte size : Nat) :
    List Nat → Nat → Nat → Except MemFault (List Nat)
  | rd, _, 0 => .ok rd
  | rd, i, n + 1 =>
      match remove_while_checked off byte i size rd fuel with
      | .error e => .error e
      | .ok rd1 => remove_for_checked fuel off byte size rd1 (i + 1) n

/-- The source's `gigabyte_kbd_util_remove_byte_occurrences(&rd[off], byte, size)`,
checked. -/
def gigabyte_kbd_util_remove_byte_occurrences_checked (fuel : Nat) (rd : List Nat)
    (off byte size : Nat) : Except MemFault (List Nat) :=
  remove_for_checked fuel off byte size rd 0 size

/-- The search `memchr(&rd[off], c, n)`, checked: the whole range it may read,
indices `off` to `off + n - 1`, has to lie in the buffer. -/
def memchr_checked (rd : List Nat) (off c n : Nat) : Except MemFault Bool :=
  if off + n ≤ rd.length then .ok (memchr rd off c n)
  else .error (.out_of_bounds (off + n - 1))

/-- The statement `rd[0] &= ~m;`, checked. -/
def clear_mod_checked (rd : List Nat) (m : Nat) : Except MemFault (List Nat) :=
  match read_byte rd 0 with
  | .error e => .error e
  | .ok v => write_byte rd 0 (clear_bits v m)

/-- The branches of `gigabyte_kbd_raw_event_aero17xe5`, checked, given the
values its conditions read: byte 0, byte 2 and the results of the searches for
the marker in bytes 3..35, for the P key in bytes 3..35 and for the marker in
bytes 2..35. -/
def aero17xe5_branches_checked (fuel : Nat) (data : gigabyte_kbd_aero17xe5_drvdata)
    (rd : List Nat) (b0 b2 : Nat) (m3 p3 m2 : Bool) :
    Except MemFault (gigabyte_kbd_aero17xe5_drvdata × List Nat × Int) :=
  if b0 &&& (MOD_CODE_LEFT_CTRL ||| MOD_CODE_LEFT_SUPER) = 0
      ∧ b2 ≠ KEY_CODE_XF86_TOUCHPAD_OFF then
    .ok (⟨0, false⟩, rd, 0)
  else if data.fn_f10_seq = 0 ∧ b2 = KEY_CODE_XF86_TOUCHPAD_OFF then do
    let rd1 ← gigabyte_kbd_util_remove_first_byte_checked rd 2 34
    pure (⟨1, data.fn_f10_ctrl_down⟩, rd1, 0)
  else if data.fn_f10_seq = 1 ∧ b0 &&& MOD_CODE_LEFT_SUPER = 0
      ∧ b2 = KEY_CODE_XF86_TOUCHPAD_OFF then do
    let rd1 ← gigabyte_kbd_util_remove_first_byte_checked rd 2 34
    pure (data, rd1, 0)
  else if data.fn_f10_seq = 1 ∧ b0 &&& MOD_CODE_LEFT_SUPER ≠ 0
      ∧ b2 = KEY_CODE_XF86_TOUCHPAD_OFF then do
    let rd1 ← clear_mod_checked rd MOD_CODE_LEFT_SUPER
    let rd2 ← gigabyte_kbd_util_remove_first_byte_checked rd1 2 34
    pure (⟨2, data.fn_f10_ctrl_down⟩, rd2, 0)
  else if data.fn_f10_seq = 2 ∧ b0 &&& MOD_CODE_LEFT_SUPER = 0
      ∧ b2 = KEY_CODE_XF86_TOUCHPAD_OFF then do
    let rd1 ← gigabyte_kbd_util_remove_first_byte_checked rd 2 34
    pure (⟨1, data.fn_f10_ctrl_down⟩, rd1, 0)
  else if data.fn_f10_seq = 2 ∧ b0 &&& MOD_CODE_LEFT_SUPER ≠ 0
      ∧ b2 = KEY_CODE_XF86_TOUCHPAD_OFF ∧ m3 = false then do
    let rd1 ← if p3 = false then clear_mod_checked rd MOD_CODE_LEFT_SUPER else pure rd
    let rd2 ← if data.fn_f10_ctrl_down = true then clear_mod_checked rd1 MOD_CODE_LEFT_CTRL
      else pure rd1
    let rd3 ← gigabyte_kbd_util_remove_first_byte_checked rd2 2 34
    pure (data, rd3, 0)
  else if data.fn_f10_seq = 2
      ∧ b0 &&& (MOD_CODE_LEFT_SUPER ||| MOD_CODE_LEFT_CTRL) ≠ 0
      ∧ b2 = KEY_CODE_XF86_TOUCHPAD_OFF ∧ m3 = true then do
    let rd1 ← clear_mod_checked rd MOD_CODE_LEFT_SUPER
    let rd2 ← clear_mod_checked rd1 MOD_CODE_LEFT_CTRL
    let rd3 ← gigabyte_kbd_util_remove_first_byte_checked rd2 2 34
    let rd4 ← gigabyte_kbd_util_remove_byte_occurrences_checked fuel rd3 2 KEY_CODE_MYSTERIOUS 34
    pure (⟨3, true⟩, rd4, 0)
  else if data.fn_f10_seq = 3
      ∧ b0 &&& (MOD_CODE_LEFT_SUPER ||| MOD_CODE_LEFT_CTRL) ≠ 0
      ∧ (b2 = KEY_CODE_XF86_TOUCHPAD_OFF ∧ m3 = true) then do
    let rd1 ← clear_mod_checked rd MOD_CODE_LEFT_SUPER
    let rd2 ← clear_mod_checked rd1 MOD_CODE_LEFT_CTRL
    let rd3 ← gigabyte_kbd_util_remove_first_byte_checked rd2 2 34
    let rd4 ← gigabyte_kbd_util_remove_byte_occurrences_checked fuel rd3 2 KEY_CODE_MYSTERIOUS 34
    pure (data, rd4, 0)
  else if data.fn_f10_seq = 3
      ∧ b0 &&& (MOD_CODE_LEFT_SUPER ||| MOD_CODE_LEFT_CTRL) ≠ 0
      ∧ ((b2 = KEY_CODE_XF86_TOUCHPAD_OFF ∧ m3 = false) ∨ m2 = true) then do
    let rd1 ← clear_mod_checked rd MOD_CODE_LEFT_SUPER
    let rd2 ← clear_mod_checked rd1 MOD_CODE_LEFT_CTRL
    let v ← read_byte rd2 2
    if v = KEY_CODE_XF86_TOUCHPAD_OFF then do
      let rd3 ← gigabyte_kbd_util_remove_first_byte_checked rd2 2 34
      pure (⟨4, data.fn_f10_ctrl_down⟩, rd3, 0)
    else do
      let rd3 ←
        gigabyte_kbd_util_remove_byte_occurrences_checked fuel rd2 2 KEY_CODE_MYSTERIOUS 34
      pure (⟨4, data.fn_f10_ctrl_down⟩, rd3, 0)
  else if data.fn_f10_seq = 4
      ∧ b0 &&& (MOD_CODE_LEFT_SUPER ||| MOD_CODE_LEFT_CTRL) ≠ 0
      ∧ b2 = KEY_CODE_XF86_TOUCHPAD_OFF then do
    let rd1 ← clear_mod_checked rd MOD_CODE_LEFT_SUPER
    let rd2 ← clear_mod_checked rd1 MOD_CODE_LEFT_CTRL
    let rd3 ← gigabyte_kbd_util_remove_first_byte_checked rd2 2 34
    pure (⟨2, data.fn_f10_ctrl_down⟩, rd3, 0)
  else if data.fn_f10_seq = 4
      ∧ b0 &&& (MOD_CODE_LEFT_SUPER ||| MOD_CODE_LEFT_CTRL) ≠ 0
      ∧ b2 ≠ KEY_CODE_XF86_TOUCHPAD_OFF ∧ m2 = false then do
    let rd1 ← clear_mod_checked rd MOD_CODE_LEFT_SUPER
    let rd2 ← clear_mod_checked rd1 MOD_CODE_LEFT_CTRL
    pure (⟨5, data.fn_f10_ctrl_down⟩, rd2, 0)
  else do
    let rd1 ←
      gigabyte_kbd_util_remove_byte_occurrences_checked fuel rd 3 KEY_CODE_XF86_TOUCHPAD_OFF 33
    pure (data, rd1, 0)

/-- The source's `gigabyte_kbd_raw_event_aero17xe5`, checked. The reads and the
searches of the conditions are all made, and checked, before the branches are
told apart, also those that the short-circuit evaluation of the source would
skip. -/
def gigabyte_kbd_raw_event_aero17xe5_checked (fuel : Nat)
    (data : gigabyte_kbd_aero17xe5_drvdata) (report : hid_report) (rd : List Nat)
    (size : Nat) : Except MemFault (gigabyte_kbd_aero17xe5_drvdata × List Nat × Int) :=
  if report.id = 0 ∧ report.type = HID_INPUT_REPORT ∧ size = 36 then do
    let b0 ← read_byte rd 0
    let b2 ← read_byte rd 2
    let m3 ← memchr_checked rd 3 KEY_CODE_MYSTERIOUS 33
    let p3 ← memchr_checked rd 3 KEY_CODE_P 33
    let m2 ← memchr_checked rd 2 KEY_CODE_MYSTERIOUS 34
    aero17xe5_branches_checked fuel data rd b0 b2 m3 p3 m2
  else
    pure (data, rd, 0)

/-- The checked run and the unchecked run return 0 with the same driver data
and the same buffer. -/
def both_return (x : Except MemFault (gigabyte_kbd_aero17xe5_drvdata × List Nat × Int))
    (y : Except Fault (gigabyte_kbd_aero17xe5_drvdata × List Nat × Int)) : Prop :=
  ∃ data1 out, x = .ok (data1, out, 0) ∧ y = .ok (data1, out, 0)

/-! ## Lemmas on the byte-splice utilities -/

/-- Reading the byte that follows a block `A` of the buffer. -/
theorem getD_after_block (A : List Nat) (x : Nat) (C : List Nat) (k : Nat)
    (hk : k = A.length) : (A ++ x :: C).getD k 0 = x := by
  subst hk
  rw [List.getD_eq_getElem?_getD, List.getElem?_append_right (Nat.le_refl _)]
  simp

/-- Writing the byte that follows a block `A` of the buffer. -/
theorem set_after_block (A : List Nat) (x v : Nat) (C : List Nat) (k : Nat)
    (hk : k = A.length) : (A ++ x :: C).set k v = A ++ v :: C := by
  subst hk
  simp

/-- The shift loop followed by the zeroing of the last slot splices the byte
`x` that precedes the copied bytes `ys` out of the buffer. -/
theorem shift_left_splice (off : Nat) (ys : List Nat) :
    ∀ (A : List Nat) (x : Nat) (C : List Nat) (j : Nat), off + j = A.length + 1 →
      (shift_left off (A ++ x :: (ys ++ C)) j ys.length).set (A.length + ys.length) 0
        = A ++ (ys ++ 0 :: C) := by
  induction ys with
  | nil =>
    intro A x C j _
    simp [shift_left]
  | cons y ys ih =>
    intro A x C j hj
    have h1 : off + j - 1 = A.length := by omega
    have h2 : (A ++ x :: (y :: ys ++ C)).getD (off + j) 0 = y := by
      have := getD_after_block (A ++ [x]) y (ys ++ C) (off + j) (by simp; omega)
      simpa using this
    have h3 : (A ++ x :: (y :: ys ++ C)).set (off + j - 1) y
        = (A ++ [y]) ++ y :: (ys ++ C) := by
      rw [set_after_block A x y _ _ h1]; simp
    have h4 := ih (A ++ [y]) y C (j + 1) (by simp; omega)
    simp only [List.length_cons, shift_left, h2, h3]
    have h5 : A.length + (ys.length + 1) = (A ++ [y]).length + ys.length := by
      simp; omega
    rw [h5, h4]; simp

/-- The shift loop keeps the length of the buffer. -/
theorem shift_left_length (off : Nat) (n : Nat) :
    ∀ (rd : List Nat) (j : Nat), (shift_left off rd j n).length = rd.length := by
  induction n with
  | zero => intro rd j; rfl
  | succ n ih => intro rd j; simp [shift_left, ih]

/-- On a window `x :: ys` that lies between `A` and `C`, remove-first drops `x`
and pads with one zero. -/
theorem remove_first_byte_window (A : List Nat) (x : Nat) (ys C : List Nat) :
    gigabyte_kbd_util_remove_first_byte (A ++ x :: (ys ++ C)) A.length (ys.length + 1)
      = A ++ (ys ++ 0 :: C) := by
  unfold gigabyte_kbd_util_remove_first_byte
  have h := shift_left_splice A.length ys A x C 1 rfl
  have e1 : ys.length + 1 - 1 = ys.length := by omega
  have e2 : A.length + (ys.length + 1) - 1 = A.length + ys.length := by omega
  rw [e1, e2, h]

/-- Remove-first keeps the length of the buffer. -/
theorem remove_first_byte_length (rd : List Nat) (off size : Nat) :
    (gigabyte_kbd_util_remove_first_byte rd off size).length = rd.length := by
  simp [gigabyte_kbd_util_remove_first_byte, shift_left_length]

/-- The compacted window has the length of the window. -/
theorem compacted_length (b : Nat) (w : List Nat) : (compacted b w).length = w.length := by
  induction w with
  | nil => simp [compacted]
  | cons x w ih =>
    simp only [compacted, List.length_append, List.length_replicate] at ih ⊢
    by_cases hx : x = b
    · subst hx; simp; omega
    · have : (x == b) = false := by simpa using hx
      simp [List.filter_cons, List.count_cons, this, hx]; omega

theorem compacted_cons_ne (b x : Nat) (w : List Nat) (hx : x ≠ b) :
    compacted b (x :: w) = x :: compacted b w := by
  have : (x == b) = false := by simpa using hx
  simp [compacted, List.filter_cons, List.count_cons, this, hx]

/-- One round of the `while` loop does not change what remove-all will leave. -/
theorem compacted_round (b : Nat) (w : List Nat) (hb : b ≠ 0) :
    compacted b (w ++ [0]) = compacted b (b :: w) := by
  have h0 : (0 == b) = false := by simpa using (Ne.symm hb)
  simp [compacted, List.filter_cons, List.count_cons, List.filter_append, List.count_append,
    h0, List.replicate_succ]
  simp [Ne.symm hb]

theorem compacted_of_not_mem (b : Nat) (w : List Nat) (h : b ∉ w) : compacted b w = w := by
  induction w with
  | nil => simp [compacted]
  | cons x w ih =>
    have hx : x ≠ b := fun e => h (by simp [e])
    rw [compacted_cons_ne b x w hx, ih (fun hm => h (List.mem_cons_of_mem _ hm))]

/-- The `while` loop at index `i`, where `tl` is the part of the window from
`i` on: with more fuel than `tl` has bytes `b`, the loop ends, with a byte other
than `b` at index `i`, and what remove-all will leave is unchanged. -/
theorem remove_while_spec (off b i size : Nat) (C : List Nat) (hb : b ≠ 0) :
    ∀ (fuel : Nat) (A tl : List Nat), tl ≠ [] → tl.count b < fuel →
      off + i = A.length → off + size = A.length + tl.length →
      ∃ y tl1, remove_while off b i size (A ++ (tl ++ C)) fuel = .ok (A ++ (y :: tl1 ++ C))
        ∧ y ≠ b ∧ tl1.length + 1 = tl.length
        ∧ compacted b (y :: tl1) = compacted b tl ∧ tl1.count b ≤ tl.count b := by
  intro fuel
  induction fuel with
  | zero => intro A tl _ h; omega
  | succ fuel ih =>
    intro A tl hne hcount hi hsize
    obtain ⟨x, t, rfl⟩ := List.exists_cons_of_ne_nil hne
    have hget : (A ++ (x :: t ++ C)).getD (off + i) 0 = x := by
      have := getD_after_block A x (t ++ C) (off + i) hi
      simpa using this
    by_cases hx : x = b
    · subst hx
      have hstep : (shift_left off (A ++ (x :: t ++ C)) (i + 1) (size - (i + 1))).set
          (off + size - 1) 0 = A ++ ((t ++ [0]) ++ C) := by
        have e1 : size - (i + 1) = t.length := by simp at hsize; omega
        have e2 : off + size - 1 = A.length + t.length := by simp at hsize; omega
        have := shift_left_splice off t A x C (i + 1) (by omega)
        rw [e1, e2]
        simpa using this
      have hc : (t ++ [0]).count x < fuel := by
        have h0 : (0 == x) = false := by simpa using (Ne.symm hb)
        simp [List.count_append, List.count_cons, h0] at hcount ⊢
        omega
      obtain ⟨y, tl1, h1, h2, h3, h4, h5⟩ :=
        ih A (t ++ [0]) (by simp) hc hi (by simp at hsize ⊢; omega)
      refine ⟨y, tl1, ?_, h2, by simpa using h3, ?_, ?_⟩
      · simp only [remove_while, hget, if_true]
        rw [hstep, h1]
      · rw [h4, compacted_round x t hb]
      · have h0 : (0 == x) = false := by simpa using (Ne.symm hb)
        simp [List.count_append, List.count_cons, h0] at h5 ⊢
        omega
    · refine ⟨x, t, ?_, hx, rfl, rfl, ?_⟩
      · simp only [remove_while, hget, if_neg hx]
      · simp [List.count_cons]

/-- The `for` loop from index `i` on, where `tl` is the part of the window
from `i` on: it ends and leaves `tl` compacted. -/
theorem remove_for_spec (fuel off b size : Nat) (C : List Nat) (hb : b ≠ 0) :
    ∀ (n i : Nat) (A tl : List Nat), tl.length = n → tl.count b < fuel →
      off + i = A.length → off + size = A.length + tl.length →
      remove_for fuel off b size (A ++ (tl ++ C)) i n = .ok (A ++ (compacted b tl ++ C)) := by
  intro n
  induction n with
  | zero =>
    intro i A tl hlen _ _ _
    have : tl = [] := List.length_eq_zero.mp hlen
    subst this
    simp [remove_for, compacted]
  | succ n ih =>
    intro i A tl hlen hcount hi hsize
    have hne : tl ≠ [] := by
      intro h; subst h; simp at hlen
    obtain ⟨y, tl1, h1, h2, h3, h4, h5⟩ :=
      remove_while_spec off b i size C hb fuel A tl hne hcount hi hsize
    have h6 := ih (i + 1) (A ++ [y]) tl1 (by omega) (by omega) (by simp; omega)
      (by simp; omega)
    simp only [remove_for, h1]
    have e : A ++ (y :: tl1 ++ C) = (A ++ [y]) ++ (tl1 ++ C) := by simp
    rw [e, h6, ← h4, compacted_cons_ne b y tl1 h2]
    simp

/-- Remove-all on a window `w` that lies between `A` and `C`: with a nonzero
byte and more fuel than `w` has occurrences of it, the call ends and leaves the
window compacted and the rest of the buffer as it was. -/
theorem remove_byte_occurrences_window (fuel b : Nat) (A w C : List Nat) (hb : b ≠ 0)
    (hfuel : w.count b < fuel) :
    gigabyte_kbd_util_remove_byte_occurrences fuel (A ++ (w ++ C)) A.length b w.length
      = .ok (A ++ (compacted b w ++ C)) :=
  remove_for_spec fuel A.length b w.length C hb w.length 0 A w rfl hfuel rfl rfl

/-- A buffer seen as the bytes before a window, the window and the bytes after it. -/
theorem buffer_split (rd : List Nat) (off size : Nat) :
    rd = rd.take off ++ ((rd.drop off).take size ++ (rd.drop off).drop size) := by
  simp [List.take_append_drop]

/-- Remove-all with a nonzero byte on a window inside the buffer ends once the
fuel exceeds the size of the window, and keeps the length of the buffer. -/
theorem remove_byte_occurrences_ok (fuel b : Nat) (rd : List Nat) (off size : Nat)
    (hb : b ≠ 0) (hin : off + size ≤ rd.length) (hfuel : size < fuel) :
    ∃ r, gigabyte_kbd_util_remove_byte_occurrences fuel rd off b size = .ok r
      ∧ r.length = rd.length ∧ r.take off = rd.take off := by
  have hA : (rd.take off).length = off := by simp; omega
  have hw : ((rd.drop off).take size).length = size := by simp; omega
  have hc : ((rd.drop off).take size).count b < fuel :=
    lt_of_le_of_lt (List.count_le_length b _) (by omega)
  have h := remove_byte_occurrences_window fuel b (rd.take off) ((rd.drop off).take size)
    ((rd.drop off).drop size) hb hc
  rw [← buffer_split rd off size, hA, hw] at h
  refine ⟨_, h, ?_, ?_⟩
  · have hl := congrArg List.length (buffer_split rd off size)
    simp only [List.length_append, compacted_length] at hl ⊢
    omega
  · rw [List.take_left' hA]

/-! ## Lemmas on the modifier byte and on `memchr` -/

/-- Neither modifier of interest is set exactly when the mask of both is clear. -/
theorem mods_clear_iff (x : Nat) :
    x &&& (MOD_CODE_LEFT_CTRL ||| MOD_CODE_LEFT_SUPER) = 0
      ↔ x &&& MOD_CODE_LEFT_CTRL = 0 ∧ x &&& MOD_CODE_LEFT_SUPER = 0 := by
  constructor
  · intro h
    constructor
    · have e : x &&& MOD_CODE_LEFT_CTRL
          = (x &&& (MOD_CODE_LEFT_CTRL ||| MOD_CODE_LEFT_SUPER)) &&& MOD_CODE_LEFT_CTRL := by
        rw [Nat.and_assoc]; rfl
      rw [e, h]; rfl
    · have e : x &&& MOD_CODE_LEFT_SUPER
          = (x &&& (MOD_CODE_LEFT_CTRL ||| MOD_CODE_LEFT_SUPER)) &&& MOD_CODE_LEFT_SUPER := by
        rw [Nat.and_assoc]; rfl
      rw [e, h]; rfl
  · rintro ⟨h1, h8⟩
    rw [Nat.and_or_distrib_left, h1, h8]; rfl

/-- The two spellings of the mask in the source are the same number. -/
theorem mods_mask_comm :
    MOD_CODE_LEFT_SUPER ||| MOD_CODE_LEFT_CTRL = MOD_CODE_LEFT_CTRL ||| MOD_CODE_LEFT_SUPER := by
  decide

/-- A set Super bit makes the mask of both modifiers nonzero. -/
theorem mods_of_super (x : Nat) (h : x &&& MOD_CODE_LEFT_SUPER ≠ 0) :
    x &&& (MOD_CODE_LEFT_CTRL ||| MOD_CODE_LEFT_SUPER) ≠ 0 :=
  fun h0 => h ((mods_clear_iff x).mp h0).2

/-- A set Ctrl bit makes the mask of both modifiers nonzero. -/
theorem mods_of_ctrl (x : Nat) (h : x &&& MOD_CODE_LEFT_CTRL ≠ 0) :
    x &&& (MOD_CODE_LEFT_CTRL ||| MOD_CODE_LEFT_SUPER) ≠ 0 :=
  fun h0 => h ((mods_clear_iff x).mp h0).1

/-- Clearing the Ctrl bit leaves the Super bit as it was. -/
theorem clear_ctrl_keeps_super (x : Nat) :
    clear_bits x MOD_CODE_LEFT_CTRL &&& MOD_CODE_LEFT_SUPER = x &&& MOD_CODE_LEFT_SUPER := by
  unfold clear_bits
  rw [Nat.and_assoc]; rfl

theorem memchr_iff (rd : List Nat) (off c n : Nat) :
    memchr rd off c n = true ↔ c ∈ (rd.drop off).take n := by
  unfold memchr List.contains
  exact List.elem_iff

theorem memchr_false_iff (rd : List Nat) (off c n : Nat) :
    memchr rd off c n = false ↔ c ∉ (rd.drop off).take n := by
  rw [← memchr_iff]; simp

/-- On a 36-byte report the search `memchr(&rd[3], c, 33)` covers bytes 3..35. -/
theorem memchr_three (rd : List Nat) (c : Nat) (hlen : rd.length = 36) :
    memchr rd 3 c 33 = true ↔ c ∈ rd.drop 3 := by
  rw [memchr_iff, List.take_of_length_le (by simp; omega)]

/-- On a 36-byte report the search `memchr(&rd[2], c, 34)` covers bytes 2..35. -/
theorem memchr_two (rd : List Nat) (c : Nat) (hlen : rd.length = 36) :
    memchr rd 2 c 34 = true ↔ c ∈ rd.drop 2 := by
  rw [memchr_iff, List.take_of_length_le (by simp; omega)]

theorem clear_mod_length (rd : List Nat) (m : Nat) : (clear_mod rd m).length = rd.length := by
  simp [clear_mod]

/-- The statement `rd[0] &= ~m;` leaves the bytes after byte 0 as they were. -/
theorem clear_mod_getD (rd : List Nat) (m k : Nat) (hk : k ≠ 0) :
    (clear_mod rd m).getD k 0 = rd.getD k 0 := by
  unfold clear_mod
  simp only [List.getD_eq_getElem?_getD]
  rw [List.getElem?_set_ne (by omega)]

/-- The statement `rd[0] &= ~m;` leaves the bytes after byte 0 as they were. -/
theorem clear_mod_drop (rd : List Nat) (m k : Nat) (hk : k ≠ 0) :
    (clear_mod rd m).drop k = rd.drop k := by
  unfold clear_mod
  cases rd with
  | nil => simp
  | cons a t =>
    obtain ⟨j, rfl⟩ := Nat.exists_eq_succ_of_ne_zero hk
    simp

/-- A 36-byte report seen as its two header bytes, the decoy slot and the rest. -/
theorem report_split (rd : List Nat) (hlen : rd.length = 36) :
    rd = rd.take 2 ++ rd.getD 2 0 :: (rd.drop 3 ++ []) := by
  have h2 : 2 < rd.length := by omega
  have e : rd.getD 2 0 = rd[2] := by
    rw [List.getD_eq_getElem?_getD, List.getElem?_eq_getElem h2]; rfl
  rw [e, List.append_nil, ← List.drop_eq_getElem_cons h2, List.take_append_drop]

/-- Stripping the decoy slot of a 36-byte report: bytes 0..1 stay, bytes 3..35
move down by one and byte 35 becomes zero. -/
theorem remove_first_byte_report (rd : List Nat) (hlen : rd.length = 36) :
    gigabyte_kbd_util_remove_first_byte rd 2 34 = rd.take 2 ++ (rd.drop 3 ++ [0]) := by
  have h := remove_first_byte_window (rd.take 2) (rd.getD 2 0) (rd.drop 3) []
  have e1 : (rd.take 2).length = 2 := by simp; omega
  have e2 : (rd.drop 3).length + 1 = 34 := by simp; omega
  rw [← report_split rd hlen, e1, e2] at h
  exact h

theorem remove_first_byte_report_head (rd : List Nat) (hlen : rd.length = 36) :
    (gigabyte_kbd_util_remove_first_byte rd 2 34).getD 0 0 = rd.getD 0 0 := by
  rw [remove_first_byte_report rd hlen]
  match rd, hlen with
  | a :: b :: t, _ => simp

theorem remove_first_byte_report_drop (rd : List Nat) (hlen : rd.length = 36) :
    (gigabyte_kbd_util_remove_first_byte rd 2 34).drop 2 = rd.drop 3 ++ [0] := by
  rw [remove_first_byte_report rd hlen]
  match rd, hlen with
  | a :: b :: t, _ => simp

/-! ## The transitions of the tracker, one lemma per branch used below -/

/-- Resynchronisation, the first branch. -/
theorem step_resync (fuel : Nat) (data : gigabyte_kbd_aero17xe5_drvdata)
    (report : hid_report) (rd : List Nat)
    (hid : report.id = 0) (htype : report.type = HID_INPUT_REPORT)
    (hmods : rd.getD 0 0 &&& (MOD_CODE_LEFT_CTRL ||| MOD_CODE_LEFT_SUPER) = 0)
    (hdecoy : rd.getD 2 0 ≠ KEY_CODE_XF86_TOUCHPAD_OFF) :
    gigabyte_kbd_raw_event_aero17xe5 fuel data report rd 36 = .ok (⟨0, false⟩, rd, 0) := by
  unfold gigabyte_kbd_raw_event_aero17xe5
  rw [if_pos ⟨hid, htype, rfl⟩, if_pos ⟨hmods, hdecoy⟩]

/-- Pressing Fn, the second branch. -/
theorem step_press_fn (fuel : Nat) (data : gigabyte_kbd_aero17xe5_drvdata)
    (report : hid_report) (rd : List Nat)
    (hid : report.id = 0) (htype : report.type = HID_INPUT_REPORT)
    (hseq : data.fn_f10_seq = 0) (hdecoy : rd.getD 2 0 = KEY_CODE_XF86_TOUCHPAD_OFF) :
    gigabyte_kbd_raw_event_aero17xe5 fuel data report rd 36
      = .ok (⟨1, data.fn_f10_ctrl_down⟩, gigabyte_kbd_util_remove_first_byte rd 2 34, 0) := by
  unfold gigabyte_kbd_raw_event_aero17xe5
  rw [if_pos ⟨hid, htype, rfl⟩, if_neg (fun h => h.2 hdecoy), if_pos ⟨hseq, hdecoy⟩]

/-- Holding Fn and pressing Super, the fourth branch. -/
theorem step_press_super (fuel : Nat) (data : gigabyte_kbd_aero17xe5_drvdata)
    (report : hid_report) (rd : List Nat)
    (hid : report.id = 0) (htype : report.type = HID_INPUT_REPORT)
    (hseq : data.fn_f10_seq = 1) (hsuper : rd.getD 0 0 &&& MOD_CODE_LEFT_SUPER ≠ 0)
    (hdecoy : rd.getD 2 0 = KEY_CODE_XF86_TOUCHPAD_OFF) :
    gigabyte_kbd_raw_event_aero17xe5 fuel data report rd 36
      = .ok (⟨2, data.fn_f10_ctrl_down⟩,
          gigabyte_kbd_util_remove_first_byte (clear_mod rd MOD_CODE_LEFT_SUPER) 2 34, 0) := by
  unfold gigabyte_kbd_raw_event_aero17xe5
  rw [if_pos ⟨hid, htype, rfl⟩, if_neg (fun h => h.2 hdecoy),
    if_neg (by rintro ⟨h, -⟩; omega), if_neg (fun h => hsuper h.2.1),
    if_pos ⟨hseq, hsuper, hdecoy⟩]

/-- Holding Fn+Super, the sixth branch. -/
theorem step_hold_fn_super (fuel : Nat) (data : gigabyte_kbd_aero17xe5_drvdata)
    (report : hid_report) (rd : List Nat)
    (hid : report.id = 0) (htype : report.type = HID_INPUT_REPORT)
    (hseq : data.fn_f10_seq = 2) (hsuper : rd.getD 0 0 &&& MOD_CODE_LEFT_SUPER ≠ 0)
    (hdecoy : rd.getD 2 0 = KEY_CODE_XF86_TOUCHPAD_OFF)
    (hmark : memchr rd 3 KEY_CODE_MYSTERIOUS 33 = false) :
    gigabyte_kbd_raw_event_aero17xe5 fuel data report rd 36
      = .ok (data,
          gigabyte_kbd_util_remove_first_byte
            (if data.fn_f10_ctrl_down = true then
              clear_mod
                (if memchr rd 3 KEY_CODE_P 33 = false then clear_mod rd MOD_CODE_LEFT_SUPER
                  else rd)
                MOD_CODE_LEFT_CTRL
             else
              (if memchr rd 3 KEY_CODE_P 33 = false then clear_mod rd MOD_CODE_LEFT_SUPER
                else rd))
            2 34, 0) := by
  unfold gigabyte_kbd_raw_event_aero17xe5
  rw [if_pos ⟨hid, htype, rfl⟩, if_neg (fun h => h.2 hdecoy),
    if_neg (by rintro ⟨h, -⟩; omega), if_neg (by rintro ⟨h, -⟩; omega),
    if_neg (by rintro ⟨h, -⟩; omega), if_neg (fun h => hsuper h.2.1),
    if_pos ⟨hseq, hsuper, hdecoy, hmark⟩]

/-- Holding Fn and pressing F10 (second event), the seventh branch. -/
theorem step_second_event (fuel : Nat) (data : gigabyte_kbd_aero17xe5_drvdata)
    (report : hid_report) (rd : List Nat)
    (hid : report.id = 0) (htype : report.type = HID_INPUT_REPORT)
    (hlen : rd.length = 36) (hfuel : 34 < fuel)
    (hseq : data.fn_f10_seq = 2) (hsuper : rd.getD 0 0 &&& MOD_CODE_LEFT_SUPER ≠ 0)
    (hdecoy : rd.getD 2 0 = KEY_CODE_XF86_TOUCHPAD_OFF)
    (hmark : memchr rd 3 KEY_CODE_MYSTERIOUS 33 = true) :
    ∃ out,
      gigabyte_kbd_util_remove_byte_occurrences fuel
        (gigabyte_kbd_util_remove_first_byte
          (clear_mod (clear_mod rd MOD_CODE_LEFT_SUPER) MOD_CODE_LEFT_CTRL) 2 34)
        2 KEY_CODE_MYSTERIOUS 34 = .ok out
      ∧ gigabyte_kbd_raw_event_aero17xe5 fuel data report rd 36 = .ok (⟨3, true⟩, out, 0) := by
  obtain ⟨out, hout, -, -⟩ := remove_byte_occurrences_ok fuel KEY_CODE_MYSTERIOUS
    (gigabyte_kbd_util_remove_first_byte
      (clear_mod (clear_mod rd MOD_CODE_LEFT_SUPER) MOD_CODE_LEFT_CTRL) 2 34) 2 34
    (by decide) (by simp [remove_first_byte_length, clear_mod_length, hlen]) hfuel
  refine ⟨out, hout, ?_⟩
  have hmods : rd.getD 0 0 &&& (MOD_CODE_LEFT_SUPER ||| MOD_CODE_LEFT_CTRL) ≠ 0 := by
    rw [mods_mask_comm]; exact mods_of_super _ hsuper
  unfold gigabyte_kbd_raw_event_aero17xe5
  rw [if_pos ⟨hid, htype, rfl⟩, if_neg (fun h => h.2 hdecoy),
    if_neg (by rintro ⟨h, -⟩; omega), if_neg (by rintro ⟨h, -⟩; omega),
    if_neg (by rintro ⟨h, -⟩; omega), if_neg (fun h => hsuper h.2.1),
    if_neg (by rintro ⟨-, -, -, h⟩; rw [hmark] at h; exact Bool.noConfusion h),
    if_pos ⟨hseq, hmods, hdecoy, hmark⟩]
  simp only [hout]

/-- Releasing F10 or Fn, the ninth branch. -/
theorem step_release (fuel : Nat) (data : gigabyte_kbd_aero17xe5_drvdata)
    (report : hid_report) (rd : List Nat)
    (hid : report.id = 0) (htype : report.type = HID_INPUT_REPORT)
    (hlen : rd.length = 36) (hfuel : 34 < fuel)
    (hseq : data.fn_f10_seq = 3)
    (hmods : rd.getD 0 0 &&& (MOD_CODE_LEFT_CTRL ||| MOD_CODE_LEFT_SUPER) ≠ 0)
    (hsel : (rd.getD 2 0 = KEY_CODE_XF86_TOUCHPAD_OFF
          ∧ memchr rd 3 KEY_CODE_MYSTERIOUS 33 = false)
        ∨ (rd.getD 2 0 ≠ KEY_CODE_XF86_TOUCHPAD_OFF
          ∧ memchr rd 2 KEY_CODE_MYSTERIOUS 34 = true)) :
    ∃ out, gigabyte_kbd_raw_event_aero17xe5 fuel data report rd 36
      = .ok (⟨4, data.fn_f10_ctrl_down⟩, out, 0) := by
  have hmods1 : rd.getD 0 0 &&& (MOD_CODE_LEFT_SUPER ||| MOD_CODE_LEFT_CTRL) ≠ 0 := by
    rw [mods_mask_comm]; exact hmods
  have hget : (clear_mod (clear_mod rd MOD_CODE_LEFT_SUPER) MOD_CODE_LEFT_CTRL).getD 2 0
      = rd.getD 2 0 := by
    rw [clear_mod_getD _ _ 2 (by decide), clear_mod_getD _ _ 2 (by decide)]
  obtain ⟨r, hr, -, -⟩ := remove_byte_occurrences_ok fuel KEY_CODE_MYSTERIOUS
    (clear_mod (clear_mod rd MOD_CODE_LEFT_SUPER) MOD_CODE_LEFT_CTRL) 2 34
    (by decide) (by simp [clear_mod_length, hlen]) hfuel
  unfold gigabyte_kbd_raw_event_aero17xe5
  rw [if_pos ⟨hid, htype, rfl⟩, if_neg (fun h => hmods h.1),
    if_neg (by rintro ⟨h, -⟩; omega), if_neg (by rintro ⟨h, -⟩; omega),
    if_neg (by rintro ⟨h, -⟩; omega), if_neg (by rintro ⟨h, -⟩; omega),
    if_neg (by rintro ⟨h, -⟩; omega), if_neg (by rintro ⟨h, -⟩; omega)]
  rcases hsel with ⟨hd, hm⟩ | ⟨hd, hm⟩
  · rw [if_neg (by rintro ⟨-, -, -, h⟩; rw [hm] at h; exact Bool.noConfusion h),
      if_pos ⟨hseq, hmods1, Or.inl ⟨hd, hm⟩⟩]
    simp only [hget, hd, if_true]
    exact ⟨_, rfl⟩
  · rw [if_neg (by rintro ⟨-, -, h, -⟩; exact hd h),
      if_pos ⟨hseq, hmods1, Or.inr hm⟩]
    simp only [hget, hd, if_false, hr]
    exact ⟨_, rfl⟩

theorem returns_zero_ite (c : Prop) [Decidable c]
    (a b : Except Fault (gigabyte_kbd_aero17xe5_drvdata × List Nat × Int))
    (ha : returns_zero a) (hb : returns_zero b) : returns_zero (if c then a else b) := by
  by_cases h : c
  · rw [if_pos h]; exact ha
  · rw [if_neg h]; exact hb

/-- The tracker returns 0 on every report whose buffer holds `size` bytes, once
the fuel exceeds the 34 bytes of the key-code window. -/
theorem raw_event_aero17xe5_ok (fuel : Nat) (data : gigabyte_kbd_aero17xe5_drvdata)
    (report : hid_report) (rd : List Nat) (size : Nat) (hlen : rd.length = size)
    (hfuel : 34 < fuel) :
    returns_zero (gigabyte_kbd_raw_event_aero17xe5 fuel data report rd size) := by
  by_cases hfmt : report.id = 0 ∧ report.type = HID_INPUT_REPORT ∧ size = 36
  · obtain ⟨hid, htype, hsize⟩ := hfmt
    subst hsize
    obtain ⟨r1, h1, -, -⟩ := remove_byte_occurrences_ok fuel KEY_CODE_MYSTERIOUS
      (gigabyte_kbd_util_remove_first_byte
        (clear_mod (clear_mod rd MOD_CODE_LEFT_SUPER) MOD_CODE_LEFT_CTRL) 2 34) 2 34
      (by decide) (by simp [remove_first_byte_length, clear_mod_length, hlen]) hfuel
    obtain ⟨r2, h2, -, -⟩ := remove_byte_occurrences_ok fuel KEY_CODE_MYSTERIOUS
      (clear_mod (clear_mod rd MOD_CODE_LEFT_SUPER) MOD_CODE_LEFT_CTRL) 2 34
      (by decide) (by simp [clear_mod_length, hlen]) hfuel
    obtain ⟨r3, h3, -, -⟩ := remove_byte_occurrences_ok fuel KEY_CODE_XF86_TOUCHPAD_OFF
      rd 3 33 (by decide) (by omega) (by omega)
    unfold gigabyte_kbd_raw_event_aero17xe5
    rw [if_pos ⟨hid, htype, rfl⟩]
    repeat' first
      | exact ⟨_, _, rfl⟩
      | (dsimp only; rw [h1]; exact ⟨_, _, rfl⟩)
      | (dsimp only; rw [h2]; exact ⟨_, _, rfl⟩)
      | (dsimp only; rw [h3]; exact ⟨_, _, rfl⟩)
      | apply returns_zero_ite
  · unfold gigabyte_kbd_raw_event_aero17xe5
    rw [if_neg hfmt]
    exact ⟨_, _, rfl⟩

/-- Resynchronisation stated on the two modifier bits. -/
theorem resync_of_bits (fuel : Nat) (data : gigabyte_kbd_aero17xe5_drvdata)
    (report : hid_report) (rd : List Nat)
    (hid : report.id = 0) (htype : report.type = HID_INPUT_REPORT)
    (hctrl : rd.getD 0 0 &&& MOD_CODE_LEFT_CTRL = 0)
    (hsuper : rd.getD 0 0 &&& MOD_CODE_LEFT_SUPER = 0)
    (hdecoy : rd.getD 2 0 ≠ KEY_CODE_XF86_TOUCHPAD_OFF) :
    gigabyte_kbd_raw_event_aero17xe5 fuel data report rd 36 = .ok (⟨0, false⟩, rd, 0) :=
  step_resync fuel data report rd hid htype
    ((mods_clear_iff _).mpr ⟨hctrl, hsuper⟩) hdecoy

/-- With the byte 0x00 the `while` loop at the zero of the window `[7, 0]`
never ends: the shift refills the slot with the zero it has just removed. -/
theorem remove_while_zero_stuck (fuel : Nat) :
    remove_while 0 0 1 2 [7, 0] fuel = .error .out_of_fuel := by
  induction fuel with
  | zero => rfl
  | succ n ih =>
    have hstep : (shift_left 0 [7, 0] (1 + 1) (2 - (1 + 1))).set (0 + 2 - 1) 0 = [7, 0] := rfl
    have hget : ([7, 0] : List Nat).getD (0 + 1) 0 = 0 := rfl
    rw [remove_while, if_pos hget, hstep, ih]

/-- Remove-all of the byte 0x00 on the window `[7, 0]` runs out of every fuel. -/
theorem remove_zero_stuck (fuel : Nat) :
    gigabyte_kbd_util_remove_byte_occurrences fuel [7, 0] 0 0 2 = .error .out_of_fuel := by
  cases fuel with
  | zero => rfl
  | succ n =>
    have h0 : remove_while 0 0 0 2 [7, 0] (n + 1) = .ok [7, 0] := rfl
    have h1 := remove_while_zero_stuck (n + 1)
    simp only [gigabyte_kbd_util_remove_byte_occurrences, remove_for, h0]
    rw [show (0 : Nat) + 1 = 1 from rfl, h1]

/-- Remove-all on a window that reaches the end of the buffer. -/
theorem remove_byte_occurrences_tail (fuel b : Nat) (rd : List Nat) (off size : Nat)
    (hb : b ≠ 0) (hin : off + size = rd.length) (hfuel : (rd.drop off).count b < fuel) :
    gigabyte_kbd_util_remove_byte_occurrences fuel rd off b size
      = .ok (rd.take off ++ compacted b (rd.drop off)) := by
  have hA : (rd.take off).length = off := by simp; omega
  have hw : (rd.drop off).length = size := by simp; omega
  have h := remove_byte_occurrences_window fuel b (rd.take off) (rd.drop off) [] hb hfuel
  rw [List.append_nil, List.append_nil, List.take_append_drop, hA, hw] at h
  exact h

/-- The fuel of a 36-byte report suffices for any window of it. -/
theorem count_drop_lt (fuel b : Nat) (rd : List Nat) (off : Nat)
    (hlen : rd.length = 36) (hfuel : 34 < fuel) (hoff : 2 ≤ off) :
    (rd.drop off).count b < fuel := by
  have h1 := List.count_le_length b (rd.drop off)
  have h2 : (rd.drop off).length = 36 - off := by simp [hlen]
  omega

theorem clear_super_super (x : Nat) :
    clear_bits x MOD_CODE_LEFT_SUPER &&& MOD_CODE_LEFT_SUPER = 0 := by
  have h : (0xFF ^^^ MOD_CODE_LEFT_SUPER) &&& MOD_CODE_LEFT_SUPER = 0 := by decide
  unfold clear_bits
  rw [Nat.and_assoc, h, Nat.and_zero]

theorem clear_ctrl_ctrl (x : Nat) :
    clear_bits x MOD_CODE_LEFT_CTRL &&& MOD_CODE_LEFT_CTRL = 0 := by
  have h : (0xFF ^^^ MOD_CODE_LEFT_CTRL) &&& MOD_CODE_LEFT_CTRL = 0 := by decide
  unfold clear_bits
  rw [Nat.and_assoc, h, Nat.and_zero]

theorem clear_super_keeps_ctrl (x : Nat) :
    clear_bits x MOD_CODE_LEFT_SUPER &&& MOD_CODE_LEFT_CTRL = x &&& MOD_CODE_LEFT_CTRL := by
  unfold clear_bits
  rw [Nat.and_assoc]; rfl

/-- The statement `rd[0] &= ~m;` on a nonempty buffer. -/
theorem clear_mod_head (rd : List Nat) (m : Nat) (h : rd ≠ []) :
    (clear_mod rd m).getD 0 0 = clear_bits (rd.getD 0 0) m := by
  match rd, h with
  | a :: t, _ => simp [clear_mod]

theorem ite_cases {α : Type} (P : α → Prop) (c : Prop) [Decidable c] (a b : α)
    (ha : c → P a) (hb : ¬ c → P b) : P (if c then a else b) := by
  by_cases h : c
  · rw [if_pos h]; exact ha h
  · rw [if_neg h]; exact hb h

/-- The byte removed by remove-all does not occur in what it leaves. -/
theorem not_mem_compacted (b : Nat) (w : List Nat) (hb : b ≠ 0) : b ∉ compacted b w := by
  intro hmem
  rcases List.mem_append.mp hmem with h1 | h1
  · have := (List.mem_filter.mp h1).2
    simp at this
  · exact hb (List.eq_of_mem_replicate h1)

/-- Every byte of what remove-all leaves is a byte of the window or a zero. -/
theorem mem_compacted (b x : Nat) (w : List Nat) (h : x ∈ compacted b w) : x ∈ w ∨ x = 0 := by
  rcases List.mem_append.mp h with h1 | h1
  · exact Or.inl (List.mem_filter.mp h1).1
  · exact Or.inr (List.eq_of_mem_replicate h1)

/-- Bytes 2..35 of a 36-byte report are byte 2 followed by bytes 3..35. -/
theorem drop_two_eq (rd : List Nat) (hlen : rd.length = 36) :
    rd.drop 2 = rd.getD 2 0 :: rd.drop 3 := by
  have h2 : 2 < rd.length := by omega
  have e : rd.getD 2 0 = rd[2] := by
    rw [List.getD_eq_getElem?_getD, List.getElem?_eq_getElem h2]; rfl
  rw [e, ← List.drop_eq_getElem_cons h2]

/-- The final `else` of the tracker: a tracked-format report that meets none of
the enumerated conditions has every decoy removed from bytes 3..35. -/
theorem step_fallback (fuel : Nat) (data : gigabyte_kbd_aero17xe5_drvdata)
    (report : hid_report) (rd : List Nat)
    (hid : report.id = 0) (htype : report.type = HID_INPUT_REPORT) (hlen : rd.length = 36)
    (hfuel : (rd.drop 3).count KEY_CODE_XF86_TOUCHPAD_OFF < fuel)
    (hnone : ¬ enumerated_transition data rd) :
    gigabyte_kbd_raw_event_aero17xe5 fuel data report rd 36
      = .ok (data, rd.take 3 ++ compacted KEY_CODE_XF86_TOUCHPAD_OFF (rd.drop 3), 0) := by
  unfold enumerated_transition at hnone
  simp only [not_or] at hnone
  obtain ⟨n1, n2, n3, n4, n5, n6, n7, n8, n9, n10, n11⟩ := hnone
  have hr := remove_byte_occurrences_tail fuel KEY_CODE_XF86_TOUCHPAD_OFF rd 3 33
    (by decide) (by omega) hfuel
  unfold gigabyte_kbd_raw_event_aero17xe5
  rw [if_pos ⟨hid, htype, rfl⟩, if_neg n1, if_neg n2, if_neg n3, if_neg n4, if_neg n5,
    if_neg n6, if_neg n7, if_neg n8, if_neg n9, if_neg n10, if_neg n11, hr]

/-- Two families of reports that take the final `else`: in phase 0, a modifier
of interest with no decoy in byte 2; in phase 5, any report that does not
resynchronise. -/
theorem not_enumerated_examples (data : gigabyte_kbd_aero17xe5_drvdata) (rd : List Nat)
    (h : (data.fn_f10_seq = 0
          ∧ rd.getD 0 0 &&& (MOD_CODE_LEFT_CTRL ||| MOD_CODE_LEFT_SUPER) ≠ 0
          ∧ rd.getD 2 0 ≠ KEY_CODE_XF86_TOUCHPAD_OFF)
        ∨ (data.fn_f10_seq = 5
          ∧ ¬ (rd.getD 0 0 &&& (MOD_CODE_LEFT_CTRL ||| MOD_CODE_LEFT_SUPER) = 0
            ∧ rd.getD 2 0 ≠ KEY_CODE_XF86_TOUCHPAD_OFF))) :
    ¬ enumerated_transition data rd := by
  unfold enumerated_transition
  rcases h with ⟨hs, hm, hd⟩ | ⟨hs, hr⟩
  · rintro (h | h | h | h | h | h | h | h | h | h | h)
    · exact hm h.1
    · exact hd h.2
    all_goals omega
  · rintro (h | h | h | h | h | h | h | h | h | h | h)
    · exact hr h
    all_goals omega

theorem byte0_rel_refl (x : Nat) : byte0_rel x x := Or.inl rfl

theorem mods_variant_refl (rd : List Nat) : mods_variant rd rd :=
  ⟨rfl, rfl, byte0_rel_refl _⟩

theorem mods_variant_super (rd : List Nat) (h : rd ≠ []) :
    mods_variant rd (clear_mod rd MOD_CODE_LEFT_SUPER) :=
  ⟨clear_mod_length _ _, clear_mod_drop _ _ 1 (by decide),
    Or.inr (Or.inl (clear_mod_head _ _ h))⟩

theorem mods_variant_ctrl (rd : List Nat) (h : rd ≠ []) :
    mods_variant rd (clear_mod rd MOD_CODE_LEFT_CTRL) :=
  ⟨clear_mod_length _ _, clear_mod_drop _ _ 1 (by decide),
    Or.inr (Or.inr (Or.inl (clear_mod_head _ _ h)))⟩

theorem clear_mod_ne_nil (rd : List Nat) (m : Nat) (h : rd ≠ []) : clear_mod rd m ≠ [] := by
  intro e
  have hl := clear_mod_length rd m
  rw [e] at hl
  exact h (List.length_eq_zero.mp hl.symm)

theorem mods_variant_both (rd : List Nat) (h : rd ≠ []) :
    mods_variant rd (clear_mod (clear_mod rd MOD_CODE_LEFT_SUPER) MOD_CODE_LEFT_CTRL) := by
  refine ⟨?_, ?_, Or.inr (Or.inr (Or.inr ?_))⟩
  · rw [clear_mod_length, clear_mod_length]
  · rw [clear_mod_drop _ _ 1 (by decide), clear_mod_drop _ _ 1 (by decide)]
  · rw [clear_mod_head _ _ (clear_mod_ne_nil _ _ h), clear_mod_head _ _ h]

theorem real_keys_append (u v : List Nat) : real_keys (u ++ v) = real_keys u ++ real_keys v := by
  simp [real_keys]

theorem real_keys_zero_cons (w : List Nat) : real_keys (0 :: w) = real_keys w := by
  simp [real_keys]

theorem real_keys_decoy_cons (w : List Nat) :
    real_keys (KEY_CODE_XF86_TOUCHPAD_OFF :: w) = real_keys w := by
  simp [real_keys]

theorem real_keys_marker_cons (w : List Nat) :
    real_keys (KEY_CODE_MYSTERIOUS :: w) = real_keys w := by
  simp [real_keys]

theorem real_keys_zeros (k : Nat) : real_keys (List.replicate k 0) = [] := by
  induction k with
  | zero => rfl
  | succ k ih => rw [List.replicate_succ, real_keys_zero_cons, ih]

/-- Remove-all of the decoy or of the marker keeps the real key codes. -/
theorem real_keys_compacted (b : Nat) (w : List Nat)
    (hb : b = KEY_CODE_XF86_TOUCHPAD_OFF ∨ b = KEY_CODE_MYSTERIOUS) :
    real_keys (compacted b w) = real_keys w := by
  unfold compacted
  rw [real_keys_append, real_keys_zeros, List.append_nil]
  induction w with
  | nil => rfl
  | cons x w ih =>
    by_cases hx : x = b
    · subst hx
      have e : (x != x) = false := by simp
      rw [List.filter_cons, e]
      simp only [Bool.false_eq_true, if_false]
      rw [ih]
      rcases hb with hb | hb
      · rw [hb, real_keys_decoy_cons]
      · rw [hb, real_keys_marker_cons]
    · have e : (x != b) = true := by simpa using hx
      rw [List.filter_cons, e]
      simp only [if_true]
      have e1 : ∀ u : List Nat, real_keys (x :: u) = real_keys [x] ++ real_keys u :=
        fun u => real_keys_append [x] u
      rw [e1, e1 w, ih]

theorem frame_of_variant (rd X : List Nat) (h : mods_variant rd X) : frame rd X := by
  obtain ⟨h1, h2, h3⟩ := h
  refine ⟨h1, ?_, h3, ?_⟩
  · have e : ∀ l : List Nat, l.getD 1 0 = (l.drop 1).getD 0 0 := by
      intro l
      cases l with
      | nil => rfl
      | cons a t => cases t <;> rfl
    rw [e X, e rd, h2]
  · have e : ∀ l : List Nat, l.drop 2 = (l.drop 1).drop 1 := by
      intro l; simp
    rw [e X, e rd, h2]

/-- Stripping the decoy from byte 2 keeps the frame. -/
theorem frame_remove_first (rd X : List Nat) (h : mods_variant rd X) (hlen : rd.length = 36)
    (hdecoy : rd.getD 2 0 = KEY_CODE_XF86_TOUCHPAD_OFF) :
    frame rd (gigabyte_kbd_util_remove_first_byte X 2 34) := by
  obtain ⟨h1, h2, h3⟩ := h
  have hX : X.length = 36 := by rw [h1, hlen]
  have e3 : X.drop 3 = rd.drop 3 := by
    have e : ∀ l : List Nat, l.drop 3 = (l.drop 1).drop 2 := by
      intro l; simp
    rw [e X, e rd, h2]
  refine ⟨?_, ?_, ?_, ?_⟩
  · rw [remove_first_byte_length, h1]
  · have e : ∀ l : List Nat, l.getD 1 0 = (l.drop 1).getD 0 0 := by
      intro l
      cases l with
      | nil => rfl
      | cons a t => cases t <;> rfl
    have e1 : (gigabyte_kbd_util_remove_first_byte X 2 34).getD 1 0 = X.getD 1 0 := by
      rw [remove_first_byte_report X hX]
      match X, hX with
      | a :: b :: t, _ => simp
    rw [e1, e X, e rd, h2]
  · rw [remove_first_byte_report_head X hX]; exact h3
  · rw [remove_first_byte_report_drop X hX, e3, drop_two_eq rd hlen, hdecoy,
      real_keys_decoy_cons, real_keys_append]
    have : real_keys [0] = [] := real_keys_zeros 1
    rw [this, List.append_nil]

/-- The frame composes with a step that keeps bytes 0 and 1, the length and
the real key codes. -/
theorem frame_trans (rd Y out : List Nat) (h : frame rd Y)
    (hl : out.length = Y.length) (h0 : out.getD 0 0 = Y.getD 0 0)
    (h1 : out.getD 1 0 = Y.getD 1 0) (hk : real_keys (out.drop 2) = real_keys (Y.drop 2)) :
    frame rd out := by
  obtain ⟨a, b, c, d⟩ := h
  exact ⟨by rw [hl, a], by rw [h1, b], by rw [h0]; exact c, by rw [hk, d]⟩

/-- Remove-all of the decoy or the marker on bytes 2..35 or 3..35 of a 36-byte
buffer returns, and keeps the frame. -/
theorem frame_remove_all (fuel b : Nat) (rd Y : List Nat) (off size : Nat) (h : frame rd Y)
    (hlen : Y.length = 36) (hfuel : 34 < fuel) (hoff : off = 2 ∨ off = 3)
    (hsize : off + size = 36)
    (hb : b = KEY_CODE_XF86_TOUCHPAD_OFF ∨ b = KEY_CODE_MYSTERIOUS) :
    ∃ out, gigabyte_kbd_util_remove_byte_occurrences fuel Y off b size = .ok out
      ∧ frame rd out := by
  have hb0 : b ≠ 0 := by
    rcases hb with e | e <;> rw [e] <;> decide
  have hr := remove_byte_occurrences_tail fuel b Y off size hb0
    (by omega)
    (count_drop_lt fuel b Y off hlen hfuel (by rcases hoff with e | e <;> omega))
  refine ⟨_, hr, ?_⟩
  have hcl : (compacted b (Y.drop off)).length = 36 - off := by
    rw [compacted_length]; simp [hlen]
  match Y, hlen with
  | y0 :: y1 :: y2 :: t, hl =>
    rcases hoff with e | e
    · subst e
      refine frame_trans rd _ _ h ?_ ?_ ?_ ?_
      · simp at hl hcl ⊢; omega
      · simp
      · simp
      · have e1 : (List.take 2 (y0 :: y1 :: y2 :: t)
            ++ compacted b (List.drop 2 (y0 :: y1 :: y2 :: t))).drop 2
            = compacted b (List.drop 2 (y0 :: y1 :: y2 :: t)) := by simp
        rw [e1, real_keys_compacted b _ hb]
    · subst e
      refine frame_trans rd _ _ h ?_ ?_ ?_ ?_
      · simp at hl hcl ⊢; omega
      · simp
      · simp
      · have e1 : (List.take 3 (y0 :: y1 :: y2 :: t)
            ++ compacted b (List.drop 3 (y0 :: y1 :: y2 :: t))).drop 2
            = [y2] ++ compacted b t := by simp
        have e2 : List.drop 2 (y0 :: y1 :: y2 :: t) = [y2] ++ t := by simp
        rw [e1, e2, real_keys_append, real_keys_append, real_keys_compacted b _ hb]

theorem frame_refl (rd : List Nat) : frame rd rd := frame_of_variant rd rd (mods_variant_refl rd)

theorem step_effect_ite (data : gigabyte_kbd_aero17xe5_drvdata) (report : hid_report)
    (rd : List Nat) (size : Nat) (c : Prop) [Decidable c]
    (a b : Except Fault (gigabyte_kbd_aero17xe5_drvdata × List Nat × Int))
    (ha : c → step_effect data report rd size a)
    (hb : ¬ c → step_effect data report rd size b) :
    step_effect data report rd size (if c then a else b) :=
  ite_cases (step_effect data report rd size) c a b ha hb

/-- The allowed steps of the driver data on a report that does not resynchronise. -/
theorem data_step_of_not_resync (data : gigabyte_kbd_aero17xe5_drvdata) (report : hid_report)
    (rd : List Nat) (size : Nat) (data1 : gigabyte_kbd_aero17xe5_drvdata)
    (hn : ¬ (rd.getD 0 0 &&& (MOD_CODE_LEFT_CTRL ||| MOD_CODE_LEFT_SUPER) = 0
        ∧ rd.getD 2 0 ≠ KEY_CODE_XF86_TOUCHPAD_OFF))
    (h : data1 = data
      ∨ (data1.fn_f10_ctrl_down = data.fn_f10_ctrl_down
          ∧ (data1.fn_f10_seq = 1 ∨ data1.fn_f10_seq = 2 ∨ data1.fn_f10_seq = 4
            ∨ data1.fn_f10_seq = 5))
      ∨ (data.fn_f10_seq = 2 ∧ data1 = ⟨3, true⟩)) :
    data_step data report rd size data1 :=
  ⟨fun hr => absurd hr.2 hn, fun _ => h⟩

/-- The buffer the Fn+Super branch strips the decoy from is the report up to
cleared modifier bits. -/
theorem mods_variant_hold (rd : List Nat) (h : rd ≠ []) (c1 c2 : Prop) [Decidable c1]
    [Decidable c2] :
    mods_variant rd
      (if c2 then
        clear_mod (if c1 then clear_mod rd MOD_CODE_LEFT_SUPER else rd) MOD_CODE_LEFT_CTRL
       else (if c1 then clear_mod rd MOD_CODE_LEFT_SUPER else rd)) := by
  by_cases h1 : c1 <;> by_cases h2 : c2
  · rw [if_pos h2, if_pos h1]; exact mods_variant_both rd h
  · rw [if_neg h2, if_pos h1]; exact mods_variant_super rd h
  · rw [if_pos h2, if_neg h1]; exact mods_variant_ctrl rd h
  · rw [if_neg h2, if_neg h1]; exact mods_variant_refl rd

/-- Every run of the tracker on a buffer of `size` bytes, with fuel above the 34
bytes of the key-code window, returns 0, keeps the frame of the report and
changes the driver data by one of the allowed steps. -/
theorem raw_event_aero17xe5_effect (fuel : Nat) (data : gigabyte_kbd_aero17xe5_drvdata)
    (report : hid_report) (rd : List Nat) (size : Nat) (hlen : rd.length = size)
    (hfuel : 34 < fuel) :
    step_effect data report rd size
      (gigabyte_kbd_raw_event_aero17xe5 fuel data report rd size) := by
  by_cases hfmt : report.id = 0 ∧ report.type = HID_INPUT_REPORT ∧ size = 36
  · obtain ⟨hid, htype, hsize⟩ := hfmt
    subst hsize
    have hne : rd ≠ [] := by
      intro e; rw [e] at hlen; simp at hlen
    have vB := mods_variant_both rd hne
    have lB : (clear_mod (clear_mod rd MOD_CODE_LEFT_SUPER) MOD_CODE_LEFT_CTRL).length = 36 := by
      rw [clear_mod_length, clear_mod_length]; exact hlen
    have hM : KEY_CODE_MYSTERIOUS = KEY_CODE_XF86_TOUCHPAD_OFF
        ∨ KEY_CODE_MYSTERIOUS = KEY_CODE_MYSTERIOUS := Or.inr rfl
    unfold gigabyte_kbd_raw_event_aero17xe5
    rw [if_pos ⟨hid, htype, rfl⟩]
    -- resynchronisation
    refine step_effect_ite _ _ _ _ _ _ _ (fun h => ?_) (fun n1 => ?_)
    · exact ⟨_, _, rfl, frame_refl rd, fun _ => rfl,
        fun hn => absurd ⟨⟨hid, htype, rfl⟩, h⟩ hn⟩
    -- pressing Fn
    refine step_effect_ite _ _ _ _ _ _ _ (fun h => ?_) (fun _ => ?_)
    · exact ⟨_, _, rfl, frame_remove_first rd rd (mods_variant_refl rd) hlen h.2,
        data_step_of_not_resync _ _ _ _ _ n1 (Or.inr (Or.inl ⟨rfl, Or.inl rfl⟩))⟩
    -- holding Fn
    refine step_effect_ite _ _ _ _ _ _ _ (fun h => ?_) (fun _ => ?_)
    · exact ⟨_, _, rfl, frame_remove_first rd rd (mods_variant_refl rd) hlen h.2.2,
        data_step_of_not_resync _ _ _ _ _ n1 (Or.inl rfl)⟩
    -- pressing Super
    refine step_effect_ite _ _ _ _ _ _ _ (fun h => ?_) (fun _ => ?_)
    · exact ⟨_, _, rfl, frame_remove_first rd _ (mods_variant_super rd hne) hlen h.2.2,
        data_step_of_not_resync _ _ _ _ _ n1 (Or.inr (Or.inl ⟨rfl, Or.inr (Or.inl rfl)⟩))⟩
    -- releasing Super
    refine step_effect_ite _ _ _ _ _ _ _ (fun h => ?_) (fun _ => ?_)
    · exact ⟨_, _, rfl, frame_remove_first rd rd (mods_variant_refl rd) hlen h.2.2,
        data_step_of_not_resync _ _ _ _ _ n1 (Or.inr (Or.inl ⟨rfl, Or.inl rfl⟩))⟩
    -- holding Fn+Super
    refine step_effect_ite _ _ _ _ _ _ _ (fun h => ?_) (fun _ => ?_)
    · exact ⟨_, _, rfl, frame_remove_first rd _ (mods_variant_hold rd hne _ _) hlen h.2.2.1,
        data_step_of_not_resync _ _ _ _ _ n1 (Or.inl rfl)⟩
    -- second event of F10
    refine step_effect_ite _ _ _ _ _ _ _ (fun h => ?_) (fun _ => ?_)
    · obtain ⟨out, hout, hf⟩ := frame_remove_all fuel KEY_CODE_MYSTERIOUS rd _ 2 34
        (frame_remove_first rd _ vB hlen h.2.2.1)
        (by rw [remove_first_byte_length]; exact lB) hfuel (Or.inl rfl) rfl hM
      dsimp only
      rw [hout]
      exact ⟨_, _, rfl, hf,
        data_step_of_not_resync _ _ _ _ _ n1 (Or.inr (Or.inr ⟨h.1, rfl⟩))⟩
    -- holding Fn+F10
    refine step_effect_ite _ _ _ _ _ _ _ (fun h => ?_) (fun _ => ?_)
    · obtain ⟨out, hout, hf⟩ := frame_remove_all fuel KEY_CODE_MYSTERIOUS rd _ 2 34
        (frame_remove_first rd _ vB hlen h.2.2.1)
        (by rw [remove_first_byte_length]; exact lB) hfuel (Or.inl rfl) rfl hM
      dsimp only
      rw [hout]
      exact ⟨_, _, rfl, hf, data_step_of_not_resync _ _ _ _ _ n1 (Or.inl rfl)⟩
    -- releasing F10 or Fn
    refine step_effect_ite _ _ _ _ _ _ _ (fun _ => ?_) (fun _ => ?_)
    · dsimp only
      refine step_effect_ite _ _ _ _ _ _ _ (fun hd => ?_) (fun _ => ?_)
      · rw [clear_mod_getD _ _ 2 (by decide), clear_mod_getD _ _ 2 (by decide)] at hd
        exact ⟨_, _, rfl, frame_remove_first rd _ vB hlen hd,
          data_step_of_not_resync _ _ _ _ _ n1
            (Or.inr (Or.inl ⟨rfl, Or.inr (Or.inr (Or.inl rfl))⟩))⟩
      · obtain ⟨out, hout, hf⟩ := frame_remove_all fuel KEY_CODE_MYSTERIOUS rd _ 2 34
          (frame_of_variant rd _ vB) lB hfuel (Or.inl rfl) rfl hM
        rw [hout]
        exact ⟨_, _, rfl, hf,
          data_step_of_not_resync _ _ _ _ _ n1
            (Or.inr (Or.inl ⟨rfl, Or.inr (Or.inr (Or.inl rfl))⟩))⟩
    -- pressing F10 again
    refine step_effect_ite _ _ _ _ _ _ _ (fun h => ?_) (fun _ => ?_)
    · exact ⟨_, _, rfl, frame_remove_first rd _ vB hlen h.2.2,
        data_step_of_not_resync _ _ _ _ _ n1 (Or.inr (Or.inl ⟨rfl, Or.inr (Or.inl rfl)⟩))⟩
    -- releasing Fn
    refine step_effect_ite _ _ _ _ _ _ _ (fun _ => ?_) (fun _ => ?_)
    · exact ⟨_, _, rfl, frame_of_variant rd _ vB,
        data_step_of_not_resync _ _ _ _ _ n1
          (Or.inr (Or.inl ⟨rfl, Or.inr (Or.inr (Or.inr rfl))⟩))⟩
    -- stray decoy
    obtain ⟨out, hout, hf⟩ := frame_remove_all fuel KEY_CODE_XF86_TOUCHPAD_OFF rd rd 3 33
      (frame_refl rd) hlen hfuel (Or.inr rfl) rfl (Or.inl rfl)
    rw [hout]
    exact ⟨_, _, rfl, hf, data_step_of_not_resync _ _ _ _ _ n1 (Or.inl rfl)⟩
  · unfold gigabyte_kbd_raw_event_aero17xe5
    rw [if_neg hfmt]
    exact ⟨_, _, rfl, frame_refl rd, fun hr => absurd hr.1 hfmt, fun _ => Or.inl rfl⟩

/-- What the allowed values of byte 0 mean bit by bit: the six modifier bits
other than Ctrl and Super are as before, and no bit is set that was clear. -/
theorem byte0_rel_bits (x y : Nat) (h : byte0_rel x y) :
    (∀ i, i < 8 → i ≠ 0 → i ≠ 3 → y.testBit i = x.testBit i)
    ∧ (∀ i, y.testBit i = true → x.testBit i = true) := by
  have hS : (0xFF ^^^ MOD_CODE_LEFT_SUPER) = 247 := by decide
  have hC : (0xFF ^^^ MOD_CODE_LEFT_CTRL) = 254 := by decide
  have b247 : ∀ i, i < 8 → i ≠ 0 → i ≠ 3 → Nat.testBit 247 i = true := by
    intro i h8 _ h3
    interval_cases i <;> first | rfl | exact absurd rfl h3
  have b254 : ∀ i, i < 8 → i ≠ 0 → i ≠ 3 → Nat.testBit 254 i = true := by
    intro i h8 h0 _
    interval_cases i <;> first | rfl | exact absurd rfl h0
  unfold byte0_rel clear_bits at h
  rw [hS, hC] at h
  rcases h with h | h | h | h
  · subst h
    exact ⟨fun _ _ _ _ => rfl, fun _ hi => hi⟩
  · subst h
    refine ⟨fun i h8 h0 h3 => ?_, fun i hi => ?_⟩
    · rw [Nat.testBit_and, b247 i h8 h0 h3, Bool.and_true]
    · rw [Nat.testBit_and] at hi
      exact (Bool.and_eq_true _ _ ▸ hi).1
  · subst h
    refine ⟨fun i h8 h0 h3 => ?_, fun i hi => ?_⟩
    · rw [Nat.testBit_and, b254 i h8 h0 h3, Bool.and_true]
    · rw [Nat.testBit_and] at hi
      exact (Bool.and_eq_true _ _ ▸ hi).1
  · subst h
    refine ⟨fun i h8 h0 h3 => ?_, fun i hi => ?_⟩
    · rw [Nat.testBit_and, Nat.testBit_and, b247 i h8 h0 h3, b254 i h8 h0 h3,
        Bool.and_true, Bool.and_true]
    · rw [Nat.testBit_and, Nat.testBit_and] at hi
      have h1 := (Bool.and_eq_true _ _ ▸ hi).1
      exact (Bool.and_eq_true _ _ ▸ h1).1

/-- A property of the driver data that every allowed step keeps holds after
each report of every run. -/
theorem run_reports_invariant (fuel : Nat) (hfuel : 34 < fuel)
    (Inv : gigabyte_kbd_aero17xe5_drvdata → Prop)
    (hstep : ∀ d report rd d1, Inv d → data_step d report rd rd.length d1 → Inv d1) :
    ∀ (inputs : List (hid_report × List Nat)) (d0 : gigabyte_kbd_aero17xe5_drvdata), Inv d0 →
      ∃ ds, run_reports fuel d0 inputs = .ok ds ∧ ds.length = inputs.length
        ∧ ∀ d ∈ ds, Inv d := by
  intro inputs
  induction inputs with
  | nil => intro d0 _; exact ⟨[], rfl, rfl, fun d hd => absurd hd (List.not_mem_nil d)⟩
  | cons x rest ih =>
    intro d0 h0
    obtain ⟨report, rd⟩ := x
    obtain ⟨d1, out, h1, -, hd⟩ :=
      raw_event_aero17xe5_effect fuel d0 report rd rd.length rfl hfuel
    have i1 := hstep d0 report rd d1 h0 hd
    obtain ⟨ds, h2, h3, h4⟩ := ih d1 i1
    refine ⟨d1 :: ds, ?_, by simp [h3], ?_⟩
    · simp only [run_reports, h1, h2]
    · intro d hmem
      rcases List.mem_cons.mp hmem with e | e
      · rw [e]; exact i1
      · exact h4 d e

/-- The sticky flag after an allowed step, from the flag before and the kind of
the step. -/
theorem ctrl_of_data_step (d : gigabyte_kbd_aero17xe5_drvdata) (report : hid_report)
    (rd : List Nat) (size : Nat) (d1 : gigabyte_kbd_aero17xe5_drvdata)
    (h : data_step d report rd size d1) :
    d1.fn_f10_ctrl_down
      = (if is_resync report rd size then false
         else if d.fn_f10_seq = 2 ∧ d1.fn_f10_seq = 3 then true
         else d.fn_f10_ctrl_down) := by
  obtain ⟨h1, h2⟩ := h
  by_cases hr : is_resync report rd size
  · rw [if_pos hr, h1 hr]
  · rw [if_neg hr]
    rcases h2 hr with e | ⟨e, hs⟩ | ⟨hs, e⟩
    · subst e
      rw [if_neg (by rintro ⟨a, b⟩; omega)]
    · rw [if_neg (by rintro ⟨a, b⟩; omega), e]
    · subst e
      rw [if_pos ⟨hs, rfl⟩]

/-- After each report of every run the sticky flag is what the history predicts. -/
theorem run_reports_sticky (fuel : Nat) (hfuel : 34 < fuel) :
    ∀ (inputs : List (hid_report × List Nat)) (d0 : gigabyte_kbd_aero17xe5_drvdata),
      ∃ ds, run_reports fuel d0 inputs = .ok ds
        ∧ ds.map (fun d => d.fn_f10_ctrl_down)
          = sticky_by_history d0.fn_f10_ctrl_down d0 (inputs.zip ds) := by
  intro inputs
  induction inputs with
  | nil => intro d0; exact ⟨[], rfl, rfl⟩
  | cons x rest ih =>
    intro d0
    obtain ⟨report, rd⟩ := x
    obtain ⟨d1, out, h1, -, hd⟩ :=
      raw_event_aero17xe5_effect fuel d0 report rd rd.length rfl hfuel
    obtain ⟨ds, h2, h3⟩ := ih d1
    refine ⟨d1 :: ds, ?_, ?_⟩
    · simp only [run_reports, h1, h2]
    · have hc := ctrl_of_data_step d0 report rd rd.length d1 hd
      simp only [List.zip_cons_cons, List.map_cons, sticky_by_history]
      rw [← hc, h3]
      rfl

/-- The second event of F10, with the window it leaves: the former bytes 3..35
and a zero, compacted of the marker. -/
theorem step_second_event_window (fuel : Nat) (data : gigabyte_kbd_aero17xe5_drvdata)
    (report : hid_report) (rd : List Nat)
    (hid : report.id = 0) (htype : report.type = HID_INPUT_REPORT)
    (hlen : rd.length = 36) (hfuel : 34 < fuel)
    (hseq : data.fn_f10_seq = 2) (hsuper : rd.getD 0 0 &&& MOD_CODE_LEFT_SUPER ≠ 0)
    (hdecoy : rd.getD 2 0 = KEY_CODE_XF86_TOUCHPAD_OFF)
    (hmark : memchr rd 3 KEY_CODE_MYSTERIOUS 33 = true) :
    ∃ out, gigabyte_kbd_raw_event_aero17xe5 fuel data report rd 36 = .ok (⟨3, true⟩, out, 0)
      ∧ out.drop 2 = compacted KEY_CODE_MYSTERIOUS (rd.drop 3 ++ [0]) := by
  obtain ⟨out, hout, h⟩ :=
    step_second_event fuel data report rd hid htype hlen hfuel hseq hsuper hdecoy hmark
  refine ⟨out, h, ?_⟩
  have lB : (clear_mod (clear_mod rd MOD_CODE_LEFT_SUPER) MOD_CODE_LEFT_CTRL).length = 36 := by
    rw [clear_mod_length, clear_mod_length]; exact hlen
  have lX : (gigabyte_kbd_util_remove_first_byte
      (clear_mod (clear_mod rd MOD_CODE_LEFT_SUPER) MOD_CODE_LEFT_CTRL) 2 34).length = 36 := by
    rw [remove_first_byte_length]; exact lB
  have hr := remove_byte_occurrences_tail fuel KEY_CODE_MYSTERIOUS
    (gigabyte_kbd_util_remove_first_byte
      (clear_mod (clear_mod rd MOD_CODE_LEFT_SUPER) MOD_CODE_LEFT_CTRL) 2 34) 2 34 (by decide)
    (by omega) (count_drop_lt fuel KEY_CODE_MYSTERIOUS _ 2 lX hfuel (le_refl 2))
  rw [hr] at hout
  have hout := Except.ok.inj hout
  have h2 : (List.take 2 (gigabyte_kbd_util_remove_first_byte
      (clear_mod (clear_mod rd MOD_CODE_LEFT_SUPER) MOD_CODE_LEFT_CTRL) 2 34)).length = 2 := by
    simp [lX]
  rw [← hout, List.drop_left' h2, remove_first_byte_report_drop _ lB,
    clear_mod_drop _ _ 3 (by decide), clear_mod_drop _ _ 3 (by decide)]

/-- The release of F10 or Fn, with the window it leaves: with the decoy in byte
2, the former bytes 3..35 and a zero; without it, the former bytes 2..35
compacted of the marker. -/
theorem step_release_window (fuel : Nat) (data : gigabyte_kbd_aero17xe5_drvdata)
    (report : hid_report) (rd : List Nat)
    (hid : report.id = 0) (htype : report.type = HID_INPUT_REPORT)
    (hlen : rd.length = 36) (hfuel : 34 < fuel)
    (hseq : data.fn_f10_seq = 3)
    (hmods : rd.getD 0 0 &&& (MOD_CODE_LEFT_CTRL ||| MOD_CODE_LEFT_SUPER) ≠ 0)
    (hsel : (rd.getD 2 0 = KEY_CODE_XF86_TOUCHPAD_OFF
          ∧ memchr rd 3 KEY_CODE_MYSTERIOUS 33 = false)
        ∨ (rd.getD 2 0 ≠ KEY_CODE_XF86_TOUCHPAD_OFF
          ∧ memchr rd 2 KEY_CODE_MYSTERIOUS 34 = true)) :
    ∃ out, gigabyte_kbd_raw_event_aero17xe5 fuel data report rd 36
        = .ok (⟨4, data.fn_f10_ctrl_down⟩, out, 0)
      ∧ (rd.getD 2 0 = KEY_CODE_XF86_TOUCHPAD_OFF → out.drop 2 = rd.drop 3 ++ [0])
      ∧ (rd.getD 2 0 ≠ KEY_CODE_XF86_TOUCHPAD_OFF →
          out.drop 2 = compacted KEY_CODE_MYSTERIOUS (rd.drop 2)) := by
  have hmods1 : rd.getD 0 0 &&& (MOD_CODE_LEFT_SUPER ||| MOD_CODE_LEFT_CTRL) ≠ 0 := by
    rw [mods_mask_comm]; exact hmods
  have hget : (clear_mod (clear_mod rd MOD_CODE_LEFT_SUPER) MOD_CODE_LEFT_CTRL).getD 2 0
      = rd.getD 2 0 := by
    rw [clear_mod_getD _ _ 2 (by decide), clear_mod_getD _ _ 2 (by decide)]
  have lB : (clear_mod (clear_mod rd MOD_CODE_LEFT_SUPER) MOD_CODE_LEFT_CTRL).length = 36 := by
    rw [clear_mod_length, clear_mod_length]; exact hlen
  have hr := remove_byte_occurrences_tail fuel KEY_CODE_MYSTERIOUS
    (clear_mod (clear_mod rd MOD_CODE_LEFT_SUPER) MOD_CODE_LEFT_CTRL) 2 34 (by decide)
    (by rw [lB]) (count_drop_lt fuel KEY_CODE_MYSTERIOUS _ 2 lB hfuel (le_refl 2))
  unfold gigabyte_kbd_raw_event_aero17xe5
  rw [if_pos ⟨hid, htype, rfl⟩, if_neg (fun h => hmods h.1),
    if_neg (by rintro ⟨h, -⟩; omega), if_neg (by rintro ⟨h, -⟩; omega),
    if_neg (by rintro ⟨h, -⟩; omega), if_neg (by rintro ⟨h, -⟩; omega),
    if_neg (by rintro ⟨h, -⟩; omega), if_neg (by rintro ⟨h, -⟩; omega)]
  rcases hsel with ⟨hd, hm⟩ | ⟨hd, hm⟩
  · rw [if_neg (by rintro ⟨-, -, -, h⟩; rw [hm] at h; exact Bool.noConfusion h),
      if_pos ⟨hseq, hmods1, Or.inl ⟨hd, hm⟩⟩]
    refine ⟨gigabyte_kbd_util_remove_first_byte
      (clear_mod (clear_mod rd MOD_CODE_LEFT_SUPER) MOD_CODE_LEFT_CTRL) 2 34,
      ?_, fun _ => ?_, fun hn => absurd hd hn⟩
    · simp only [hget, hd, if_true]
    · rw [remove_first_byte_report_drop _ lB, clear_mod_drop _ _ 3 (by decide),
        clear_mod_drop _ _ 3 (by decide)]
  · rw [if_neg (by rintro ⟨-, -, h, -⟩; exact hd h),
      if_pos ⟨hseq, hmods1, Or.inr hm⟩]
    have h2 : (List.take 2
        (clear_mod (clear_mod rd MOD_CODE_LEFT_SUPER) MOD_CODE_LEFT_CTRL)).length = 2 := by
      simp [lB]
    refine ⟨List.take 2 (clear_mod (clear_mod rd MOD_CODE_LEFT_SUPER) MOD_CODE_LEFT_CTRL)
        ++ compacted KEY_CODE_MYSTERIOUS
          (List.drop 2 (clear_mod (clear_mod rd MOD_CODE_LEFT_SUPER) MOD_CODE_LEFT_CTRL)),
      ?_, fun h => absurd h hd, fun _ => ?_⟩
    · simp only [hget, hd, if_false, hr]
    · rw [List.drop_left' h2, clear_mod_drop _ _ 2 (by decide),
        clear_mod_drop _ _ 2 (by decide)]

theorem read_byte_ok (rd : List Nat) (i : Nat) (h : i < rd.length) :
    read_byte rd i = .ok (rd.getD i 0) := by
  unfold read_byte; rw [if_pos h]

theorem write_byte_ok (rd : List Nat) (i v : Nat) (h : i < rd.length) :
    write_byte rd i v = .ok (rd.set i v) := by
  unfold write_byte; rw [if_pos h]

/-- The checked shift loop is the shift loop when the bytes it copies lie in
the buffer. -/
theorem shift_left_checked_ok (off : Nat) (n : Nat) :
    ∀ (rd : List Nat) (j : Nat), off + j + n ≤ rd.length →
      shift_left_checked off rd j n = .ok (shift_left off rd j n) := by
  induction n with
  | zero => intro rd j _; rfl
  | succ n ih =>
    intro rd j h
    have h1 : off + j < rd.length := by omega
    have h2 : off + j - 1 < rd.length := by omega
    have h3 : off + (j + 1) + n ≤ (rd.set (off + j - 1) (rd.getD (off + j) 0)).length := by
      rw [List.length_set]; omega
    simp only [shift_left_checked, shift_left, read_byte_ok rd _ h1, write_byte_ok rd _ _ h2]
    exact ih _ _ h3

/-- Checked remove-first is remove-first when the window lies in the buffer. -/
theorem remove_first_byte_checked_ok (rd : List Nat) (off size : Nat) (hs : 1 ≤ size)
    (hin : off + size ≤ rd.length) :
    gigabyte_kbd_util_remove_first_byte_checked rd off size
      = .ok (gigabyte_kbd_util_remove_first_byte rd off size) := by
  have h1 := shift_left_checked_ok off (size - 1) rd 1 (by omega)
  have h2 : off + size - 1 < (shift_left off rd 1 (size - 1)).length := by
    rw [shift_left_length]; omega
  simp only [gigabyte_kbd_util_remove_first_byte_checked, gigabyte_kbd_util_remove_first_byte,
    h1, write_byte_ok _ _ _ h2]

/-- The `while` loop keeps the length of the buffer. -/
theorem remove_while_length (off b i size : Nat) :
    ∀ (fuel : Nat) (rd r : List Nat), remove_while off b i size rd fuel = .ok r →
      r.length = rd.length := by
  intro fuel
  induction fuel with
  | zero => intro rd r h; exact Except.noConfusion h
  | succ fuel ih =>
    intro rd r h
    by_cases hc : rd.getD (off + i) 0 = b
    · simp only [remove_while, if_pos hc] at h
      rw [ih _ _ h, List.length_set, shift_left_length]
    · simp only [remove_while, if_neg hc] at h
      rw [← Except.ok.inj h]

/-- The checked `while` loop returns what the `while` loop returns when the
window lies in the buffer. -/
theorem remove_while_checked_ok (off b i size : Nat) (hi : i < size) :
    ∀ (fuel : Nat) (rd r : List Nat), off + size ≤ rd.length →
      remove_while off b i size rd fuel = .ok r →
      remove_while_checked off b i size rd fuel = .ok r := by
  intro fuel
  induction fuel with
  | zero => intro rd r _ h; exact Except.noConfusion h
  | succ fuel ih =>
    intro rd r hin h
    have h1 : off + i < rd.length := by omega
    have h2 := shift_left_checked_ok off (size - (i + 1)) rd (i + 1) (by omega)
    have h3 : off + size - 1 < (shift_left off rd (i + 1) (size - (i + 1))).length := by
      rw [shift_left_length]; omega
    by_cases hc : rd.getD (off + i) 0 = b
    · simp only [remove_while, if_pos hc] at h
      simp only [remove_while_checked, read_byte_ok rd _ h1, if_pos hc, h2,
        write_byte_ok _ _ _ h3]
      exact ih _ _ (by rw [List.length_set, shift_left_length]; exact hin) h
    · simp only [remove_while, if_neg hc] at h
      simp only [remove_while_checked, read_byte_ok rd _ h1, if_neg hc]
      exact congrArg Except.ok (Except.ok.inj h)

/-- The checked `for` loop returns what the `for` loop returns when the window
lies in the buffer. -/
theorem remove_for_checked_ok (fuel off b size : Nat) :
    ∀ (n i : Nat) (rd r : List Nat), i + n = size → off + size ≤ rd.length →
      remove_for fuel off b size rd i n = .ok r →
      remove_for_checked fuel off b size rd i n = .ok r := by
  intro n
  induction n with
  | zero =>
    intro i rd r _ _ h
    simp only [remove_for] at h
    simp only [remove_for_checked]
    exact congrArg Except.ok (Except.ok.inj h)
  | succ n ih =>
    intro i rd r hi hin h
    cases hw : remove_while off b i size rd fuel with
    | error e =>
      simp only [remove_for, hw] at h
      exact Except.noConfusion h
    | ok rd1 =>
      simp only [remove_for, hw] at h
      have hl := remove_while_length off b i size fuel rd rd1 hw
      have hc := remove_while_checked_ok off b i size (by omega) fuel rd rd1 hin hw
      simp only [remove_for_checked, hc]
      exact ih (i + 1) rd1 r (by omega) (by rw [hl]; exact hin) h

/-- Checked remove-all returns what remove-all returns when the window lies in
the buffer. -/
theorem remove_byte_occurrences_checked_ok (fuel : Nat) (rd r : List Nat) (off b size : Nat)
    (hin : off + size ≤ rd.length)
    (h : gigabyte_kbd_util_remove_byte_occurrences fuel rd off b size = .ok r) :
    gigabyte_kbd_util_remove_byte_occurrences_checked fuel rd off b size = .ok r :=
  remove_for_checked_ok fuel off b size size 0 rd r (by omega) hin h

theorem memchr_checked_ok (rd : List Nat) (off c n : Nat) (h : off + n ≤ rd.length) :
    memchr_checked rd off c n = .ok (memchr rd off c n) := by
  unfold memchr_checked; rw [if_pos h]

theorem clear_mod_checked_ok (rd : List Nat) (m : Nat) (h : 0 < rd.length) :
    clear_mod_checked rd m = .ok (clear_mod rd m) := by
  simp only [clear_mod_checked, clear_mod, read_byte_ok rd 0 h, write_byte_ok rd 0 _ h]

theorem bind_ok {α β : Type} (a : α) (f : α → Except MemFault β) :
    (Except.ok a >>= f) = f a := rfl

theorem pure_ok {α : Type} (a : α) : (pure a : Except MemFault α) = Except.ok a := rfl

theorem both_return_ite (c : Prop) [Decidable c]
    (a b : Except MemFault (gigabyte_kbd_aero17xe5_drvdata × List Nat × Int))
    (a1 b1 : Except Fault (gigabyte_kbd_aero17xe5_drvdata × List Nat × Int))
    (ha : c → both_return a a1) (hb : ¬ c → both_return b b1) :
    both_return (if c then a else b) (if c then a1 else b1) := by
  by_cases h : c
  · rw [if_pos h, if_pos h]; exact ha h
  · rw [if_neg h, if_neg h]; exact hb h

/-! ## The claims -/

/-- C1 (resynchronisation): from every tracker state, a report of the tracked
format (id 0, input type, size 36) whose byte 0 has neither the left-Ctrl bit
nor the left-Super bit set and whose byte 2 is not the decoy code leaves the
tracker in phase 0 with the sticky-Ctrl flag cleared; the report is returned
as it came. -/
theorem resynchronisation (fuel : Nat) (data : gigabyte_kbd_aero17xe5_drvdata)
    (report : hid_report) (rd : List Nat)
    (hid : report.id = 0) (htype : report.type = HID_INPUT_REPORT)
    (hctrl : rd.getD 0 0 &&& MOD_CODE_LEFT_CTRL = 0)
    (hsuper : rd.getD 0 0 &&& MOD_CODE_LEFT_SUPER = 0)
    (hdecoy : rd.getD 2 0 ≠ KEY_CODE_XF86_TOUCHPAD_OFF) :
    gigabyte_kbd_raw_event_aero17xe5 fuel data report rd 36 = .ok (⟨0, false⟩, rd, 0) :=
  step_resync fuel data report rd hid htype
    ((mods_clear_iff _).mpr ⟨hctrl, hsuper⟩) hdecoy

/-- Witness for C1: in phase 3 with the sticky flag set, a report with Shift
held (0x02) and the keys 0x04, 0x73 pressed resets the tracker. -/
theorem resynchronisation_witness :
    gigabyte_kbd_raw_event_aero17xe5 0 ⟨3, true⟩ ⟨0, HID_INPUT_REPORT⟩
        ([0x02, 0, 0x04, 0x73] ++ List.replicate 32 0) 36
      = .ok (⟨0, false⟩, [0x02, 0, 0x04, 0x73] ++ List.replicate 32 0, 0) :=
  resynchronisation 0 ⟨3, true⟩ ⟨0, HID_INPUT_REPORT⟩ _ rfl rfl
    (by decide) (by decide) (by decide)

/-- C2 (Fn, then Fn+F10, then release): from the attach-time state, five
reports of the tracked format - decoy only; decoy and Super; decoy, Super, Ctrl
and the marker in bytes 3..35; Super or Ctrl with either the decoy and no marker
in bytes 3..35 or no decoy and the marker in bytes 2..35; no modifier and no
decoy - take the tracker through the phases 1, 2, 3, 4, 0, with the sticky-Ctrl
flag set from the third report on and cleared by the fifth. -/
theorem fn_f10_release_scenario (fuel : Nat) (report : hid_report)
    (r1 r2 r3 r4 r5 : List Nat)
    (hfuel : 34 < fuel) (hid : report.id = 0) (htype : report.type = HID_INPUT_REPORT)
    (hlen3 : r3.length = 36) (hlen4 : r4.length = 36)
    (_h1c : r1.getD 0 0 &&& MOD_CODE_LEFT_CTRL = 0)
    (_h1s : r1.getD 0 0 &&& MOD_CODE_LEFT_SUPER = 0)
    (h1d : r1.getD 2 0 = KEY_CODE_XF86_TOUCHPAD_OFF)
    (h2s : r2.getD 0 0 &&& MOD_CODE_LEFT_SUPER ≠ 0)
    (h2d : r2.getD 2 0 = KEY_CODE_XF86_TOUCHPAD_OFF)
    (h3s : r3.getD 0 0 &&& MOD_CODE_LEFT_SUPER ≠ 0)
    (_h3c : r3.getD 0 0 &&& MOD_CODE_LEFT_CTRL ≠ 0)
    (h3d : r3.getD 2 0 = KEY_CODE_XF86_TOUCHPAD_OFF)
    (h3m : KEY_CODE_MYSTERIOUS ∈ r3.drop 3)
    (h4mod : r4.getD 0 0 &&& MOD_CODE_LEFT_SUPER ≠ 0 ∨ r4.getD 0 0 &&& MOD_CODE_LEFT_CTRL ≠ 0)
    (h4 : (r4.getD 2 0 = KEY_CODE_XF86_TOUCHPAD_OFF ∧ KEY_CODE_MYSTERIOUS ∉ r4.drop 3)
      ∨ (r4.getD 2 0 ≠ KEY_CODE_XF86_TOUCHPAD_OFF ∧ KEY_CODE_MYSTERIOUS ∈ r4.drop 2))
    (h5c : r5.getD 0 0 &&& MOD_CODE_LEFT_CTRL = 0)
    (h5s : r5.getD 0 0 &&& MOD_CODE_LEFT_SUPER = 0)
    (h5d : r5.getD 2 0 ≠ KEY_CODE_XF86_TOUCHPAD_OFF) :
    gigabyte_kbd_probe_aero17xe5 true = (0, some ⟨0, false⟩)
    ∧ run_aero17xe5 fuel report 36 ⟨0, false⟩ [r1, r2, r3, r4, r5]
      = .ok [⟨1, false⟩, ⟨2, false⟩, ⟨3, true⟩, ⟨4, true⟩, ⟨0, false⟩] := by
  refine ⟨rfl, ?_⟩
  have s1 := step_press_fn fuel ⟨0, false⟩ report r1 hid htype rfl h1d
  have s2 := step_press_super fuel ⟨1, false⟩ report r2 hid htype rfl h2s h2d
  obtain ⟨o3, -, s3⟩ := step_second_event fuel ⟨2, false⟩ report r3 hid htype hlen3 hfuel rfl
    h3s h3d ((memchr_three r3 _ hlen3).mpr h3m)
  have h4mods : r4.getD 0 0 &&& (MOD_CODE_LEFT_CTRL ||| MOD_CODE_LEFT_SUPER) ≠ 0 :=
    h4mod.elim (mods_of_super _) (mods_of_ctrl _)
  have h4sel : (r4.getD 2 0 = KEY_CODE_XF86_TOUCHPAD_OFF
        ∧ memchr r4 3 KEY_CODE_MYSTERIOUS 33 = false)
      ∨ (r4.getD 2 0 ≠ KEY_CODE_XF86_TOUCHPAD_OFF
        ∧ memchr r4 2 KEY_CODE_MYSTERIOUS 34 = true) := by
    rcases h4 with ⟨hd, hm⟩ | ⟨hd, hm⟩
    · left
      refine ⟨hd, ?_⟩
      cases hc : memchr r4 3 KEY_CODE_MYSTERIOUS 33
      · rfl
      · exact absurd ((memchr_three r4 _ hlen4).mp hc) hm
    · exact Or.inr ⟨hd, (memchr_two r4 _ hlen4).mpr hm⟩
  obtain ⟨o4, s4⟩ := step_release fuel ⟨3, true⟩ report r4 hid htype hlen4 hfuel rfl
    h4mods h4sel
  have s5 := resync_of_bits fuel ⟨4, true⟩ report r5 hid htype h5c h5s h5d
  simp only [run_aero17xe5, s1, s2, s3, s4, s5]

/-- Witness for C2: Fn alone; Fn with Super; Fn with Super, Ctrl and the marker
after the key 0x04; Ctrl with the marker and no decoy; everything released. -/
theorem fn_f10_release_scenario_witness :
    gigabyte_kbd_probe_aero17xe5 true = (0, some ⟨0, false⟩)
    ∧ run_aero17xe5 35 ⟨0, HID_INPUT_REPORT⟩ 36 ⟨0, false⟩
        [report36 [0x00, 0, 0x72], report36 [0x08, 0, 0x72],
         report36 [0x09, 0, 0x72, 0x04, 0x73], report36 [0x01, 0, 0x73],
         report36 [0x00, 0, 0x00]]
      = .ok [⟨1, false⟩, ⟨2, false⟩, ⟨3, true⟩, ⟨4, true⟩, ⟨0, false⟩] :=
  fn_f10_release_scenario 35 ⟨0, HID_INPUT_REPORT⟩ _ _ _ _ _
    (by decide) rfl rfl (by decide) (by decide)
    (by decide) (by decide) (by decide) (by decide) (by decide)
    (by decide) (by decide) (by decide) (by decide)
    (by decide) (by decide) (by decide) (by decide) (by decide)

/-- Counterexample to C3 as stated: in phase 2, a report with Super, the decoy
in byte 2, the P key in byte 3 and the marker in byte 4 takes the second-event
branch: Super is cleared, the marker is removed with the decoy and the tracker
moves to phase 3. -/
theorem passthrough_fails_with_marker :
    gigabyte_kbd_raw_event_aero17xe5 35 ⟨2, false⟩ ⟨0, HID_INPUT_REPORT⟩
        (report36 [0x08, 0, 0x72, 0x13, 0x73]) 36
      = .ok (⟨3, true⟩, report36 [0x00, 0, 0x13], 0)
    ∧ (report36 [0x08, 0, 0x72, 0x13, 0x73]).getD 0 0 &&& MOD_CODE_LEFT_SUPER ≠ 0
    ∧ (report36 [0x08, 0, 0x72, 0x13, 0x73]).getD 2 0 = KEY_CODE_XF86_TOUCHPAD_OFF
    ∧ KEY_CODE_P ∈ (report36 [0x08, 0, 0x72, 0x13, 0x73]).drop 3
    ∧ (report36 [0x00, 0, 0x13]).getD 0 0 &&& MOD_CODE_LEFT_SUPER = 0
    ∧ (report36 [0x00, 0, 0x13]).drop 2
        ≠ (report36 [0x08, 0, 0x72, 0x13, 0x73]).drop 3 ++ [0] :=
  ⟨rfl, by decide, by decide, by decide, by decide, by decide⟩

/-- C3, amended (passthrough exception): in phase 2, for a 36-byte report of
the tracked format with Super set, the decoy in byte 2, the P key code in bytes
3..35 and no marker in bytes 3..35, the tracker stays in its state, the Super
bit of byte 0 is still set afterwards and the decoy is stripped: bytes 2..34
are the former bytes 3..35 and byte 35 is zero. -/
theorem passthrough_exception (fuel : Nat) (data : gigabyte_kbd_aero17xe5_drvdata)
    (report : hid_report) (rd : List Nat)
    (hid : report.id = 0) (htype : report.type = HID_INPUT_REPORT) (hlen : rd.length = 36)
    (hseq : data.fn_f10_seq = 2)
    (hsuper : rd.getD 0 0 &&& MOD_CODE_LEFT_SUPER ≠ 0)
    (hdecoy : rd.getD 2 0 = KEY_CODE_XF86_TOUCHPAD_OFF)
    (hp : KEY_CODE_P ∈ rd.drop 3)
    (hmark : KEY_CODE_MYSTERIOUS ∉ rd.drop 3) :
    ∃ out, gigabyte_kbd_raw_event_aero17xe5 fuel data report rd 36 = .ok (data, out, 0)
      ∧ out.getD 0 0 &&& MOD_CODE_LEFT_SUPER ≠ 0
      ∧ out.drop 2 = rd.drop 3 ++ [0]
      ∧ out.length = 36 := by
  have hm : memchr rd 3 KEY_CODE_MYSTERIOUS 33 = false := by
    cases hc : memchr rd 3 KEY_CODE_MYSTERIOUS 33
    · rfl
    · exact absurd ((memchr_three rd _ hlen).mp hc) hmark
  have hP : memchr rd 3 KEY_CODE_P 33 = true := (memchr_three rd _ hlen).mpr hp
  have h := step_hold_fn_super fuel data report rd hid htype hseq hsuper hdecoy hm
  have hne : ¬ (true = false) := by decide
  rw [hP] at h
  simp only [if_neg hne] at h
  refine ⟨_, h, ?_, ?_, ?_⟩
  · by_cases hc : data.fn_f10_ctrl_down = true
    · rw [if_pos hc, remove_first_byte_report_head _ (by rw [clear_mod_length]; exact hlen)]
      have e : (clear_mod rd MOD_CODE_LEFT_CTRL).getD 0 0
          = clear_bits (rd.getD 0 0) MOD_CODE_LEFT_CTRL := by
        match rd, hlen with
        | a :: t, _ => simp [clear_mod]
      rw [e, clear_ctrl_keeps_super]
      exact hsuper
    · rw [if_neg hc, remove_first_byte_report_head _ hlen]
      exact hsuper
  · by_cases hc : data.fn_f10_ctrl_down = true
    · rw [if_pos hc, remove_first_byte_report_drop _ (by rw [clear_mod_length]; exact hlen),
        clear_mod_drop _ _ 3 (by decide)]
    · rw [if_neg hc, remove_first_byte_report_drop _ hlen]
  · by_cases hc : data.fn_f10_ctrl_down = true
    · rw [if_pos hc, remove_first_byte_length, clear_mod_length]; exact hlen
    · rw [if_neg hc, remove_first_byte_length]; exact hlen

/-- Witness for C3, amended: Super+P with the decoy while the sticky-Ctrl flag
is set keeps Super and moves the P key code into byte 2. -/
theorem passthrough_exception_witness :
    ∃ out, gigabyte_kbd_raw_event_aero17xe5 35 ⟨2, true⟩ ⟨0, HID_INPUT_REPORT⟩
        (report36 [0x09, 0, 0x72, 0x13]) 36 = .ok (⟨2, true⟩, out, 0)
      ∧ out.getD 0 0 &&& MOD_CODE_LEFT_SUPER ≠ 0
      ∧ out.drop 2 = (report36 [0x09, 0, 0x72, 0x13]).drop 3 ++ [0]
      ∧ out.length = 36 :=
  passthrough_exception 35 ⟨2, true⟩ ⟨0, HID_INPUT_REPORT⟩ (report36 [0x09, 0, 0x72, 0x13])
    rfl rfl (by decide) rfl (by decide) (by decide) (by decide) (by decide)

/-- C4 (brightness-down chord): for the report with id 4, size 4 and bytes
04 00 00 7D and a backlight handle present, when the backlight is not powered
down the dispatcher produces exactly two synthesized reports, in order the
press 03 70 00 7D (handed to `hid_report_raw_event`) and the release
03 00 00 7D (written over the report buffer), and returns 1, so that the
original bytes 04 00 00 7D are not forwarded; when the backlight is powered
down it emits no report, leaves the bytes unchanged and returns 0, so that the
original is all that is forwarded. No work item is scheduled. -/
theorem brightness_down_chord (usb fuel : Nat) (bd : backlight_device)
    (drv : Option Nat) (tp : Option device) (hdev : hid_device) (type : Nat) :
    ∃ res, gigabyte_kbd_raw_event usb fuel ⟨some bd, drv, tp⟩ hdev ⟨4, type⟩
        [0x04, 0x00, 0x00, 0x7D] 4 = .ok res
      ∧ res.data = hdev.drvdata ∧ res.scheduled = []
      ∧ (bd.power ≠ FB_BLANK_POWERDOWN →
          res.emitted = [[0x03, 0x70, 0x00, 0x7D]]
          ∧ res.rd = [0x03, 0x00, 0x00, 0x7D]
          ∧ res.ret = 1
          ∧ delivered_reports 4 res = [[0x03, 0x70, 0x00, 0x7D], [0x03, 0x00, 0x00, 0x7D]]
          ∧ [0x04, 0x00, 0x00, 0x7D] ∉ delivered_reports 4 res)
      ∧ (bd.power = FB_BLANK_POWERDOWN →
          res.emitted = []
          ∧ res.rd = [0x04, 0x00, 0x00, 0x7D]
          ∧ res.ret = 0
          ∧ delivered_reports 4 res = [[0x04, 0x00, 0x00, 0x7D]]) := by
  have hchord : make_u32 0x04 0x00 0x00 0x7D = HIDRAW_FN_F3 := by decide
  by_cases hoff : bd.power = FB_BLANK_POWERDOWN
  · have hb : (bd.power == FB_BLANK_POWERDOWN) = true := by simpa using hoff
    have h : gigabyte_kbd_raw_event usb fuel ⟨some bd, drv, tp⟩ hdev ⟨4, type⟩
        [0x04, 0x00, 0x00, 0x7D] 4
        = .ok ⟨0, [0x04, 0x00, 0x00, 0x7D], hdev.drvdata, [], []⟩ := by
      unfold gigabyte_kbd_raw_event
      simp [hchord, gigabyte_kbd_is_backlight_off, hb]
    exact ⟨_, h, rfl, rfl, fun hn => absurd hoff hn, fun _ => ⟨rfl, rfl, rfl, rfl⟩⟩
  · have hb : (bd.power == FB_BLANK_POWERDOWN) = false := by simpa using hoff
    have h : gigabyte_kbd_raw_event usb fuel ⟨some bd, drv, tp⟩ hdev ⟨4, type⟩
        [0x04, 0x00, 0x00, 0x7D] 4
        = .ok ⟨1, [0x03, 0x00, 0x00, 0x7D], hdev.drvdata, [[0x03, 0x70, 0x00, 0x7D]], []⟩ := by
      unfold gigabyte_kbd_raw_event
      simp [hchord, gigabyte_kbd_is_backlight_off, hb]
    have hd : delivered_reports 4
        (⟨1, [0x03, 0x00, 0x00, 0x7D], hdev.drvdata, [[0x03, 0x70, 0x00, 0x7D]], []⟩ :
          RawEventResult)
        = [[0x03, 0x70, 0x00, 0x7D], [0x03, 0x00, 0x00, 0x7D]] := rfl
    have hn : [0x04, 0x00, 0x00, 0x7D]
        ∉ ([[0x03, 0x70, 0x00, 0x7D], [0x03, 0x00, 0x00, 0x7D]] : List (List Nat)) := by
      decide
    exact ⟨_, h, rfl, rfl, fun _ => ⟨rfl, rfl, rfl, hd, by rw [hd]; exact hn⟩,
      fun hp => absurd hp hoff⟩

/-- Counterexample to C5 as stated: on the Aero 17 XE5 (whatever number its
product id is), a report of id 0 and size 36 with the decoy in byte 2 does not
match the simple-chord format, and the dispatcher hands it to the tracker,
which strips the decoy: the bytes change. -/
theorem non_chord_report_rewritten :
    (∀ usb : Nat,
      gigabyte_kbd_raw_event usb 35 ⟨none, none, none⟩ ⟨usb, ⟨0, false⟩⟩
          ⟨0, HID_INPUT_REPORT⟩ (report36 [0x00, 0, 0x72, 0x04]) 36
        = .ok ⟨0, report36 [0x00, 0, 0x04], ⟨1, false⟩, [], []⟩)
    ∧ report36 [0x00, 0, 0x04] ≠ report36 [0x00, 0, 0x72, 0x04] := by
  refine ⟨fun usb => ?_, by decide⟩
  have h : gigabyte_kbd_raw_event_aero17xe5 35 ⟨0, false⟩ ⟨0, HID_INPUT_REPORT⟩
      (report36 [0x00, 0, 0x72, 0x04]) 36 = .ok (⟨1, false⟩, report36 [0x00, 0, 0x04], 0) := rfl
  unfold gigabyte_kbd_raw_event
  rw [if_neg (by decide), if_pos rfl, h]

/-- C5, amended: for every device, tracker state and report whose id is not 4
or whose size is not 4, the dispatcher returns 0, hands no report to
`hid_report_raw_event` and schedules no work; the bytes and the tracker state
are unchanged unless the device is the Aero 17 XE5 and the report has the
tracked format (id 0, input type, size 36), and on the Aero 17 XE5 they are
what `gigabyte_kbd_raw_event_aero17xe5` leaves. -/
theorem non_chord_reports_pass (usb fuel : Nat) (g : Globals) (hdev : hid_device)
    (report : hid_report) (rd : List Nat) (size : Nat)
    (hfuel : 34 < fuel) (hlen : rd.length = size) (hfmt : report.id ≠ 4 ∨ size ≠ 4) :
    ∃ res, gigabyte_kbd_raw_event usb fuel g hdev report rd size = .ok res
      ∧ res.ret = 0 ∧ res.emitted = [] ∧ res.scheduled = []
      ∧ (hdev.product = usb →
          gigabyte_kbd_raw_event_aero17xe5 fuel hdev.drvdata report rd size
            = .ok (res.data, res.rd, 0))
      ∧ (¬ (hdev.product = usb ∧ report.id = 0 ∧ report.type = HID_INPUT_REPORT ∧ size = 36) →
          res.rd = rd ∧ res.data = hdev.drvdata) := by
  have hno : ¬ (report.id = 4 ∧ size = 4) := by
    rintro ⟨h1, h2⟩
    rcases hfmt with h | h
    · exact h h1
    · exact h h2
  unfold gigabyte_kbd_raw_event
  rw [if_neg hno]
  by_cases hp : hdev.product = usb
  · obtain ⟨d, out, ht⟩ := raw_event_aero17xe5_ok fuel hdev.drvdata report rd size hlen hfuel
    rw [if_pos hp, ht]
    refine ⟨_, rfl, rfl, rfl, rfl, fun _ => rfl, fun hn => ?_⟩
    have hn1 : ¬ (report.id = 0 ∧ report.type = HID_INPUT_REPORT ∧ size = 36) :=
      fun h => hn ⟨hp, h⟩
    unfold gigabyte_kbd_raw_event_aero17xe5 at ht
    rw [if_neg hn1] at ht
    injection ht with ht
    injection ht with h1 h2
    injection h2 with h2 _
    exact ⟨h2.symm, h1.symm⟩
  · rw [if_neg hp]
    exact ⟨_, rfl, rfl, rfl, rfl, fun h => absurd h hp, fun _ => ⟨rfl, rfl⟩⟩

/-- Witness for C5, amended: a 36-byte report of id 0 on a device other than the
Aero 17 XE5 (product 2 against id 1) passes through as it came. -/
theorem non_chord_reports_pass_witness :
    ∃ res, gigabyte_kbd_raw_event 1 35 ⟨none, none, none⟩ ⟨2, ⟨0, false⟩⟩
        ⟨0, HID_INPUT_REPORT⟩ (report36 [0x00, 0, 0x72, 0x04]) 36 = .ok res
      ∧ res.ret = 0 ∧ res.emitted = [] ∧ res.scheduled = []
      ∧ ((2 : Nat) = 1 →
          gigabyte_kbd_raw_event_aero17xe5 35 ⟨0, false⟩ ⟨0, HID_INPUT_REPORT⟩
              (report36 [0x00, 0, 0x72, 0x04]) 36
            = .ok (res.data, res.rd, 0))
      ∧ (¬ ((2 : Nat) = 1 ∧ (0 : Nat) = 0 ∧ HID_INPUT_REPORT = HID_INPUT_REPORT
            ∧ (36 : Nat) = 36) →
          res.rd = report36 [0x00, 0, 0x72, 0x04] ∧ res.data = ⟨0, false⟩) :=
  non_chord_reports_pass 1 35 ⟨none, none, none⟩ ⟨2, ⟨0, false⟩⟩ ⟨0, HID_INPUT_REPORT⟩
    (report36 [0x00, 0, 0x72, 0x04]) 36 (by decide) (by decide) (Or.inl (by decide))

/-- C6 (remove-all splice): for a window `w` of length at least 1 lying between
`A` and `C` in the buffer and a nonzero byte `b` that occurs `k` times in `w`,
remove-all (given more fuel than `k`) leaves the window equal to the bytes of
`w` other than `b`, in their order, followed by `k` zeros, the length being
unchanged, and leaves the rest of the buffer alone; when `b` does not occur the
buffer is unchanged. -/
theorem remove_all_splice (fuel b : Nat) (A w C : List Nat)
    (hn : 1 ≤ w.length) (hb : b ≠ 0) (hfuel : w.count b < fuel) :
    gigabyte_kbd_util_remove_byte_occurrences fuel (A ++ (w ++ C)) A.length b w.length
      = .ok (A ++ ((w.filter (fun x => x != b) ++ List.replicate (w.count b) 0) ++ C))
    ∧ (w.filter (fun x => x != b) ++ List.replicate (w.count b) 0).length = w.length
    ∧ b ∉ w.filter (fun x => x != b) ++ List.replicate (w.count b) 0
    ∧ (b ∉ w →
        gigabyte_kbd_util_remove_byte_occurrences fuel (A ++ (w ++ C)) A.length b w.length
          = .ok (A ++ (w ++ C))) := by
  have _ := hn
  have h := remove_byte_occurrences_window fuel b A w C hb hfuel
  refine ⟨h, compacted_length b w, ?_, fun hmem => ?_⟩
  · intro hmem
    rcases List.mem_append.mp hmem with h1 | h1
    · have := (List.mem_filter.mp h1).2
      simp at this
    · exact hb (List.eq_of_mem_replicate h1)
  · rw [h, compacted_of_not_mem b w hmem]

/-- Witness for C6: removing 5 from the window 5 5 1 5 2 5 at offset 2. -/
theorem remove_all_splice_witness :
    gigabyte_kbd_util_remove_byte_occurrences 10 [9, 9, 5, 5, 1, 5, 2, 5, 9] 2 5 6
      = .ok [9, 9, 1, 2, 0, 0, 0, 0, 9] :=
  (remove_all_splice 10 5 [9, 9] [5, 5, 1, 5, 2, 5] [9] (by decide) (by decide) (by decide)).1

/-- Counterexample to C7 as stated: with the byte 0x00 and the window 07 00,
remove-all returns under no fuel: at the index of the zero the loop shifts
nothing in and writes the zero back, so its condition stays true. -/
theorem remove_zero_never_returns :
    ¬ ∃ fuel r, gigabyte_kbd_util_remove_byte_occurrences fuel [7, 0] 0 0 2 = .ok r := by
  rintro ⟨fuel, r, h⟩
  rw [remove_zero_stuck fuel] at h
  exact Except.noConfusion h

/-- C7, amended (totality of the splice primitives): for every window `w` of
length at least 1 lying between `A` and `C` in the buffer, remove-first returns
the buffer with the first byte of the window dropped and a zero appended to the
window, and for every nonzero byte `b` remove-all returns a buffer of the same
length once the fuel exceeds the length of the window. -/
theorem splice_total (fuel b : Nat) (A w C : List Nat)
    (hn : 1 ≤ w.length) (hb : b ≠ 0) (hfuel : w.length < fuel) :
    gigabyte_kbd_util_remove_first_byte (A ++ (w ++ C)) A.length w.length
      = A ++ ((w.drop 1 ++ [0]) ++ C)
    ∧ ∃ r, gigabyte_kbd_util_remove_byte_occurrences fuel (A ++ (w ++ C)) A.length b w.length
        = .ok r ∧ r.length = (A ++ (w ++ C)).length := by
  constructor
  · match w, hn with
    | x :: ys, _ =>
      have h := remove_first_byte_window A x ys C
      simpa using h
  · have hc : w.count b < fuel := lt_of_le_of_lt (List.count_le_length b w) hfuel
    refine ⟨_, remove_byte_occurrences_window fuel b A w C hb hc, ?_⟩
    simp [compacted_length]

/-- Witness for C7, amended: the window 72 04 73 05 of a six-byte buffer. -/
theorem splice_total_witness :
    gigabyte_kbd_util_remove_first_byte [1, 2, 0x72, 0x04, 0x73, 0x05] 2 4
      = [1, 2, 0x04, 0x73, 0x05, 0]
    ∧ ∃ r, gigabyte_kbd_util_remove_byte_occurrences 5 [1, 2, 0x72, 0x04, 0x73, 0x05] 2 0x73 4
        = .ok r ∧ r.length = 6 :=
  splice_total 5 0x73 [1, 2] [0x72, 0x04, 0x73, 0x05] [] (by decide) (by decide) (by decide)

/-- C8 (failing input): with the backlight handle absent, the brightness-down
chord 04 00 00 7D and the brightness-up chord 04 00 00 7E make the dispatcher
read `props.power` through the NULL handle. -/
theorem missing_backlight_faults (usb fuel : Nat) (drv : Option Nat) (tp : Option device)
    (hdev : hid_device) (type : Nat) :
    gigabyte_kbd_raw_event usb fuel ⟨none, drv, tp⟩ hdev ⟨4, type⟩ [0x04, 0x00, 0x00, 0x7D] 4
      = .error .null_dereference
    ∧ gigabyte_kbd_raw_event usb fuel ⟨none, drv, tp⟩ hdev ⟨4, type⟩ [0x04, 0x00, 0x00, 0x7E] 4
      = .error .null_dereference :=
  ⟨rfl, rfl⟩

/-- C9 (missing touchpad handle): with the touchpad device handle absent, the
toggle-touchpad chord 04 00 00 81 schedules no work, returns 0 and leaves the
report bytes and the tracker state unchanged, whatever the other handles are. -/
theorem missing_touchpad_no_task (usb fuel : Nat) (bl : Option backlight_device)
    (drv : Option Nat) (hdev : hid_device) (type : Nat) :
    gigabyte_kbd_raw_event usb fuel ⟨bl, drv, none⟩ hdev ⟨4, type⟩ [0x04, 0x00, 0x00, 0x81] 4
      = .ok ⟨0, [0x04, 0x00, 0x00, 0x81], hdev.drvdata, [], []⟩ :=
  rfl

/-- C10 (toggle-backlight chord): with a backlight handle present, the chord
04 00 00 80 schedules exactly the backlight-toggle work, returns 0 and leaves
the report bytes unchanged; the toggle powers the backlight on when it is
powered down and powers it down otherwise, and two toggles in a row leave the
backlight powered down exactly when it was before. -/
theorem toggle_backlight_chord (usb fuel : Nat) (bd : backlight_device) (drv : Option Nat)
    (tp : Option device) (hdev : hid_device) (type : Nat) :
    gigabyte_kbd_raw_event usb fuel ⟨some bd, drv, tp⟩ hdev ⟨4, type⟩
        [0x04, 0x00, 0x00, 0x80] 4
      = .ok ⟨0, [0x04, 0x00, 0x00, 0x80], hdev.drvdata, [],
          [Work.gigabyte_kbd_backlight_toggle_work]⟩
    ∧ gigabyte_kbd_backlight_toggle ⟨some bd, drv, tp⟩
      = .ok ⟨some ⟨if bd.power = FB_BLANK_POWERDOWN then FB_BLANK_UNBLANK
          else FB_BLANK_POWERDOWN⟩, drv, tp⟩
    ∧ ∃ g1 g2, gigabyte_kbd_backlight_toggle ⟨some bd, drv, tp⟩ = .ok g1
        ∧ gigabyte_kbd_backlight_toggle g1 = .ok g2
        ∧ gigabyte_kbd_is_backlight_off g2 = gigabyte_kbd_is_backlight_off ⟨some bd, drv, tp⟩
        ∧ g2.gigabyte_kbd_touchpad_driver = drv ∧ g2.gigabyte_kbd_touchpad_device = tp := by
  by_cases hoff : bd.power = FB_BLANK_POWERDOWN
  · have hb : (bd.power == FB_BLANK_POWERDOWN) = true := by simpa using hoff
    have t1 : gigabyte_kbd_backlight_toggle ⟨some bd, drv, tp⟩
        = .ok ⟨some ⟨FB_BLANK_UNBLANK⟩, drv, tp⟩ := by
      simp [gigabyte_kbd_backlight_toggle, gigabyte_kbd_is_backlight_off, hb, backlight_enable]
    refine ⟨rfl, by rw [t1, if_pos hoff], _, _, t1, rfl, ?_, rfl, rfl⟩
    simp [gigabyte_kbd_is_backlight_off, hb, backlight_disable]
  · have hb : (bd.power == FB_BLANK_POWERDOWN) = false := by simpa using hoff
    have t1 : gigabyte_kbd_backlight_toggle ⟨some bd, drv, tp⟩
        = .ok ⟨some ⟨FB_BLANK_POWERDOWN⟩, drv, tp⟩ := by
      simp [gigabyte_kbd_backlight_toggle, gigabyte_kbd_is_backlight_off, hb, backlight_disable]
    refine ⟨rfl, by rw [t1, if_neg hoff], _, _, t1, rfl, ?_, rfl, rfl⟩
    have e : gigabyte_kbd_is_backlight_off ⟨some bd, drv, tp⟩ = .ok false := by
      simp [gigabyte_kbd_is_backlight_off, hb]
    rw [e]
    rfl

/-- Counterexample to C11 as stated: the scenario run with a last report that
has no decoy and no modifier but still carries the marker in byte 3. The
phases are 1, 2, 3, 4, 0 as in the scenario, the last report comes back as it
went in, and its window holds the marker. -/
theorem scenario_window_keeps_marker :
    run_aero17xe5 35 ⟨0, HID_INPUT_REPORT⟩ 36 ⟨0, false⟩
        [report36 [0x00, 0, 0x72], report36 [0x08, 0, 0x72],
         report36 [0x09, 0, 0x72, 0x04, 0x73], report36 [0x01, 0, 0x73],
         report36 [0x00, 0, 0x04, 0x73]]
      = .ok [⟨1, false⟩, ⟨2, false⟩, ⟨3, true⟩, ⟨4, true⟩, ⟨0, false⟩]
    ∧ run_outputs 35 ⟨0, HID_INPUT_REPORT⟩ 36 ⟨0, false⟩
        [report36 [0x00, 0, 0x72], report36 [0x08, 0, 0x72],
         report36 [0x09, 0, 0x72, 0x04, 0x73], report36 [0x01, 0, 0x73],
         report36 [0x00, 0, 0x04, 0x73]]
      = .ok [report36 [0x00, 0], report36 [0x00, 0], report36 [0x00, 0, 0x04],
          report36 [0x00, 0], report36 [0x00, 0, 0x04, 0x73]]
    ∧ KEY_CODE_MYSTERIOUS ∈ (report36 [0x00, 0, 0x04, 0x73]).drop 2 :=
  ⟨rfl, rfl, by decide⟩

/-- C11, amended: in the Fn, then Fn+F10, then release scenario (five 36-byte
reports of the tracked format from the attach-time state, as in C2), provided
that no report has a decoy in bytes 3..35, that the first two reports have no
marker in bytes 3..35 and that the last has no marker in bytes 2..35, the
window (bytes 2..35) of each report as the tracker leaves it holds neither the
decoy 0x72 nor the marker 0x73. -/
theorem scenario_windows_clean (fuel : Nat) (report : hid_report)
    (r1 r2 r3 r4 r5 : List Nat)
    (hfuel : 34 < fuel) (hid : report.id = 0) (htype : report.type = HID_INPUT_REPORT)
    (hlen1 : r1.length = 36) (hlen2 : r2.length = 36) (hlen3 : r3.length = 36)
    (hlen4 : r4.length = 36) (hlen5 : r5.length = 36)
    (_h1c : r1.getD 0 0 &&& MOD_CODE_LEFT_CTRL = 0)
    (_h1s : r1.getD 0 0 &&& MOD_CODE_LEFT_SUPER = 0)
    (h1d : r1.getD 2 0 = KEY_CODE_XF86_TOUCHPAD_OFF)
    (h2s : r2.getD 0 0 &&& MOD_CODE_LEFT_SUPER ≠ 0)
    (h2d : r2.getD 2 0 = KEY_CODE_XF86_TOUCHPAD_OFF)
    (h3s : r3.getD 0 0 &&& MOD_CODE_LEFT_SUPER ≠ 0)
    (_h3c : r3.getD 0 0 &&& MOD_CODE_LEFT_CTRL ≠ 0)
    (h3d : r3.getD 2 0 = KEY_CODE_XF86_TOUCHPAD_OFF)
    (h3m : KEY_CODE_MYSTERIOUS ∈ r3.drop 3)
    (h4mod : r4.getD 0 0 &&& MOD_CODE_LEFT_SUPER ≠ 0 ∨ r4.getD 0 0 &&& MOD_CODE_LEFT_CTRL ≠ 0)
    (h4 : (r4.getD 2 0 = KEY_CODE_XF86_TOUCHPAD_OFF ∧ KEY_CODE_MYSTERIOUS ∉ r4.drop 3)
      ∨ (r4.getD 2 0 ≠ KEY_CODE_XF86_TOUCHPAD_OFF ∧ KEY_CODE_MYSTERIOUS ∈ r4.drop 2))
    (h5c : r5.getD 0 0 &&& MOD_CODE_LEFT_CTRL = 0)
    (h5s : r5.getD 0 0 &&& MOD_CODE_LEFT_SUPER = 0)
    (h5d : r5.getD 2 0 ≠ KEY_CODE_XF86_TOUCHPAD_OFF)
    (x1 : KEY_CODE_XF86_TOUCHPAD_OFF ∉ r1.drop 3) (m1 : KEY_CODE_MYSTERIOUS ∉ r1.drop 3)
    (x2 : KEY_CODE_XF86_TOUCHPAD_OFF ∉ r2.drop 3) (m2 : KEY_CODE_MYSTERIOUS ∉ r2.drop 3)
    (x3 : KEY_CODE_XF86_TOUCHPAD_OFF ∉ r3.drop 3)
    (x4 : KEY_CODE_XF86_TOUCHPAD_OFF ∉ r4.drop 3)
    (x5 : KEY_CODE_XF86_TOUCHPAD_OFF ∉ r5.drop 3) (m5 : KEY_CODE_MYSTERIOUS ∉ r5.drop 2) :
    ∃ outs, run_outputs fuel report 36 ⟨0, false⟩ [r1, r2, r3, r4, r5] = .ok outs
      ∧ outs.length = 5
      ∧ ∀ o ∈ outs, KEY_CODE_XF86_TOUCHPAD_OFF ∉ o.drop 2 ∧ KEY_CODE_MYSTERIOUS ∉ o.drop 2 := by
  have s1 := step_press_fn fuel ⟨0, false⟩ report r1 hid htype rfl h1d
  have s2 := step_press_super fuel ⟨1, false⟩ report r2 hid htype rfl h2s h2d
  obtain ⟨o3, s3, w3⟩ := step_second_event_window fuel ⟨2, false⟩ report r3 hid htype hlen3
    hfuel rfl h3s h3d ((memchr_three r3 _ hlen3).mpr h3m)
  have h4mods : r4.getD 0 0 &&& (MOD_CODE_LEFT_CTRL ||| MOD_CODE_LEFT_SUPER) ≠ 0 :=
    h4mod.elim (mods_of_super _) (mods_of_ctrl _)
  have h4sel : (r4.getD 2 0 = KEY_CODE_XF86_TOUCHPAD_OFF
        ∧ memchr r4 3 KEY_CODE_MYSTERIOUS 33 = false)
      ∨ (r4.getD 2 0 ≠ KEY_CODE_XF86_TOUCHPAD_OFF
        ∧ memchr r4 2 KEY_CODE_MYSTERIOUS 34 = true) := by
    rcases h4 with ⟨hd, hm⟩ | ⟨hd, hm⟩
    · left
      refine ⟨hd, ?_⟩
      cases hc : memchr r4 3 KEY_CODE_MYSTERIOUS 33
      · rfl
      · exact absurd ((memchr_three r4 _ hlen4).mp hc) hm
    · exact Or.inr ⟨hd, (memchr_two r4 _ hlen4).mpr hm⟩
  obtain ⟨o4, s4, w4a, w4b⟩ := step_release_window fuel ⟨3, true⟩ report r4 hid htype hlen4
    hfuel rfl h4mods h4sel
  have s5 := resync_of_bits fuel ⟨4, true⟩ report r5 hid htype h5c h5s h5d
  have hx0 : KEY_CODE_XF86_TOUCHPAD_OFF ≠ 0 := by decide
  have hm0 : KEY_CODE_MYSTERIOUS ≠ 0 := by decide
  have hxm : KEY_CODE_XF86_TOUCHPAD_OFF ≠ KEY_CODE_MYSTERIOUS := by decide
  have tail0 : ∀ (x : Nat) (w : List Nat), x ≠ 0 → x ∉ w → x ∉ w ++ [0] := by
    intro x w hx hw hmem
    rcases List.mem_append.mp hmem with h | h
    · exact hw h
    · exact hx (List.mem_singleton.mp h)
  have clear2 := clear_mod_length r2 MOD_CODE_LEFT_SUPER
  refine ⟨[gigabyte_kbd_util_remove_first_byte r1 2 34,
      gigabyte_kbd_util_remove_first_byte (clear_mod r2 MOD_CODE_LEFT_SUPER) 2 34,
      o3, o4, r5], ?_, rfl, ?_⟩
  · simp only [run_outputs, s1, s2, s3, s4, s5]
  · intro o hmem
    simp only [List.mem_cons, List.mem_singleton, List.not_mem_nil, or_false] at hmem
    rcases hmem with e | e | e | e | e
    · rw [e, remove_first_byte_report_drop _ hlen1]
      exact ⟨tail0 _ _ hx0 x1, tail0 _ _ hm0 m1⟩
    · rw [e, remove_first_byte_report_drop _ (by rw [clear2]; exact hlen2),
        clear_mod_drop _ _ 3 (by decide)]
      exact ⟨tail0 _ _ hx0 x2, tail0 _ _ hm0 m2⟩
    · rw [e, w3]
      refine ⟨fun h => ?_, not_mem_compacted _ _ hm0⟩
      rcases mem_compacted _ _ _ h with h | h
      · exact tail0 _ _ hx0 x3 h
      · exact hx0 h
    · rw [e]
      by_cases hd : r4.getD 2 0 = KEY_CODE_XF86_TOUCHPAD_OFF
      · rw [w4a hd]
        have hm4 : KEY_CODE_MYSTERIOUS ∉ r4.drop 3 := by
          rcases h4 with ⟨-, hm⟩ | ⟨hn, -⟩
          · exact hm
          · exact absurd hd hn
        exact ⟨tail0 _ _ hx0 x4, tail0 _ _ hm0 hm4⟩
      · rw [w4b hd]
        refine ⟨fun h => ?_, not_mem_compacted _ _ hm0⟩
        rcases mem_compacted _ _ _ h with h | h
        · rw [drop_two_eq r4 hlen4] at h
          rcases List.mem_cons.mp h with h | h
          · exact hd h.symm
          · exact x4 h
        · exact hx0 h
    · rw [e]
      refine ⟨fun h => ?_, m5⟩
      rw [drop_two_eq r5 hlen5] at h
      rcases List.mem_cons.mp h with h | h
      · exact h5d h.symm
      · exact x5 h

/-- Witness for C11, amended: Fn alone; Fn with Super; Fn with Super, Ctrl and
the marker after the key 0x04; Ctrl with the marker and no decoy; everything
released. -/
theorem scenario_windows_clean_witness :
    ∃ outs, run_outputs 35 ⟨0, HID_INPUT_REPORT⟩ 36 ⟨0, false⟩
        [report36 [0x00, 0, 0x72], report36 [0x08, 0, 0x72],
         report36 [0x09, 0, 0x72, 0x04, 0x73], report36 [0x01, 0, 0x73],
         report36 [0x00, 0, 0x00]] = .ok outs
      ∧ outs.length = 5
      ∧ ∀ o ∈ outs, KEY_CODE_XF86_TOUCHPAD_OFF ∉ o.drop 2 ∧ KEY_CODE_MYSTERIOUS ∉ o.drop 2 :=
  scenario_windows_clean 35 ⟨0, HID_INPUT_REPORT⟩ _ _ _ _ _
    (by decide) rfl rfl (by decide) (by decide) (by decide) (by decide) (by decide)
    (by decide) (by decide) (by decide) (by decide) (by decide)
    (by decide) (by decide) (by decide) (by decide) (by decide)
    (by decide) (by decide) (by decide)
    (by decide) (by decide) (by decide) (by decide) (by decide) (by decide) (by decide)
    (by decide) (by decide)

/-- C12 (idempotence of remove-all): for a window `w` of length at least 1
lying between `A` and `C` in the buffer and a nonzero byte `b`, remove-all
(given more fuel than `w` has occurrences of `b`) returns a buffer on which a
second remove-all with the same byte and window returns that same buffer. -/
theorem remove_all_idempotent (fuel b : Nat) (A w C : List Nat)
    (hn : 1 ≤ w.length) (hb : b ≠ 0) (hfuel : w.count b < fuel) :
    ∃ r, gigabyte_kbd_util_remove_byte_occurrences fuel (A ++ (w ++ C)) A.length b w.length
        = .ok r
      ∧ gigabyte_kbd_util_remove_byte_occurrences fuel r A.length b w.length = .ok r := by
  have _ := hn
  refine ⟨_, remove_byte_occurrences_window fuel b A w C hb hfuel, ?_⟩
  have hc : (compacted b w).count b < fuel := by
    rw [List.count_eq_zero.mpr (not_mem_compacted b w hb)]
    omega
  have h := remove_byte_occurrences_window fuel b A (compacted b w) C hb hc
  rw [compacted_length, compacted_of_not_mem b _ (not_mem_compacted b w hb)] at h
  exact h

/-- Witness for C12: removing 0x73 twice from the window 73 04 73 05 at offset 2. -/
theorem remove_all_idempotent_witness :
    ∃ r, gigabyte_kbd_util_remove_byte_occurrences 3 [1, 2, 0x73, 0x04, 0x73, 0x05, 9] 2 0x73 4
        = .ok r
      ∧ gigabyte_kbd_util_remove_byte_occurrences 3 r 2 0x73 4 = .ok r :=
  remove_all_idempotent 3 0x73 [1, 2] [0x73, 0x04, 0x73, 0x05] [9]
    (by decide) (by decide) (by decide)

/-- C13 (sticky Ctrl while Fn+Super is held): in phase 2, for a 36-byte report
of the tracked format with Super set, the decoy in byte 2 and no marker in
bytes 3..35, the tracker keeps its state (phase 2, sticky flag as it was); the
Ctrl bit of byte 0 is cleared if the sticky flag is set and is as in the input
if not; the Super bit is cleared if the P key code does not occur in bytes
3..35 and stays set if it does; bytes 2..34 are the former bytes 3..35 and
byte 35 is zero. -/
theorem sticky_ctrl_while_held (fuel : Nat) (data : gigabyte_kbd_aero17xe5_drvdata)
    (report : hid_report) (rd : List Nat)
    (hid : report.id = 0) (htype : report.type = HID_INPUT_REPORT) (hlen : rd.length = 36)
    (hseq : data.fn_f10_seq = 2)
    (hsuper : rd.getD 0 0 &&& MOD_CODE_LEFT_SUPER ≠ 0)
    (hdecoy : rd.getD 2 0 = KEY_CODE_XF86_TOUCHPAD_OFF)
    (hmark : KEY_CODE_MYSTERIOUS ∉ rd.drop 3) :
    ∃ out, gigabyte_kbd_raw_event_aero17xe5 fuel data report rd 36 = .ok (data, out, 0)
      ∧ (data.fn_f10_ctrl_down = true → out.getD 0 0 &&& MOD_CODE_LEFT_CTRL = 0)
      ∧ (data.fn_f10_ctrl_down = false →
          out.getD 0 0 &&& MOD_CODE_LEFT_CTRL = rd.getD 0 0 &&& MOD_CODE_LEFT_CTRL)
      ∧ (KEY_CODE_P ∉ rd.drop 3 → out.getD 0 0 &&& MOD_CODE_LEFT_SUPER = 0)
      ∧ (KEY_CODE_P ∈ rd.drop 3 → out.getD 0 0 &&& MOD_CODE_LEFT_SUPER ≠ 0)
      ∧ out.drop 2 = rd.drop 3 ++ [0]
      ∧ out.length = 36 := by
  have hm : memchr rd 3 KEY_CODE_MYSTERIOUS 33 = false := by
    cases hc : memchr rd 3 KEY_CODE_MYSTERIOUS 33
    · rfl
    · exact absurd ((memchr_three rd _ hlen).mp hc) hmark
  have h := step_hold_fn_super fuel data report rd hid htype hseq hsuper hdecoy hm
  have hne : rd ≠ [] := by
    intro e; rw [e] at hlen; simp at hlen
  have hft : ¬ (false = true) := by decide
  have htf : ¬ (true = false) := by decide
  refine ⟨_, h, ?_⟩
  cases hP : memchr rd 3 KEY_CODE_P 33 <;> cases hc : data.fn_f10_ctrl_down
  · -- P absent, flag clear: Super cleared
    have hPn : KEY_CODE_P ∉ rd.drop 3 := fun hin => by
      have := (memchr_three rd _ hlen).mpr hin
      rw [hP] at this; exact hft this
    simp only [if_neg hft, if_true]
    have hl : (clear_mod rd MOD_CODE_LEFT_SUPER).length = 36 := by
      rw [clear_mod_length]; exact hlen
    rw [remove_first_byte_report_head _ hl, remove_first_byte_report_drop _ hl,
      remove_first_byte_length, clear_mod_head _ _ hne, clear_mod_drop _ _ 3 (by decide)]
    exact ⟨fun e => absurd e hft, fun _ => clear_super_keeps_ctrl _,
      fun _ => clear_super_super _, fun hin => absurd hin hPn, rfl, hl⟩
  · -- P absent, flag set: Super and Ctrl cleared
    have hPn : KEY_CODE_P ∉ rd.drop 3 := fun hin => by
      have := (memchr_three rd _ hlen).mpr hin
      rw [hP] at this; exact hft this
    simp only [if_true]
    have hl : (clear_mod (clear_mod rd MOD_CODE_LEFT_SUPER) MOD_CODE_LEFT_CTRL).length = 36 := by
      rw [clear_mod_length, clear_mod_length]; exact hlen
    have hne1 : clear_mod rd MOD_CODE_LEFT_SUPER ≠ [] := by
      intro e
      have := clear_mod_length rd MOD_CODE_LEFT_SUPER
      rw [e, hlen] at this; simp at this
    rw [remove_first_byte_report_head _ hl, remove_first_byte_report_drop _ hl,
      remove_first_byte_length, clear_mod_head _ _ hne1, clear_mod_head _ _ hne,
      clear_mod_drop _ _ 3 (by decide), clear_mod_drop _ _ 3 (by decide)]
    refine ⟨fun _ => clear_ctrl_ctrl _, fun e => absurd e htf, fun _ => ?_,
      fun hin => absurd hin hPn, rfl, hl⟩
    rw [clear_ctrl_keeps_super]; exact clear_super_super _
  · -- P present, flag clear: byte 0 as it came
    have hPy : KEY_CODE_P ∈ rd.drop 3 := (memchr_three rd _ hlen).mp hP
    simp only [if_neg htf, if_neg hft]
    rw [remove_first_byte_report_head _ hlen, remove_first_byte_report_drop _ hlen,
      remove_first_byte_length]
    exact ⟨fun e => absurd e hft, fun _ => rfl, fun hn => absurd hPy hn,
      fun _ => hsuper, rfl, hlen⟩
  · -- P present, flag set: Ctrl cleared, Super kept
    have hPy : KEY_CODE_P ∈ rd.drop 3 := (memchr_three rd _ hlen).mp hP
    simp only [if_neg htf, if_true]
    have hl : (clear_mod rd MOD_CODE_LEFT_CTRL).length = 36 := by
      rw [clear_mod_length]; exact hlen
    rw [remove_first_byte_report_head _ hl, remove_first_byte_report_drop _ hl,
      remove_first_byte_length, clear_mod_head _ _ hne, clear_mod_drop _ _ 3 (by decide)]
    refine ⟨fun _ => clear_ctrl_ctrl _, fun e => absurd e htf, fun hn => absurd hPy hn,
      fun _ => ?_, rfl, hl⟩
    rw [clear_ctrl_keeps_super]; exact hsuper

/-- Witness for C13: Super+Ctrl with the decoy and the key 0x04 while the
sticky flag is set gives a report without modifiers and with 0x04 in byte 2. -/
theorem sticky_ctrl_while_held_witness :
    ∃ out, gigabyte_kbd_raw_event_aero17xe5 35 ⟨2, true⟩ ⟨0, HID_INPUT_REPORT⟩
        (report36 [0x09, 0, 0x72, 0x04]) 36 = .ok (⟨2, true⟩, out, 0)
      ∧ (true = true → out.getD 0 0 &&& MOD_CODE_LEFT_CTRL = 0)
      ∧ (true = false →
          out.getD 0 0 &&& MOD_CODE_LEFT_CTRL
            = (report36 [0x09, 0, 0x72, 0x04]).getD 0 0 &&& MOD_CODE_LEFT_CTRL)
      ∧ (KEY_CODE_P ∉ (report36 [0x09, 0, 0x72, 0x04]).drop 3 →
          out.getD 0 0 &&& MOD_CODE_LEFT_SUPER = 0)
      ∧ (KEY_CODE_P ∈ (report36 [0x09, 0, 0x72, 0x04]).drop 3 →
          out.getD 0 0 &&& MOD_CODE_LEFT_SUPER ≠ 0)
      ∧ out.drop 2 = (report36 [0x09, 0, 0x72, 0x04]).drop 3 ++ [0]
      ∧ out.length = 36 :=
  sticky_ctrl_while_held 35 ⟨2, true⟩ ⟨0, HID_INPUT_REPORT⟩ (report36 [0x09, 0, 0x72, 0x04])
    rfl rfl (by decide) rfl (by decide) (by decide) (by decide)

/-- C14 (fallback): for every tracker state and every 36-byte report of the
tracked format that meets none of the conditions of the enumerated transitions
- as do, in phase 0, the reports with Ctrl or Super set and no decoy in byte 2
and, in phase 5, the reports that do not resynchronise - the tracker keeps
phase and sticky flag, keeps bytes 0..2 and replaces bytes 3..35 by the same
bytes with every 0x72 removed, in order, zero-padded to 33 bytes. -/
theorem fallback_strips_stray_decoys (fuel : Nat) (data : gigabyte_kbd_aero17xe5_drvdata)
    (report : hid_report) (rd : List Nat)
    (hid : report.id = 0) (htype : report.type = HID_INPUT_REPORT) (hlen : rd.length = 36)
    (hfuel : 33 < fuel)
    (hcase : ¬ enumerated_transition data rd
      ∨ (data.fn_f10_seq = 0
          ∧ rd.getD 0 0 &&& (MOD_CODE_LEFT_CTRL ||| MOD_CODE_LEFT_SUPER) ≠ 0
          ∧ rd.getD 2 0 ≠ KEY_CODE_XF86_TOUCHPAD_OFF)
      ∨ (data.fn_f10_seq = 5
          ∧ ¬ (rd.getD 0 0 &&& (MOD_CODE_LEFT_CTRL ||| MOD_CODE_LEFT_SUPER) = 0
            ∧ rd.getD 2 0 ≠ KEY_CODE_XF86_TOUCHPAD_OFF))) :
    ∃ out, gigabyte_kbd_raw_event_aero17xe5 fuel data report rd 36 = .ok (data, out, 0)
      ∧ out.take 3 = rd.take 3
      ∧ out.drop 3 = (rd.drop 3).filter (fun x => x != KEY_CODE_XF86_TOUCHPAD_OFF)
          ++ List.replicate ((rd.drop 3).count KEY_CODE_XF86_TOUCHPAD_OFF) 0
      ∧ (out.drop 3).length = 33 := by
  have hnone : ¬ enumerated_transition data rd := by
    rcases hcase with h | h | h
    · exact h
    · exact not_enumerated_examples data rd (Or.inl h)
    · exact not_enumerated_examples data rd (Or.inr h)
  have hc : (rd.drop 3).count KEY_CODE_XF86_TOUCHPAD_OFF < fuel := by
    have h1 := List.count_le_length KEY_CODE_XF86_TOUCHPAD_OFF (rd.drop 3)
    have h2 : (rd.drop 3).length = 33 := by simp [hlen]
    omega
  have h3 : (rd.take 3).length = 3 := by simp; omega
  refine ⟨_, step_fallback fuel data report rd hid htype hlen hc hnone, ?_, ?_, ?_⟩
  · rw [List.take_left' h3]
  · rw [List.drop_left' h3]; rfl
  · rw [List.drop_left' h3, compacted_length]; simp [hlen]

/-- Witness for C14: in phase 5, Ctrl held with the key 0x04 and stray decoys in
bytes 4 and 6. -/
theorem fallback_strips_stray_decoys_witness :
    ∃ out, gigabyte_kbd_raw_event_aero17xe5 34 ⟨5, true⟩ ⟨0, HID_INPUT_REPORT⟩
        (report36 [0x01, 0, 0x04, 0x05, 0x72, 0x06, 0x72]) 36 = .ok (⟨5, true⟩, out, 0)
      ∧ out.take 3 = (report36 [0x01, 0, 0x04, 0x05, 0x72, 0x06, 0x72]).take 3
      ∧ out.drop 3
          = ((report36 [0x01, 0, 0x04, 0x05, 0x72, 0x06, 0x72]).drop 3).filter
              (fun x => x != KEY_CODE_XF86_TOUCHPAD_OFF)
            ++ List.replicate
              (((report36 [0x01, 0, 0x04, 0x05, 0x72, 0x06, 0x72]).drop 3).count
                KEY_CODE_XF86_TOUCHPAD_OFF) 0
      ∧ (out.drop 3).length = 33 :=
  fallback_strips_stray_decoys 34 ⟨5, true⟩ ⟨0, HID_INPUT_REPORT⟩
    (report36 [0x01, 0, 0x04, 0x05, 0x72, 0x06, 0x72]) rfl rfl (by decide) (by decide)
    (Or.inr (Or.inr ⟨rfl, by decide⟩))

/-- C15 (real key codes are never dropped or reordered): for every tracker
state and every 36-byte report processed with size 36, the tracker returns, the
bytes of positions 2..35 other than 0x00, the decoy 0x72 and the marker 0x73
are the same, in the same order, before and after, and the report is still 36
bytes long. -/
theorem real_key_codes_kept (fuel : Nat) (data : gigabyte_kbd_aero17xe5_drvdata)
    (report : hid_report) (rd : List Nat) (hlen : rd.length = 36) (hfuel : 34 < fuel) :
    ∃ data1 out, gigabyte_kbd_raw_event_aero17xe5 fuel data report rd 36
        = .ok (data1, out, 0)
      ∧ (out.drop 2).filter
          (fun x => x != 0 && x != KEY_CODE_XF86_TOUCHPAD_OFF && x != KEY_CODE_MYSTERIOUS)
        = (rd.drop 2).filter
          (fun x => x != 0 && x != KEY_CODE_XF86_TOUCHPAD_OFF && x != KEY_CODE_MYSTERIOUS)
      ∧ out.length = 36 := by
  obtain ⟨data1, out, h, ⟨h1, -, -, h4⟩, -⟩ :=
    raw_event_aero17xe5_effect fuel data report rd 36 hlen hfuel
  exact ⟨data1, out, h, h4, by rw [h1, hlen]⟩

/-- Witness for C15: the second event of F10 with the keys 0x04 and 0x05 around
two markers; the keys 0x04, 0x05 are all that is left of the window. -/
theorem real_key_codes_kept_witness :
    ∃ data1 out, gigabyte_kbd_raw_event_aero17xe5 35 ⟨2, false⟩ ⟨0, HID_INPUT_REPORT⟩
        (report36 [0x09, 0, 0x72, 0x73, 0x04, 0x73, 0x05]) 36 = .ok (data1, out, 0)
      ∧ (out.drop 2).filter
          (fun x => x != 0 && x != KEY_CODE_XF86_TOUCHPAD_OFF && x != KEY_CODE_MYSTERIOUS)
        = ((report36 [0x09, 0, 0x72, 0x73, 0x04, 0x73, 0x05]).drop 2).filter
          (fun x => x != 0 && x != KEY_CODE_XF86_TOUCHPAD_OFF && x != KEY_CODE_MYSTERIOUS)
      ∧ out.length = 36 :=
  real_key_codes_kept 35 ⟨2, false⟩ ⟨0, HID_INPUT_REPORT⟩
    (report36 [0x09, 0, 0x72, 0x73, 0x04, 0x73, 0x05]) (by decide) (by decide)

/-- C16 (phase range): the attach-time state is phase 0, and after each report
of every finite sequence of reports fed to the tracker from it (any format, any
buffer, fuel above 34) the tracker has returned and the phase is one of
0, 1, 2, 3, 4, 5. -/
theorem phase_range (fuel : Nat) (inputs : List (hid_report × List Nat))
    (hfuel : 34 < fuel) :
    gigabyte_kbd_probe_aero17xe5 true = (0, some ⟨0, false⟩)
    ∧ ∃ ds, run_reports fuel ⟨0, false⟩ inputs = .ok ds ∧ ds.length = inputs.length
        ∧ ∀ d ∈ (⟨0, false⟩ : gigabyte_kbd_aero17xe5_drvdata) :: ds, d.fn_f10_seq ≤ 5 := by
  refine ⟨rfl, ?_⟩
  obtain ⟨ds, h1, h2, h3⟩ := run_reports_invariant fuel hfuel (fun d => d.fn_f10_seq ≤ 5)
    (by
      intro d report rd d1 hi hd
      obtain ⟨a, b⟩ := hd
      by_cases hr : is_resync report rd rd.length
      · rw [a hr]; exact Nat.zero_le 5
      · rcases b hr with e | ⟨-, hs⟩ | ⟨-, e⟩
        · rw [e]; exact hi
        · show d1.fn_f10_seq ≤ 5
          omega
        · rw [e]; show (3 : Nat) ≤ 5; omega)
    inputs ⟨0, false⟩ (Nat.zero_le 5)
  refine ⟨ds, h1, h2, ?_⟩
  intro d hmem
  rcases List.mem_cons.mp hmem with e | e
  · rw [e]; exact Nat.zero_le 5
  · exact h3 d e

/-- Witness for C16: Fn, Fn+Super, the second event of F10, a release, a
trailing event with Ctrl, and a report of another format. -/
theorem phase_range_witness :
    gigabyte_kbd_probe_aero17xe5 true = (0, some ⟨0, false⟩)
    ∧ ∃ ds, run_reports 35 ⟨0, false⟩
          [(⟨0, HID_INPUT_REPORT⟩, report36 [0x00, 0, 0x72]),
           (⟨0, HID_INPUT_REPORT⟩, report36 [0x08, 0, 0x72]),
           (⟨0, HID_INPUT_REPORT⟩, report36 [0x09, 0, 0x72, 0x73]),
           (⟨0, HID_INPUT_REPORT⟩, report36 [0x01, 0, 0x73]),
           (⟨0, HID_INPUT_REPORT⟩, report36 [0x01, 0, 0x04]),
           (⟨4, HID_INPUT_REPORT⟩, [0x04, 0x00, 0x00, 0x81])] = .ok ds
        ∧ ds.length
          = [(⟨0, HID_INPUT_REPORT⟩, report36 [0x00, 0, 0x72]),
             (⟨0, HID_INPUT_REPORT⟩, report36 [0x08, 0, 0x72]),
             (⟨0, HID_INPUT_REPORT⟩, report36 [0x09, 0, 0x72, 0x73]),
             (⟨0, HID_INPUT_REPORT⟩, report36 [0x01, 0, 0x73]),
             (⟨0, HID_INPUT_REPORT⟩, report36 [0x01, 0, 0x04]),
             ((⟨4, HID_INPUT_REPORT⟩ : hid_report), [0x04, 0x00, 0x00, 0x81])].length
        ∧ ∀ d ∈ (⟨0, false⟩ : gigabyte_kbd_aero17xe5_drvdata) :: ds, d.fn_f10_seq ≤ 5 :=
  phase_range 35 _ (by decide)

/-- C17 (index safety of the tracker): for every tracker state and every report
buffer of exactly 36 bytes processed with size 36, the tracker with every byte
access checked - its own reads and writes of bytes 0 and 2, the searches over
bytes 3..35 and 2..35, remove-first on the window at byte 2 of length 34,
remove-all on the windows at byte 2 of length 34 and at byte 3 of length 33 -
returns without an out-of-range access, with the result of the unchecked
tracker. -/
theorem tracker_index_safe (fuel : Nat) (data : gigabyte_kbd_aero17xe5_drvdata)
    (report : hid_report) (rd : List Nat) (hlen : rd.length = 36) (hfuel : 34 < fuel) :
    ∃ data1 out,
      gigabyte_kbd_raw_event_aero17xe5_checked fuel data report rd 36 = .ok (data1, out, 0)
      ∧ gigabyte_kbd_raw_event_aero17xe5 fuel data report rd 36 = .ok (data1, out, 0) := by
  by_cases hfmt : report.id = 0 ∧ report.type = HID_INPUT_REPORT ∧ (36 : Nat) = 36
  · have lS : (clear_mod rd MOD_CODE_LEFT_SUPER).length = 36 := by
      rw [clear_mod_length]; exact hlen
    have lC : (clear_mod rd MOD_CODE_LEFT_CTRL).length = 36 := by
      rw [clear_mod_length]; exact hlen
    have lB : (clear_mod (clear_mod rd MOD_CODE_LEFT_SUPER) MOD_CODE_LEFT_CTRL).length = 36 := by
      rw [clear_mod_length]; exact lS
    have lF : (gigabyte_kbd_util_remove_first_byte
        (clear_mod (clear_mod rd MOD_CODE_LEFT_SUPER) MOD_CODE_LEFT_CTRL) 2 34).length = 36 := by
      rw [remove_first_byte_length]; exact lB
    -- the reads and searches of the conditions
    have r0 := read_byte_ok rd 0 (by omega)
    have r2 := read_byte_ok rd 2 (by omega)
    have s1 := memchr_checked_ok rd 3 KEY_CODE_MYSTERIOUS 33 (by omega)
    have s2 := memchr_checked_ok rd 3 KEY_CODE_P 33 (by omega)
    have s3 := memchr_checked_ok rd 2 KEY_CODE_MYSTERIOUS 34 (by omega)
    -- the statements of the branches
    have cS := clear_mod_checked_ok rd MOD_CODE_LEFT_SUPER (by omega)
    have cC := clear_mod_checked_ok rd MOD_CODE_LEFT_CTRL (by omega)
    have cB := clear_mod_checked_ok (clear_mod rd MOD_CODE_LEFT_SUPER) MOD_CODE_LEFT_CTRL
      (by omega)
    have f0 := remove_first_byte_checked_ok rd 2 34 (by omega) (by omega)
    have fS := remove_first_byte_checked_ok (clear_mod rd MOD_CODE_LEFT_SUPER) 2 34
      (by omega) (by omega)
    have fC := remove_first_byte_checked_ok (clear_mod rd MOD_CODE_LEFT_CTRL) 2 34
      (by omega) (by omega)
    have fB := remove_first_byte_checked_ok
      (clear_mod (clear_mod rd MOD_CODE_LEFT_SUPER) MOD_CODE_LEFT_CTRL) 2 34
      (by omega) (by omega)
    have rB := read_byte_ok (clear_mod (clear_mod rd MOD_CODE_LEFT_SUPER) MOD_CODE_LEFT_CTRL) 2
      (by omega)
    obtain ⟨a1, u1, -, -⟩ := remove_byte_occurrences_ok fuel KEY_CODE_MYSTERIOUS
      (gigabyte_kbd_util_remove_first_byte
        (clear_mod (clear_mod rd MOD_CODE_LEFT_SUPER) MOD_CODE_LEFT_CTRL) 2 34) 2 34
      (by decide) (by omega) hfuel
    have k1 := remove_byte_occurrences_checked_ok fuel _ a1 2 KEY_CODE_MYSTERIOUS 34
      (by omega) u1
    obtain ⟨a2, u2, -, -⟩ := remove_byte_occurrences_ok fuel KEY_CODE_MYSTERIOUS
      (clear_mod (clear_mod rd MOD_CODE_LEFT_SUPER) MOD_CODE_LEFT_CTRL) 2 34
      (by decide) (by omega) hfuel
    have k2 := remove_byte_occurrences_checked_ok fuel _ a2 2 KEY_CODE_MYSTERIOUS 34
      (by omega) u2
    obtain ⟨a3, u3, -, -⟩ := remove_byte_occurrences_ok fuel KEY_CODE_XF86_TOUCHPAD_OFF
      rd 3 33 (by decide) (by omega) (by omega)
    have k3 := remove_byte_occurrences_checked_ok fuel _ a3 3 KEY_CODE_XF86_TOUCHPAD_OFF 33
      (by omega) u3
    have hchk : gigabyte_kbd_raw_event_aero17xe5_checked fuel data report rd 36
        = aero17xe5_branches_checked fuel data rd (rd.getD 0 0) (rd.getD 2 0)
            (memchr rd 3 KEY_CODE_MYSTERIOUS 33) (memchr rd 3 KEY_CODE_P 33)
            (memchr rd 2 KEY_CODE_MYSTERIOUS 34) := by
      unfold gigabyte_kbd_raw_event_aero17xe5_checked
      rw [if_pos hfmt, r0, s1, s2, s3, r2]
      rfl
    rw [hchk]
    show both_return _ _
    unfold aero17xe5_branches_checked gigabyte_kbd_raw_event_aero17xe5
    rw [if_pos hfmt]
    -- resynchronisation
    refine both_return_ite _ _ _ _ _ (fun _ => ⟨_, _, rfl, rfl⟩) (fun _ => ?_)
    -- pressing Fn
    refine both_return_ite _ _ _ _ _ (fun _ => ?_) (fun _ => ?_)
    · rw [f0]; exact ⟨_, _, rfl, rfl⟩
    -- holding Fn
    refine both_return_ite _ _ _ _ _ (fun _ => ?_) (fun _ => ?_)
    · rw [f0]; exact ⟨_, _, rfl, rfl⟩
    -- pressing Super
    refine both_return_ite _ _ _ _ _ (fun _ => ?_) (fun _ => ?_)
    · simp only [bind_ok, pure_ok, cS, fS]; exact ⟨_, _, rfl, rfl⟩
    -- releasing Super
    refine both_return_ite _ _ _ _ _ (fun _ => ?_) (fun _ => ?_)
    · rw [f0]; exact ⟨_, _, rfl, rfl⟩
    -- holding Fn+Super
    refine both_return_ite _ _ _ _ _ (fun _ => ?_) (fun _ => ?_)
    · by_cases hP : memchr rd 3 KEY_CODE_P 33 = false <;>
        by_cases hc : data.fn_f10_ctrl_down = true
      · simp only [if_pos hP, if_pos hc, bind_ok, pure_ok, cS, cB, fB]
        exact ⟨_, _, rfl, rfl⟩
      · simp only [if_pos hP, if_neg hc, bind_ok, pure_ok, cS, fS]
        exact ⟨_, _, rfl, rfl⟩
      · simp only [if_neg hP, if_pos hc, bind_ok, pure_ok, cC, fC]
        exact ⟨_, _, rfl, rfl⟩
      · simp only [if_neg hP, if_neg hc, bind_ok, pure_ok, f0]
        exact ⟨_, _, rfl, rfl⟩
    -- second event of F10
    refine both_return_ite _ _ _ _ _ (fun _ => ?_) (fun _ => ?_)
    · simp only [bind_ok, pure_ok, cS, cB, fB, k1, u1]; exact ⟨_, _, rfl, rfl⟩
    -- holding Fn+F10
    refine both_return_ite _ _ _ _ _ (fun _ => ?_) (fun _ => ?_)
    · simp only [bind_ok, pure_ok, cS, cB, fB, k1, u1]; exact ⟨_, _, rfl, rfl⟩
    -- releasing F10 or Fn
    refine both_return_ite _ _ _ _ _ (fun _ => ?_) (fun _ => ?_)
    · simp only [bind_ok, pure_ok, cS, cB, rB]
      refine both_return_ite _ _ _ _ _ (fun _ => ?_) (fun _ => ?_)
      · simp only [bind_ok, pure_ok, fB]; exact ⟨_, _, rfl, rfl⟩
      · simp only [bind_ok, pure_ok, k2, u2]; exact ⟨_, _, rfl, rfl⟩
    -- pressing F10 again
    refine both_return_ite _ _ _ _ _ (fun _ => ?_) (fun _ => ?_)
    · simp only [bind_ok, pure_ok, cS, cB, fB]; exact ⟨_, _, rfl, rfl⟩
    -- releasing Fn
    refine both_return_ite _ _ _ _ _ (fun _ => ?_) (fun _ => ?_)
    · simp only [bind_ok, pure_ok, cS, cB]; exact ⟨_, _, rfl, rfl⟩
    -- stray decoy
    simp only [bind_ok, pure_ok, k3, u3]
    exact ⟨_, _, rfl, rfl⟩
  · -- a report of another format takes no branch: both runs return the report
    unfold gigabyte_kbd_raw_event_aero17xe5_checked gigabyte_kbd_raw_event_aero17xe5
    rw [if_neg hfmt, if_neg hfmt]
    exact ⟨_, _, rfl, rfl⟩

/-- Witness for C17: the release of F10 with the marker in the last byte of the
report, which makes remove-all shift the whole window. -/
theorem tracker_index_safe_witness :
    ∃ data1 out,
      gigabyte_kbd_raw_event_aero17xe5_checked 35 ⟨3, true⟩ ⟨0, HID_INPUT_REPORT⟩
          (0x01 :: 0 :: 0x73 :: (List.replicate 32 0x04 ++ [0x73])) 36 = .ok (data1, out, 0)
      ∧ gigabyte_kbd_raw_event_aero17xe5 35 ⟨3, true⟩ ⟨0, HID_INPUT_REPORT⟩
          (0x01 :: 0 :: 0x73 :: (List.replicate 32 0x04 ++ [0x73])) 36 = .ok (data1, out, 0) :=
  tracker_index_safe 35 ⟨3, true⟩ ⟨0, HID_INPUT_REPORT⟩
    (0x01 :: 0 :: 0x73 :: (List.replicate 32 0x04 ++ [0x73])) (by decide) (by decide)

/-- C18 (transparency to ordinary typing): in phase 0, a 36-byte report of the
tracked format in which the decoy does not occur anywhere in bytes 2..35 comes
back with every byte unchanged, whatever its modifier bits; the phase stays 0
and the tracker returns 0. -/
theorem ordinary_typing_untouched (fuel : Nat) (data : gigabyte_kbd_aero17xe5_drvdata)
    (report : hid_report) (rd : List Nat)
    (hid : report.id = 0) (htype : report.type = HID_INPUT_REPORT) (hlen : rd.length = 36)
    (hfuel : 0 < fuel) (hseq : data.fn_f10_seq = 0)
    (hno : KEY_CODE_XF86_TOUCHPAD_OFF ∉ rd.drop 2) :
    ∃ data1, gigabyte_kbd_raw_event_aero17xe5 fuel data report rd 36 = .ok (data1, rd, 0)
      ∧ data1.fn_f10_seq = 0 := by
  have hd : rd.getD 2 0 ≠ KEY_CODE_XF86_TOUCHPAD_OFF := by
    intro e
    apply hno
    rw [drop_two_eq rd hlen, e]
    exact List.mem_cons_self _ _
  have hno3 : KEY_CODE_XF86_TOUCHPAD_OFF ∉ rd.drop 3 := by
    intro h
    apply hno
    rw [drop_two_eq rd hlen]
    exact List.mem_cons_of_mem _ h
  by_cases hm : rd.getD 0 0 &&& (MOD_CODE_LEFT_CTRL ||| MOD_CODE_LEFT_SUPER) = 0
  · exact ⟨_, step_resync fuel data report rd hid htype hm hd, rfl⟩
  · have hnone := not_enumerated_examples data rd (Or.inl ⟨hseq, hm, hd⟩)
    have hc : (rd.drop 3).count KEY_CODE_XF86_TOUCHPAD_OFF < fuel := by
      rw [List.count_eq_zero.mpr hno3]; exact hfuel
    have h := step_fallback fuel data report rd hid htype hlen hc hnone
    rw [compacted_of_not_mem _ _ hno3, List.take_append_drop] at h
    exact ⟨_, h, hseq⟩

/-- Witness for C18: Ctrl+Super held with the keys 0x04 and 0x73, in phase 0. -/
theorem ordinary_typing_untouched_witness :
    ∃ data1, gigabyte_kbd_raw_event_aero17xe5 1 ⟨0, false⟩ ⟨0, HID_INPUT_REPORT⟩
        (report36 [0x09, 0, 0x04, 0x73]) 36 = .ok (data1, report36 [0x09, 0, 0x04, 0x73], 0)
      ∧ data1.fn_f10_seq = 0 :=
  ordinary_typing_untouched 1 ⟨0, false⟩ ⟨0, HID_INPUT_REPORT⟩ (report36 [0x09, 0, 0x04, 0x73])
    rfl rfl (by decide) (by decide) rfl (by decide)

/-- C19 (frame of the header bytes): for every tracker state and every report
whose buffer holds `size` bytes, the tracker returns with byte 1 unchanged; in
byte 0 the six modifier bits other than left-Ctrl (bit 0) and left-Super (bit
3) are as in the input, and no bit is set that was clear in the input. -/
theorem header_bytes_frame (fuel : Nat) (data : gigabyte_kbd_aero17xe5_drvdata)
    (report : hid_report) (rd : List Nat) (size : Nat) (hlen : rd.length = size)
    (hfuel : 34 < fuel) :
    ∃ data1 out, gigabyte_kbd_raw_event_aero17xe5 fuel data report rd size
        = .ok (data1, out, 0)
      ∧ out.getD 1 0 = rd.getD 1 0
      ∧ (∀ i, i < 8 → i ≠ 0 → i ≠ 3 → (out.getD 0 0).testBit i = (rd.getD 0 0).testBit i)
      ∧ (∀ i, (out.getD 0 0).testBit i = true → (rd.getD 0 0).testBit i = true) := by
  obtain ⟨data1, out, h, ⟨-, h2, h3, -⟩, -⟩ :=
    raw_event_aero17xe5_effect fuel data report rd size hlen hfuel
  obtain ⟨b1, b2⟩ := byte0_rel_bits _ _ h3
  exact ⟨data1, out, h, h2, b1, b2⟩

/-- Witness for C19: the Fn+F10 hold with Shift, Ctrl and Super in byte 0 and
0x2A in byte 1. -/
theorem header_bytes_frame_witness :
    ∃ data1 out, gigabyte_kbd_raw_event_aero17xe5 35 ⟨3, true⟩ ⟨0, HID_INPUT_REPORT⟩
        (report36 [0x0B, 0x2A, 0x72, 0x73, 0x04]) 36 = .ok (data1, out, 0)
      ∧ out.getD 1 0 = (report36 [0x0B, 0x2A, 0x72, 0x73, 0x04]).getD 1 0
      ∧ (∀ i, i < 8 → i ≠ 0 → i ≠ 3 → (out.getD 0 0).testBit i
          = ((report36 [0x0B, 0x2A, 0x72, 0x73, 0x04]).getD 0 0).testBit i)
      ∧ (∀ i, (out.getD 0 0).testBit i = true
          → ((report36 [0x0B, 0x2A, 0x72, 0x73, 0x04]).getD 0 0).testBit i = true) :=
  header_bytes_frame 35 ⟨3, true⟩ ⟨0, HID_INPUT_REPORT⟩
    (report36 [0x0B, 0x2A, 0x72, 0x73, 0x04]) 36 (by decide) (by decide)

/-- C20 (sticky Ctrl never survives a return to Idle): after each report of
every finite sequence of reports fed to the tracker from the attach-time state,
phase 0 implies that the sticky flag is clear; and the sticky flag is what the
history predicts: cleared by each resynchronising report, set by each step
from phase 2 to phase 3, unchanged by every other report. -/
theorem sticky_clear_at_idle (fuel : Nat) (inputs : List (hid_report × List Nat))
    (hfuel : 34 < fuel) :
    gigabyte_kbd_probe_aero17xe5 true = (0, some ⟨0, false⟩)
    ∧ ∃ ds, run_reports fuel ⟨0, false⟩ inputs = .ok ds
        ∧ (∀ d ∈ (⟨0, false⟩ : gigabyte_kbd_aero17xe5_drvdata) :: ds,
            d.fn_f10_seq = 0 → d.fn_f10_ctrl_down = false)
        ∧ ds.map (fun d => d.fn_f10_ctrl_down)
          = sticky_by_history false ⟨0, false⟩ (inputs.zip ds) := by
  refine ⟨rfl, ?_⟩
  obtain ⟨ds, h1, -, h3⟩ := run_reports_invariant fuel hfuel
    (fun d => d.fn_f10_seq = 0 → d.fn_f10_ctrl_down = false)
    (by
      intro d report rd d1 hi hd
      obtain ⟨a, b⟩ := hd
      by_cases hr : is_resync report rd rd.length
      · rw [a hr]; exact fun _ => rfl
      · rcases b hr with e | ⟨-, hs⟩ | ⟨-, e⟩
        · rw [e]; exact hi
        · intro h0; omega
        · rw [e]; intro h0; exact absurd h0 (by decide))
    inputs ⟨0, false⟩ (fun _ => rfl)
  obtain ⟨ds1, g1, g2⟩ := run_reports_sticky fuel hfuel inputs ⟨0, false⟩
  have e : ds1 = ds := by
    rw [h1] at g1
    injection g1 with g1
    exact g1.symm
  subst e
  refine ⟨ds1, h1, ?_, g2⟩
  intro d hmem
  rcases List.mem_cons.mp hmem with e | e
  · rw [e]; exact fun _ => rfl
  · exact h3 d e

/-- Witness for C20: Fn, Fn+Super, the second event of F10, then everything
released: the flag is set by the third report and cleared by the fourth. -/
theorem sticky_clear_at_idle_witness :
    gigabyte_kbd_probe_aero17xe5 true = (0, some ⟨0, false⟩)
    ∧ ∃ ds, run_reports 35 ⟨0, false⟩
          [(⟨0, HID_INPUT_REPORT⟩, report36 [0x00, 0, 0x72]),
           (⟨0, HID_INPUT_REPORT⟩, report36 [0x08, 0, 0x72]),
           (⟨0, HID_INPUT_REPORT⟩, report36 [0x09, 0, 0x72, 0x73]),
           (⟨0, HID_INPUT_REPORT⟩, report36 [0x00, 0, 0x04])] = .ok ds
        ∧ (∀ d ∈ (⟨0, false⟩ : gigabyte_kbd_aero17xe5_drvdata) :: ds,
            d.fn_f10_seq = 0 → d.fn_f10_ctrl_down = false)
        ∧ ds.map (fun d => d.fn_f10_ctrl_down)
          = sticky_by_history false ⟨0, false⟩
              ([(⟨0, HID_INPUT_REPORT⟩, report36 [0x00, 0, 0x72]),
                (⟨0, HID_INPUT_REPORT⟩, report36 [0x08, 0, 0x72]),
                (⟨0, HID_INPUT_REPORT⟩, report36 [0x09, 0, 0x72, 0x73]),
                ((⟨0, HID_INPUT_REPORT⟩ : hid_report), report36 [0x00, 0, 0x04])].zip ds) :=
  sticky_clear_at_idle 35 _ (by decide)

end GigabyteKbd
